import Mathlib

/-!
# The CPython binding generator of gopy (`bind/gencpy.go`)

A shallow embedding of the generator `cpyGen` and proofs about the text it emits.

The generator writes into two printers (`decl`, `impl`).  A printer is embedded as the
sequence of operations performed on it: every `Printf` call is recorded with its format
string and its argument list, every `Indent`/`Outdent` as such, and every call of a `Var`
method that receives the printer (`genDecl`, `genRecvDecl`, ...) as a `call` event.
Statements about "the emitted call", "the emitted entry" and so on are therefore
statements about the `Printf` statement of the generator that writes it, together with
the arguments it is given.

Braces, quotes and apostrophes inside format strings are written with their `\x..`
escapes; the string values are those of the Go source.
-/

set_option linter.dupNamespace false

namespace Gencpy

/-! ## Metadata supplied by the rest of package `bind` -/

/-- A Go type (`types.Type`).  The generator only passes it on to helpers. -/
structure Typ where
  repr : String
  deriving DecidableEq

/-- What the generator reads of a package handle: `Name()` and `Path()`. -/
structure PkgInfo where
  Name : String
  Path : String
  deriving DecidableEq

/-- Modelled from the spec: `Var` is declared outside this file; it is "a typed value used
as parameter, result, field, or receiver" that "carries its value type and a
generation-assigned local name".  It is represented by the arguments `newVar` receives. -/
structure Var where
  pkg : PkgInfo
  typ : Typ
  objname : String
  name : String
  doc : String
  deriving DecidableEq

/-- Modelled from the spec: `newVar(pkg, typ, objname, name, doc)` is declared outside this
file; it creates the `Var` described by its arguments. -/
def newVar (p : PkgInfo) (typ : Typ) (objname name doc : String) : Var :=
  ⟨p, typ, objname, name, doc⟩

/-- Modelled from the spec: `(*Var).Name()` is declared outside this file; it returns the
generation-assigned local name. -/
def Var.Name (v : Var) : String := v.name

/-- The helpers of package `bind` that this file calls and that are defined elsewhere.
They are parameters of the development: every theorem holds for every choice of them. -/
structure Helpers where
  getArgParse : Var → String × String
  getFuncArg : Var → String
  isGoString : Var → Bool
  CGoType : Var → String
  cgoTypeName : Typ → String
  needWrapType : Typ → Bool

/-- A function signature: `Recv()`, `Params()`, `Results()`. -/
structure Signature where
  Recv : Option Var
  Params : List Var
  Results : List Var
  deriving DecidableEq

/-- A function or method: `ID()`, `GoName()`, `Doc()`, `Signature()`, `Return()`
(`Return()` is `nil` when the function returns no value). -/
structure Func where
  ID : String
  GoName : String
  Doc : String
  Signature : Signature
  Return : Option Typ
  deriving DecidableEq

/-- A struct field as seen through `types.Object`: `Name()`, `Exported()`, `Type()`. -/
structure FieldObj where
  Name : String
  Exported : Bool
  typ : Typ
  deriving DecidableEq

/-- The `*types.Struct` of a struct: its fields in declaration order
(`NumFields()` is the length, `Field(i)` the `i`-th element). -/
structure StructType where
  fields : List FieldObj
  deriving DecidableEq

/-- A struct to bind: `Package()`, `GoName()`, `ID()`, `Doc()`, `GoType()`, `Struct()`,
the bound methods `meths` and the protocol bits `prots`. -/
structure Struct where
  Package : PkgInfo
  GoName : String
  ID : String
  Doc : String
  GoType : Typ
  Struct : StructType
  meths : List Func
  prots : Nat
  deriving DecidableEq

/-- The package being generated: `pkg` (name and path), `doc.Doc`, `structs`, `funcs`. -/
structure Package where
  pkg : PkgInfo
  doc : String
  structs : List Struct
  funcs : List Func
  deriving DecidableEq

/-! ## The printer -/

/-- An argument of a `Printf` call. -/
inductive Arg where
  | str (s : String)
  | int (n : Nat)
  deriving DecidableEq

/-- The `Var` methods that write to a printer and are defined outside this file. -/
inductive VarMethod where
  | genDecl
  | genRecvDecl
  | genRecvImpl
  | genRetDecl
  | genFuncPreamble
  deriving DecidableEq

/-- One operation performed on a printer. -/
inductive Op where
  | printf (format : String) (args : List Arg)
  | indent
  | outdent
  | call (m : VarMethod) (v : Var)
  deriving DecidableEq

/-- Modelled from the spec: the "text-emission/formatting primitive used to write indented
source text" (`printer`) is declared outside this file; a printer is the append-only
sequence of the operations performed on it. -/
structure printer where
  ops : List Op
  deriving DecidableEq

/-- Records `p.Printf(format, args...)`. -/
def printer.Printf (p : printer) (format : String) (args : List Arg) : printer :=
  ⟨p.ops ++ [Op.printf format args]⟩

/-- Records `p.Indent()`. -/
def printer.Indent (p : printer) : printer := ⟨p.ops ++ [Op.indent]⟩

/-- Records `p.Outdent()`. -/
def printer.Outdent (p : printer) : printer := ⟨p.ops ++ [Op.outdent]⟩

/-- Records `v.genDecl(p)`. -/
def Var.genDecl (v : Var) (p : printer) : printer := ⟨p.ops ++ [Op.call .genDecl v]⟩

/-- Records `v.genRecvDecl(p)`. -/
def Var.genRecvDecl (v : Var) (p : printer) : printer := ⟨p.ops ++ [Op.call .genRecvDecl v]⟩

/-- Records `v.genRecvImpl(p)`. -/
def Var.genRecvImpl (v : Var) (p : printer) : printer := ⟨p.ops ++ [Op.call .genRecvImpl v]⟩

/-- Records `v.genRetDecl(p)`. -/
def Var.genRetDecl (v : Var) (p : printer) : printer := ⟨p.ops ++ [Op.call .genRetDecl v]⟩

/-- Records `v.genFuncPreamble(p)`. -/
def Var.genFuncPreamble (v : Var) (p : printer) : printer :=
  ⟨p.ops ++ [Op.call .genFuncPreamble v]⟩

/-- Go `strings.Join(elems, sep)`. -/
def strings.Join (elems : List String) (sep : String) : String := sep.intercalate elems

/-! ## The generator state -/

/-- The generator `cpyGen` (its `fset` field is not used by this file). -/
structure cpyGen where
  decl : printer
  impl : printer
  pkg : Package
  err : List String
  deriving DecidableEq

/-- Shorthand for `g.decl.Printf(format, args...)`. -/
def cpyGen.declPrintf (g : cpyGen) (format : String) (args : List Arg) : cpyGen :=
  { g with decl := g.decl.Printf format args }

/-- Shorthand for `g.impl.Printf(format, args...)`. -/
def cpyGen.implPrintf (g : cpyGen) (format : String) (args : List Arg) : cpyGen :=
  { g with impl := g.impl.Printf format args }

/-- Shorthand for `g.decl.Indent()`. -/
def cpyGen.declIndent (g : cpyGen) : cpyGen := { g with decl := g.decl.Indent }

/-- Shorthand for `g.decl.Outdent()`. -/
def cpyGen.declOutdent (g : cpyGen) : cpyGen := { g with decl := g.decl.Outdent }

/-- Shorthand for `g.impl.Indent()`. -/
def cpyGen.implIndent (g : cpyGen) : cpyGen := { g with impl := g.impl.Indent }

/-- Shorthand for `g.impl.Outdent()`. -/
def cpyGen.implOutdent (g : cpyGen) : cpyGen := { g with impl := g.impl.Outdent }

/-- Shorthand for `m(g.impl)` where `m` is a `Var` method taking the printer. -/
def cpyGen.onImpl (g : cpyGen) (m : printer → printer) : cpyGen := { g with impl := m g.impl }

/-! ## Function and method trampolines (`genFuncBody`, gencpy.go:123-226) -/

/-- The body of a trampoline, `(g *cpyGen) genFuncBody(f Func)`. -/
def cpyGen.genFuncBody (h : Helpers) (g : cpyGen) (f : Func) : cpyGen :=
  let id := f.ID
  let sig := f.Signature
  let funcArgs : List String := []
  let res := sig.Results
  let args := sig.Params
  let recv := sig.Recv
  -- if sig.Recv() != nil
  let gf : cpyGen × List String :=
    match recv with
    | some r => (g.onImpl r.genRecvDecl, funcArgs ++ [h.getFuncArg r])
    | none => (g, funcArgs)
  -- for _, arg := range args
  let gf : cpyGen × List String :=
    args.foldl (fun st arg => (st.1.onImpl arg.genDecl, st.2 ++ [h.getFuncArg arg])) gf
  let g := gf.1
  let funcArgs := gf.2
  -- if len(res) > 0 { switch len(res) ... }
  let g :=
    if res.length > 0 then
      match res with
      | [ret] => g.onImpl ret.genRetDecl
      | _ => g.implPrintf "struct %[1]s_return c_gopy_ret;\n" [.str id]
    else g
  let g := g.implPrintf "\n" []
  -- if recv != nil
  let g :=
    match recv with
    | some r => g.onImpl r.genRecvImpl
    | none => g
  let g :=
    if args.length > 0 then
      let g := g.implPrintf "if (!PyArg_ParseTuple(args, " []
      let fa : List String × List String :=
        args.foldl
          (fun st arg => (st.1 ++ [(h.getArgParse arg).1], st.2 ++ [(h.getArgParse arg).2]))
          ([], [])
      let format := fa.1
      let pyaddrs := fa.2
      let g := g.implPrintf "%q, %s)) \x7b\n"
        [.str (strings.Join format ""), .str (strings.Join pyaddrs ", ")]
      let g := g.implIndent
      let g := g.implPrintf "return NULL;\n" []
      let g := g.implOutdent
      g.implPrintf "\x7d\n\n" []
    else g
  let g :=
    if args.length > 0 then
      let g := args.foldl (fun g arg => g.onImpl arg.genFuncPreamble) g
      g.implPrintf "\n" []
    else g
  let g :=
    if res.length > 0 then g.implPrintf "c_gopy_ret = " [] else g
  let g := g.implPrintf "GoPy_%[1]s(%[2]s);\n" [.str id, .str (strings.Join funcArgs ", ")]
  let g := g.implPrintf "\n" []
  if res.length ≤ 0 then
    -- early return
    g.implPrintf "Py_INCREF(Py_None);\nreturn Py_None;\n" []
  else
    let format : List String := []
    let funcArgs : List String := []
    let ff : List String × List String :=
      match res with
      | [ret] => (format ++ [(h.getArgParse ret).1], funcArgs ++ ["c_gopy_ret"])
      | _ =>
        res.foldl
          (fun st ret => (st.1 ++ [(h.getArgParse ret).1], st.2 ++ [h.getFuncArg ret]))
          (format, funcArgs)
    g.implPrintf "return Py_BuildValue(%q, %s);\n"
      [.str (strings.Join ff.1 ""), .str (strings.Join ff.2 ", ")]

/-- The body of a method trampoline, `(g *cpyGen) genMethodBody(fct Func)`. -/
def cpyGen.genMethodBody (h : Helpers) (g : cpyGen) (fct : Func) : cpyGen :=
  g.genFuncBody h fct

/-- One method trampoline, `(g *cpyGen) genMethod(cpy Struct, fct Func)`. -/
def cpyGen.genMethod (h : Helpers) (g : cpyGen) (cpy : Struct) (fct : Func) : cpyGen :=
  let pkgname := g.pkg.pkg.Name
  let g := g.declPrintf "/* wrapper of %[1]s.%[2]s */\n"
    [.str pkgname, .str (cpy.GoName ++ "." ++ fct.GoName)]
  let g := g.declPrintf "static PyObject*\n" []
  let g := g.declPrintf "gopy_%s(PyObject *self, PyObject *args);\n" [.str fct.ID]
  let g := g.implPrintf "/* wrapper of %[1]s.%[2]s */\n"
    [.str pkgname, .str (cpy.GoName ++ "." ++ fct.GoName)]
  let g := g.implPrintf "static PyObject*\n" []
  let g := g.implPrintf "gopy_%s(PyObject *self, PyObject *args) \x7b\n" [.str fct.ID]
  let g := g.implIndent
  let g := g.genMethodBody h fct
  let g := g.implOutdent
  g.implPrintf "\x7d\n\n" []

/-- The method table of a struct, `(g *cpyGen) genStructMethods(cpy Struct)`. -/
def cpyGen.genStructMethods (h : Helpers) (g : cpyGen) (cpy : Struct) : cpyGen :=
  let pkgname := cpy.Package.Name
  let g := g.declPrintf "/* methods for %s.%s */\n\n" [.str pkgname, .str cpy.GoName]
  let g := cpy.meths.foldl (fun g m => g.genMethod h cpy m) g
  let g := g.implPrintf "static PyMethodDef _gopy_%s_methods[] = \x7b\n" [.str cpy.ID]
  let g := g.implIndent
  let g := cpy.meths.foldl
    (fun g m =>
      let margs := "METH_VARARGS"
      let margs := if m.Return = none then "METH_NOARGS" else margs
      g.implPrintf "\x7b%[1]q, (PyCFunction)gopy_%[2]s, %[3]s, %[4]q\x7d,\n"
        [.str m.GoName, .str m.ID, .str margs, .str m.Doc])
    g
  let g := g.implPrintf "\x7bNULL\x7d /* sentinel */\n" []
  let g := g.implOutdent
  g.implPrintf "\x7d;\n\n" []

/-! ## Field accessors (`genStructMembers`, gencpy.go:360-570) -/

/-- The getter of field `f` at position `i`,
`(g *cpyGen) genStructMemberGetter(cpy Struct, i int, f types.Object)`.
The block guarded by `if false` (gencpy.go:427-440) never runs and the locals that only
feed it (`recv`, `self`, `params`, `fgetname`, `fgetid`, `fgetret`) are left out. -/
def cpyGen.genStructMemberGetter (h : Helpers) (g : cpyGen) (cpy : Struct) (i : Nat)
    (f : FieldObj) : cpyGen :=
  let pkg := cpy.Package
  let ft := f.typ
  let g := g.declPrintf "static PyObject*\n" []
  let g := g.declPrintf
    "_gopy_%[1]s_getter_%[2]d(_gopy_%[1]s *self, void *closure); /* %[3]s */\n"
    [.str cpy.ID, .int (i + 1), .str f.Name]
  let g := g.implPrintf "static PyObject*\n" []
  let g := g.implPrintf
    "_gopy_%[1]s_getter_%[2]d(_gopy_%[1]s *self, void *closure) /* %[3]s */ \x7b\n"
    [.str cpy.ID, .int (i + 1), .str f.Name]
  let g := g.implIndent
  let ifield := newVar pkg ft f.Name "ret" ""
  let results := [ifield]
  let g := g.implPrintf "PyObject *o = NULL;\n" []
  let ftname := h.cgoTypeName ft
  let g :=
    if h.needWrapType ft then
      -- fmt.Sprintf("GoPy_%[1]s_field_%d", cpy.GoName(), i+1)
      let ftname := "GoPy_" ++ cpy.GoName ++ "_field_" ++ toString (i + 1)
      g.implPrintf "%[1]s cgopy_ret = GoPy_%[2]s_getter_%[3]d(self->cgopy);\n"
        [.str ftname, .str cpy.ID, .int (i + 1)]
    else if h.isGoString ifield then
      let g := g.onImpl ifield.genDecl
      let g := g.implPrintf "c_ret = (%[1]s)GoPy_%[2]s_getter_%[3]d(self->cgopy);\n"
        [.str ftname, .str cpy.ID, .int (i + 1)]
      g.implPrintf "cgopy_%[1]s = CGoPy_CString(c_%[1]s);\n" [.str ifield.Name]
    else
      g.implPrintf "%[1]s cgopy_ret = GoPy_%[2]s_getter_%[3]d(self->cgopy);\n"
        [.str ftname, .str cpy.ID, .int (i + 1)]
  let format : List String := []
  let funcArgs : List String := []
  -- switch len(results): `results` is the one-element list above, so the
  -- `default: panic("bind: impossible")` arm is never taken
  let ff : List String × List String :=
    match results with
    | [ret] => (format ++ [(h.getArgParse ret).1], funcArgs ++ ["cgopy_ret"])
    | _ => (format, funcArgs)
  let g := g.implPrintf "o = Py_BuildValue(%q, %s);\n"
    [.str (strings.Join ff.1 ""), .str (strings.Join ff.2 ", ")]
  let g :=
    if h.isGoString ifield then
      g.implPrintf "free((void*)cgopy_%[1]s);\n" [.str ifield.Name]
    else g
  let g := g.implPrintf "return o;\n" []
  let g := g.implOutdent
  g.implPrintf "\x7d\n\n" []

/-- The setter of field `f` at position `i`,
`(g *cpyGen) genStructMemberSetter(cpy Struct, i int, f types.Object)`. -/
def cpyGen.genStructMemberSetter (h : Helpers) (g : cpyGen) (cpy : Struct) (i : Nat)
    (f : FieldObj) : cpyGen :=
  let pkg := cpy.Package
  let ft := f.typ
  let self := newVar pkg cpy.GoType cpy.GoName "self" ""
  let ifield := newVar pkg ft f.Name "ret" ""
  -- fmt.Sprintf("GoPy_%[1]s_setter_%[2]d", cpy.ID(), i+1)
  let fsetname := "GoPy_" ++ cpy.ID ++ "_setter_" ++ toString (i + 1)
  let g := g.declPrintf "static int\n" []
  let g := g.declPrintf
    "_gopy_%[1]s_setter_%[2]d(_gopy_%[1]s *self, PyObject *value, void *closure);\n"
    [.str cpy.ID, .int (i + 1)]
  let g := g.implPrintf "static int\n" []
  let g := g.implPrintf
    "_gopy_%[1]s_setter_%[2]d(_gopy_%[1]s *self, PyObject *value, void *closure) \x7b\n"
    [.str cpy.ID, .int (i + 1)]
  let g := g.implIndent
  let g := g.onImpl ifield.genDecl
  let g := g.implPrintf "PyObject *tuple = NULL;\n\n" []
  let g := g.implPrintf "if (value == NULL) \x7b\n" []
  let g := g.implIndent
  let g := g.implPrintf
    "PyErr_SetString(PyExc_TypeError, \x22Cannot delete \x27%[1]s\x27 attribute\x22);\n"
    [.str f.Name]
  let g := g.implPrintf "return -1;\n" []
  let g := g.implOutdent
  let g := g.implPrintf "\x7d\n" []
  let g := g.implPrintf "tuple = PyTuple_New(1);\n" []
  let g := g.implPrintf "Py_INCREF(value);\n" []
  let g := g.implPrintf "PyTuple_SET_ITEM(tuple, 0, value);\n\n" []
  let g := g.implPrintf "\nif (!PyArg_ParseTuple(tuple, " []
  let pp := h.getArgParse ifield
  let pyfmt := pp.1
  let pyaddr := pp.2
  let g := g.implPrintf "%q, %s)) \x7b\n" [.str pyfmt, .str pyaddr]
  let g := g.implIndent
  let g := g.implPrintf "Py_DECREF(tuple);\n" []
  let g := g.implPrintf "return -1;\n" []
  let g := g.implOutdent
  let g := g.implPrintf "\x7d\n" []
  let g := g.implPrintf "Py_DECREF(tuple);\n\n" []
  let g :=
    if h.isGoString ifield then
      g.implPrintf "c_%[1]s = CGoPy_GoString((char*)cgopy_%[1]s);\n" [.str ifield.Name]
    else g
  let g := g.implPrintf "%[1]s((%[2]s)(self->cgopy), c_%[3]s);\n"
    [.str fsetname, .str (h.CGoType self), .str ifield.Name]
  let g := g.implPrintf "return 0;\n" []
  let g := g.implOutdent
  g.implPrintf "\x7d\n\n" []

/-- The accessors and the getset table of a struct,
`(g *cpyGen) genStructMembers(cpy Struct)`.  Both loops run `i` over
`0 .. typ.NumFields()-1` with `f := typ.Field(i)` and skip unexported fields. -/
def cpyGen.genStructMembers (h : Helpers) (g : cpyGen) (cpy : Struct) : cpyGen :=
  let pkgname := cpy.Package.Name
  let typ := cpy.Struct
  let g := g.declPrintf "/* tp_getset for %s.%v */\n" [.str pkgname, .str cpy.GoName]
  let g := typ.fields.enum.foldl
    (fun g p =>
      let i := p.1
      let f := p.2
      if !f.Exported then g
      else
        let g := g.genStructMemberGetter h cpy i f
        g.genStructMemberSetter h cpy i f)
    g
  let g := g.implPrintf "/* tp_getset for %s.%v */\n" [.str pkgname, .str cpy.GoName]
  let g := g.implPrintf "static PyGetSetDef _gopy_%s_getsets[] = \x7b\n" [.str cpy.ID]
  let g := g.implIndent
  let g := typ.fields.enum.foldl
    (fun g p =>
      let i := p.1
      let f := p.2
      if !f.Exported then g
      else
        let doc := "doc for " ++ f.Name
        let g := g.implPrintf "\x7b%q, " [.str f.Name]
        let g := g.implPrintf "(getter)_gopy_%[1]s_getter_%[2]d, " [.str cpy.ID, .int (i + 1)]
        let g := g.implPrintf "(setter)_gopy_%[1]s_setter_%[2]d, " [.str cpy.ID, .int (i + 1)]
        g.implPrintf "%q, NULL\x7d,\n" [.str doc])
    g
  let g := g.implPrintf "\x7bNULL\x7d /* Sentinel */\n" []
  let g := g.implOutdent
  g.implPrintf "\x7d;\n\n" []


/-! ## Reading the operation sequence -/

/-- The arguments of `op` when it is a `Printf` call with format `format`. -/
def Op.argsOf (format : String) : Op → Option (List Arg)
  | .printf f a => if f = format then some a else none
  | _ => none

/-- The argument lists of the `Printf` calls with format `format`, in emission order. -/
def printfArgs (format : String) (ops : List Op) : List (List Arg) :=
  ops.filterMap (Op.argsOf format)

/-! ## The operations of `genFuncBody`, segment by segment

These lists are proved equal to what the embedding appends (`impl_genFuncBody`). -/

/-- Declarations of the receiver, the parameters and the result, and the blank line. -/
def fbDecls (f : Func) : List Op :=
  f.Signature.Recv.toList.map (Op.call .genRecvDecl)
  ++ f.Signature.Params.map (Op.call .genDecl)
  ++ (match f.Signature.Results with
      | [] => []
      | [ret] => [Op.call .genRetDecl ret]
      | _ => [Op.printf "struct %[1]s_return c_gopy_ret;\n" [.str f.ID]])
  ++ [Op.printf "\n" []]

/-- The receiver unwrapping. -/
def fbRecvImpl (f : Func) : List Op :=
  f.Signature.Recv.toList.map (Op.call .genRecvImpl)

/-- The argument-parse check with its failure branch. -/
def fbParse (h : Helpers) (f : Func) : List Op :=
  if f.Signature.Params = [] then []
  else
    [Op.printf "if (!PyArg_ParseTuple(args, " [],
     Op.printf "%q, %s)) \x7b\n"
       [.str (strings.Join (f.Signature.Params.map fun a => (h.getArgParse a).1) ""),
        .str (strings.Join (f.Signature.Params.map fun a => (h.getArgParse a).2) ", ")],
     Op.indent, Op.printf "return NULL;\n" [], Op.outdent, Op.printf "\x7d\n\n" []]

/-- The per-argument fixups after parsing. -/
def fbPreamble (f : Func) : List Op :=
  if f.Signature.Params = [] then []
  else f.Signature.Params.map (Op.call .genFuncPreamble) ++ [Op.printf "\n" []]

/-- The assignment prefix of the wrapped call. -/
def fbAssign (f : Func) : List Op :=
  if f.Signature.Results = [] then [] else [Op.printf "c_gopy_ret = " []]

/-- The wrapped call. -/
def fbCall (h : Helpers) (f : Func) : Op :=
  Op.printf "GoPy_%[1]s(%[2]s);\n"
    [.str f.ID,
     .str (strings.Join ((f.Signature.Recv.toList ++ f.Signature.Params).map h.getFuncArg) ", ")]

/-- The value arguments of the packing call. -/
def fbValues (h : Helpers) (f : Func) : List String :=
  if f.Signature.Results.length = 1 then ["c_gopy_ret"]
  else f.Signature.Results.map h.getFuncArg

/-- The return statement. -/
def fbReturn (h : Helpers) (f : Func) : Op :=
  if f.Signature.Results = [] then Op.printf "Py_INCREF(Py_None);\nreturn Py_None;\n" []
  else
    Op.printf "return Py_BuildValue(%q, %s);\n"
      [.str (strings.Join (f.Signature.Results.map fun r => (h.getArgParse r).1) ""),
       .str (strings.Join (fbValues h f) ", ")]

/-- Everything `genFuncBody` appends to the implementation printer. -/
def funcBodyOps (h : Helpers) (f : Func) : List Op :=
  fbDecls f ++ fbRecvImpl f ++ fbParse h f ++ fbPreamble f ++ fbAssign f
    ++ [fbCall h f] ++ [Op.printf "\n" []] ++ [fbReturn h f]

/-! ## The operations of the accessors -/

/-- A generator for package `p` that has not emitted anything yet. -/
def cpyGen.fresh (p : Package) : cpyGen := ⟨⟨[]⟩, ⟨[]⟩, p, []⟩

/-- What `genStructMemberGetter` appends to the implementation printer. -/
def getterImplOps (h : Helpers) (cpy : Struct) (i : Nat) (f : FieldObj) : List Op :=
  ((cpyGen.fresh ⟨cpy.Package, "", [], []⟩).genStructMemberGetter h cpy i f).impl.ops

/-- What `genStructMemberGetter` appends to the declarations printer. -/
def getterDeclOps (h : Helpers) (cpy : Struct) (i : Nat) (f : FieldObj) : List Op :=
  ((cpyGen.fresh ⟨cpy.Package, "", [], []⟩).genStructMemberGetter h cpy i f).decl.ops

/-- What `genStructMemberSetter` appends to the implementation printer. -/
def setterImplOps (h : Helpers) (cpy : Struct) (i : Nat) (f : FieldObj) : List Op :=
  ((cpyGen.fresh ⟨cpy.Package, "", [], []⟩).genStructMemberSetter h cpy i f).impl.ops

/-- What `genStructMemberSetter` appends to the declarations printer. -/
def setterDeclOps (h : Helpers) (cpy : Struct) (i : Nat) (f : FieldObj) : List Op :=
  ((cpyGen.fresh ⟨cpy.Package, "", [], []⟩).genStructMemberSetter h cpy i f).decl.ops

/-- The exported fields of a struct, each with its 0-based position among all the fields
of the struct. -/
def exportedFields (cpy : Struct) : List (Nat × FieldObj) :=
  cpy.Struct.fields.enum.filter (fun p => p.2.Exported)

/-- What `genMethod` appends to the implementation printer, `pkgname` being the name of the
package under generation. -/
def methodImplOps (h : Helpers) (pkgname : String) (cpy : Struct) (fct : Func) : List Op :=
  [Op.printf "/* wrapper of %[1]s.%[2]s */\n"
     [.str pkgname, .str (cpy.GoName ++ "." ++ fct.GoName)],
   Op.printf "static PyObject*\n" [],
   Op.printf "gopy_%s(PyObject *self, PyObject *args) \x7b\n" [.str fct.ID],
   Op.indent]
  ++ funcBodyOps h fct ++ [Op.outdent, Op.printf "\x7d\n\n" []]

/-- The four `Printf` calls that write the getset table entry of the field `p.2` at
position `p.1`. -/
def getsetEntryOps (cpy : Struct) (p : Nat × FieldObj) : List Op :=
  [Op.printf "\x7b%q, " [.str p.2.Name],
   Op.printf "(getter)_gopy_%[1]s_getter_%[2]d, " [.str cpy.ID, .int (p.1 + 1)],
   Op.printf "(setter)_gopy_%[1]s_setter_%[2]d, " [.str cpy.ID, .int (p.1 + 1)],
   Op.printf "%q, NULL\x7d,\n" [.str ("doc for " ++ p.2.Name)]]

/-- The accessor definitions of the field `p.2` at position `p.1`. -/
def accessorImplOps (h : Helpers) (cpy : Struct) (p : Nat × FieldObj) : List Op :=
  getterImplOps h cpy p.1 p.2 ++ setterImplOps h cpy p.1 p.2

/-- The accessor prototypes of the field `p.2` at position `p.1`. -/
def accessorDeclOps (h : Helpers) (cpy : Struct) (p : Nat × FieldObj) : List Op :=
  getterDeclOps h cpy p.1 p.2 ++ setterDeclOps h cpy p.1 p.2

/-- What `genStructMembers` appends to the implementation printer: the accessors of the
exported fields, then the getset table. -/
def membersImplOps (h : Helpers) (cpy : Struct) : List Op :=
  (exportedFields cpy).flatMap (accessorImplOps h cpy) ++
  [Op.printf "/* tp_getset for %s.%v */\n" [.str cpy.Package.Name, .str cpy.GoName],
   Op.printf "static PyGetSetDef _gopy_%s_getsets[] = \x7b\n" [.str cpy.ID],
   Op.indent] ++
  (exportedFields cpy).flatMap (getsetEntryOps cpy) ++
  [Op.printf "\x7bNULL\x7d /* Sentinel */\n" [], Op.outdent, Op.printf "\x7d;\n\n" []]

/-- What `genStructMembers` appends to the declarations printer: the comment line, then
the accessor prototypes of the exported fields. -/
def membersDeclOps (h : Helpers) (cpy : Struct) : List Op :=
  [Op.printf "/* tp_getset for %s.%v */\n" [.str cpy.Package.Name, .str cpy.GoName]] ++
  (exportedFields cpy).flatMap (accessorDeclOps h cpy)

/-- What `genStructMethods` appends to the implementation printer: the trampolines of the
bound methods, then the method table. -/
def methodsImplOps (h : Helpers) (pkgname : String) (cpy : Struct) : List Op :=
  cpy.meths.flatMap (methodImplOps h pkgname cpy) ++
  [Op.printf "static PyMethodDef _gopy_%s_methods[] = \x7b\n" [.str cpy.ID], Op.indent] ++
  cpy.meths.map (fun m =>
    Op.printf "\x7b%[1]q, (PyCFunction)gopy_%[2]s, %[3]s, %[4]q\x7d,\n"
      [.str m.GoName, .str m.ID,
       .str (if m.Return = none then "METH_NOARGS" else "METH_VARARGS"), .str m.Doc]) ++
  [Op.printf "\x7bNULL\x7d /* sentinel */\n" [], Op.outdent, Op.printf "\x7d;\n\n" []]

/-! ## Struct hooks, type record and module (`genStruct`, `genFunc`, `gen`)

The constant `ProtoStringer` (the capability bit "has a textual representation") is declared
outside this file; it is a parameter of the functions that test it. -/

/-- The zero value of `Func` (`var m Func`): empty strings, no receiver, no parameters, no
results, `nil` return type. -/
def Func.zero : Func := ⟨"", "", "", ⟨none, [], []⟩, none⟩

/-- The loop of `genStructTPStr` (gencpy.go:646-651): `m` becomes the first method whose
`GoName()` is `"String"` and the loop stops there; if there is none `m` keeps its value. -/
def firstStringMethod (m : Func) : List Func → Func
  | [] => m
  | f :: fs => if f.GoName = "String" then f else firstStringMethod m fs

/-- The hook `tp_str`, `(g *cpyGen) genStructTPStr(cpy Struct)`. -/
def cpyGen.genStructTPStr (ProtoStringer : Nat) (g : cpyGen) (cpy : Struct) : cpyGen :=
  let g := g.declPrintf "static PyObject*\n_gopy_%s_tp_str(PyObject *self);\n" [.str cpy.ID]
  let g := g.implPrintf "static PyObject*\n_gopy_%s_tp_str(PyObject *self) \x7b\n"
    [.str cpy.ID]
  if (cpy.prots &&& ProtoStringer) = 0 then
    let g := g.implIndent
    let g := g.implPrintf "return PyObject_Repr(self);\n" []
    let g := g.implOutdent
    -- early return
    g.implPrintf "\x7d\n\n" []
  else
    let m : Func := firstStringMethod Func.zero cpy.meths
    let g := g.implIndent
    let g := g.implPrintf "return gopy_%[1]s(self, 0);\n" [.str m.ID]
    let g := g.implOutdent
    g.implPrintf "\x7d\n\n" []

/-- The protocol hooks, `(g *cpyGen) genStructProtocols(cpy Struct)`. -/
def cpyGen.genStructProtocols (ProtoStringer : Nat) (g : cpyGen) (cpy : Struct) : cpyGen :=
  g.genStructTPStr ProtoStringer cpy

/-- The hook `tp_dealloc`, `(g *cpyGen) genStructDealloc(cpy Struct)`. -/
def cpyGen.genStructDealloc (g : cpyGen) (cpy : Struct) : cpyGen :=
  let pkgname := cpy.Package.Name
  let g := g.declPrintf "/* tp_dealloc for %s.%v */\n" [.str pkgname, .str cpy.GoName]
  let g := g.declPrintf "static void\n_gopy_%[1]s_dealloc(_gopy_%[1]s *self);\n" [.str cpy.ID]
  let g := g.implPrintf "/* tp_dealloc for %s.%v */\n" [.str pkgname, .str cpy.GoName]
  let g := g.implPrintf "static void\n_gopy_%[1]s_dealloc(_gopy_%[1]s *self) \x7b\n"
    [.str cpy.ID]
  let g := g.implIndent
  let g := g.implPrintf "self->ob_type->tp_free((PyObject*)self);\n" []
  let g := g.implOutdent
  g.implPrintf "\x7d\n\n" []

/-- The hook `tp_new`, `(g *cpyGen) genStructNew(cpy Struct)`. -/
def cpyGen.genStructNew (g : cpyGen) (cpy : Struct) : cpyGen :=
  let pkgname := cpy.Package.Name
  let g := g.declPrintf "/* tp_new for %s.%v */\n" [.str pkgname, .str cpy.GoName]
  let g := g.declPrintf
    "static PyObject*\n_gopy_%s_new(PyTypeObject *type, PyObject *args, PyObject *kwds);\n"
    [.str cpy.ID]
  let g := g.implPrintf "/* tp_new */\n" []
  let g := g.implPrintf
    "static PyObject*\n_gopy_%s_new(PyTypeObject *type, PyObject *args, PyObject *kwds) \x7b\n"
    [.str cpy.ID]
  let g := g.implIndent
  let g := g.implPrintf "_gopy_%s *self;\n" [.str cpy.ID]
  let g := g.implPrintf "self = (_gopy_%s *)type->tp_alloc(type, 0);\n" [.str cpy.ID]
  let g := g.implPrintf "self->cgopy = GoPy_%s_new();\n" [.str cpy.ID]
  let g := g.implPrintf "return (PyObject*)self;\n" []
  let g := g.implOutdent
  g.implPrintf "\x7d\n\n" []

/-- The hook `tp_init`, `(g *cpyGen) genStructInit(cpy Struct)`. -/
def cpyGen.genStructInit (g : cpyGen) (cpy : Struct) : cpyGen :=
  let pkgname := cpy.Package.Name
  let g := g.declPrintf "/* tp_init for %s.%v */\n" [.str pkgname, .str cpy.GoName]
  let g := g.declPrintf
    "static int\n_gopy_%[1]s_init(_gopy_%[1]s *self, PyObject *args, PyObject *kwds);\n"
    [.str cpy.ID]
  let g := g.implPrintf "/* tp_init */\n" []
  let g := g.implPrintf
    "static int\n_gopy_%[1]s_init(_gopy_%[1]s *self, PyObject *args, PyObject *kwds) \x7b\n"
    [.str cpy.ID]
  let g := g.implIndent
  let g := g.implPrintf "return 0;\n" []
  let g := g.implOutdent
  g.implPrintf "\x7d\n\n" []

/-- Everything for one struct, `(g *cpyGen) genStruct(cpy Struct)`. -/
def cpyGen.genStruct (h : Helpers) (ProtoStringer : Nat) (g : cpyGen) (cpy : Struct) :
    cpyGen :=
  let pkgname := cpy.Package.Name
  let g := g.declPrintf "/* --- decls for struct %s.%v --- */\n"
    [.str pkgname, .str cpy.GoName]
  let g := g.declPrintf "typedef void* GoPy_%s;\n\n" [.str cpy.ID]
  let g := g.declPrintf "/* type for struct %s.%v\n" [.str pkgname, .str cpy.GoName]
  let g := g.declPrintf " */\ntypedef struct \x7b\n" []
  let g := g.declIndent
  let g := g.declPrintf "PyObject_HEAD\n" []
  let g := g.declPrintf "GoPy_%[1]s cgopy; /* unsafe.Pointer to %[1]s */\n" [.str cpy.ID]
  let g := g.declOutdent
  let g := g.declPrintf "\x7d _gopy_%s;\n" [.str cpy.ID]
  let g := g.declPrintf "\n\n" []
  let g := g.implPrintf "/* --- impl for %s.%v */\n\n" [.str pkgname, .str cpy.GoName]
  let g := g.genStructNew cpy
  let g := g.genStructDealloc cpy
  let g := g.genStructInit cpy
  let g := g.genStructMembers h cpy
  let g := g.genStructMethods h cpy
  let g := g.genStructProtocols ProtoStringer cpy
  let g := g.implPrintf "static PyTypeObject _gopy_%sType = \x7b\n" [.str cpy.ID]
  let g := g.implIndent
  let g := g.implPrintf "PyObject_HEAD_INIT(NULL)\n" []
  let g := g.implPrintf "0,\t/*ob_size*/\n" []
  let g := g.implPrintf "\x22%s.%s\x22,\t/*tp_name*/\n" [.str pkgname, .str cpy.GoName]
  let g := g.implPrintf "sizeof(_gopy_%s),\t/*tp_basicsize*/\n" [.str cpy.ID]
  let g := g.implPrintf "0,\t/*tp_itemsize*/\n" []
  let g := g.implPrintf "(destructor)_gopy_%s_dealloc,\t/*tp_dealloc*/\n" [.str cpy.ID]
  let g := g.implPrintf "0,\t/*tp_print*/\n" []
  let g := g.implPrintf "0,\t/*tp_getattr*/\n" []
  let g := g.implPrintf "0,\t/*tp_setattr*/\n" []
  let g := g.implPrintf "0,\t/*tp_compare*/\n" []
  let g := g.implPrintf "0,\t/*tp_repr*/\n" []
  let g := g.implPrintf "0,\t/*tp_as_number*/\n" []
  let g := g.implPrintf "0,\t/*tp_as_sequence*/\n" []
  let g := g.implPrintf "0,\t/*tp_as_mapping*/\n" []
  let g := g.implPrintf "0,\t/*tp_hash */\n" []
  let g := g.implPrintf "0,\t/*tp_call*/\n" []
  let g := g.implPrintf "_gopy_%s_tp_str,\t/*tp_str*/\n" [.str cpy.ID]
  let g := g.implPrintf "0,\t/*tp_getattro*/\n" []
  let g := g.implPrintf "0,\t/*tp_setattro*/\n" []
  let g := g.implPrintf "0,\t/*tp_as_buffer*/\n" []
  let g := g.implPrintf "Py_TPFLAGS_DEFAULT,\t/*tp_flags*/\n" []
  let g := g.implPrintf "%q,\t/* tp_doc */\n" [.str cpy.Doc]
  let g := g.implPrintf "0,\t/* tp_traverse */\n" []
  let g := g.implPrintf "0,\t/* tp_clear */\n" []
  let g := g.implPrintf "0,\t/* tp_richcompare */\n" []
  let g := g.implPrintf "0,\t/* tp_weaklistoffset */\n" []
  let g := g.implPrintf "0,\t/* tp_iter */\n" []
  let g := g.implPrintf "0,\t/* tp_iternext */\n" []
  let g := g.implPrintf "_gopy_%s_methods,             /* tp_methods */\n" [.str cpy.ID]
  let g := g.implPrintf "0,\t/* tp_members */\n" []
  let g := g.implPrintf "_gopy_%s_getsets,\t/* tp_getset */\n" [.str cpy.ID]
  let g := g.implPrintf "0,\t/* tp_base */\n" []
  let g := g.implPrintf "0,\t/* tp_dict */\n" []
  let g := g.implPrintf "0,\t/* tp_descr_get */\n" []
  let g := g.implPrintf "0,\t/* tp_descr_set */\n" []
  let g := g.implPrintf "0,\t/* tp_dictoffset */\n" []
  let g := g.implPrintf "(initproc)_gopy_%s_init,      /* tp_init */\n" [.str cpy.ID]
  let g := g.implPrintf "0,                         /* tp_alloc */\n" []
  let g := g.implPrintf "_gopy_%s_new,\t/* tp_new */\n" [.str cpy.ID]
  let g := g.implOutdent
  g.implPrintf "\x7d;\n\n" []

/-- One free-function trampoline, `(g *cpyGen) genFunc(o Func)`. -/
def cpyGen.genFunc (h : Helpers) (g : cpyGen) (o : Func) : cpyGen :=
  let g := g.implPrintf
    "\n/* pythonization of: %[1]s.%[2]s */\nstatic PyObject*\ngopy_%[3]s(PyObject *self, PyObject *args) \x7b\n"
    [.str g.pkg.pkg.Name, .str o.GoName, .str o.ID]
  let g := g.implIndent
  let g := g.genFuncBody h o
  let g := g.implOutdent
  g.implPrintf "\x7d\n\n" []

/-- The format `cPreamble` (gencpy.go:17-34). -/
def cPreamble : String :=
  "/*\n  C stubs for package %[1]s.\n  gopy gen -lang=python %[1]s\n\n  File is generated by gopy gen. Do not edit.\n*/\n\n#ifdef _POSIX_C_SOURCE\n#undef _POSIX_C_SOURCE\n#endif\n\n#include \x22Python.h\x22\n#include \x22structmember.h\x22\n\n// header exported from \x27go tool cgo\x27\n#include \x22%[3]s.h\x22\n\n"

/-- Go `filepath.Base` on slash-separated paths: the last element of the path, after
removing trailing slashes; `"."` for the empty path and `"/"` for a path of slashes. -/
def filepath.Base (path : String) : String :=
  if path = "" then "."
  else
    let stripped := (path.data.reverse.dropWhile (fun c => c = '/')).reverse
    if stripped = [] then "/"
    else String.mk (stripped.reverse.takeWhile (fun c => c ≠ '/')).reverse

/-- The preamble, `(g *cpyGen) genPreamble()`. -/
def cpyGen.genPreamble (g : cpyGen) : cpyGen :=
  let n := g.pkg.pkg.Name
  g.declPrintf cPreamble [.str n, .str g.pkg.pkg.Path, .str (filepath.Base n)]

/-- The whole module, `(g *cpyGen) gen() error`.  The result pairs the generator after the
call with the returned error (`none` for `nil`). -/
def cpyGen.gen (h : Helpers) (ProtoStringer : Nat) (g : cpyGen) :
    cpyGen × Option (List String) :=
  let g := g.genPreamble
  -- first, process structs
  let g := g.pkg.structs.foldl (fun g s => g.genStruct h ProtoStringer s) g
  let g := g.pkg.funcs.foldl (fun g f => g.genFunc h f) g
  let g := g.implPrintf "static PyMethodDef cpy_%s_methods[] = \x7b\n" [.str g.pkg.pkg.Name]
  let g := g.implIndent
  let g := g.pkg.funcs.foldl
    (fun g f =>
      let name := f.GoName
      g.implPrintf "\x7b%[1]q, %[2]s, METH_VARARGS, %[3]q\x7d,\n"
        [.str name, .str ("gopy_" ++ f.ID), .str f.Doc])
    g
  let g := g.implPrintf "\x7bNULL, NULL, 0, NULL\x7d        /* Sentinel */\n" []
  let g := g.implOutdent
  let g := g.implPrintf "\x7d;\n\n" []
  let g := g.implPrintf "PyMODINIT_FUNC\ninit%[1]s(void)\n\x7b\n" [.str g.pkg.pkg.Name]
  let g := g.implIndent
  let g := g.implPrintf "PyObject *module = NULL;\n\n" []
  let g := g.pkg.structs.foldl
    (fun g s =>
      g.implPrintf "if (PyType_Ready(&_gopy_%sType) < 0) \x7b return; \x7d\n" [.str s.ID])
    g
  let g := g.implPrintf "module = Py_InitModule3(%[1]q, cpy_%[1]s_methods, %[2]q);\n\n"
    [.str g.pkg.pkg.Name, .str g.pkg.doc]
  let g := g.pkg.structs.foldl
    (fun g s =>
      let g := g.implPrintf "Py_INCREF(&_gopy_%sType);\n" [.str s.ID]
      g.implPrintf "PyModule_AddObject(module, %q, (PyObject*)&_gopy_%sType);\n\n"
        [.str s.GoName, .str s.ID])
    g
  let g := g.implOutdent
  let g := g.implPrintf "\x7d\n\n" []
  if g.err.length > 0 then (g, some g.err) else (g, none)

/-! ## The operations of the struct hooks, of `genStruct` and of `gen` -/

/-- The generator `g` after `D` was appended to its declarations printer and `I` to its
implementation printer. -/
def cpyGen.emit (g : cpyGen) (D I : List Op) : cpyGen :=
  { g with decl := ⟨g.decl.ops ++ D⟩, impl := ⟨g.impl.ops ++ I⟩ }

/-- What `genStructNew` appends to the declarations printer. -/
def newDeclOps (cpy : Struct) : List Op :=
  ((cpyGen.fresh ⟨cpy.Package, "", [], []⟩).genStructNew cpy).decl.ops

/-- What `genStructNew` appends to the implementation printer. -/
def newImplOps (cpy : Struct) : List Op :=
  ((cpyGen.fresh ⟨cpy.Package, "", [], []⟩).genStructNew cpy).impl.ops

/-- What `genStructDealloc` appends to the declarations printer. -/
def deallocDeclOps (cpy : Struct) : List Op :=
  ((cpyGen.fresh ⟨cpy.Package, "", [], []⟩).genStructDealloc cpy).decl.ops

/-- What `genStructDealloc` appends to the implementation printer. -/
def deallocImplOps (cpy : Struct) : List Op :=
  ((cpyGen.fresh ⟨cpy.Package, "", [], []⟩).genStructDealloc cpy).impl.ops

/-- What `genStructInit` appends to the declarations printer. -/
def initDeclOps (cpy : Struct) : List Op :=
  ((cpyGen.fresh ⟨cpy.Package, "", [], []⟩).genStructInit cpy).decl.ops

/-- What `genStructInit` appends to the implementation printer. -/
def initImplOps (cpy : Struct) : List Op :=
  ((cpyGen.fresh ⟨cpy.Package, "", [], []⟩).genStructInit cpy).impl.ops

/-- What `genStructTPStr` appends to the declarations printer. -/
def tpStrDeclOps (cpy : Struct) : List Op :=
  [Op.printf "static PyObject*\n_gopy_%s_tp_str(PyObject *self);\n" [.str cpy.ID]]

/-- What `genStructTPStr` appends to the implementation printer. -/
def tpStrImplOps (ProtoStringer : Nat) (cpy : Struct) : List Op :=
  ((cpyGen.fresh ⟨cpy.Package, "", [], []⟩).genStructTPStr ProtoStringer cpy).impl.ops

/-- What `genMethod` appends to the declarations printer. -/
def methodDeclOps (pkgname : String) (cpy : Struct) (fct : Func) : List Op :=
  [Op.printf "/* wrapper of %[1]s.%[2]s */\n"
     [.str pkgname, .str (cpy.GoName ++ "." ++ fct.GoName)],
   Op.printf "static PyObject*\n" [],
   Op.printf "gopy_%s(PyObject *self, PyObject *args);\n" [.str fct.ID]]

/-- What `genStructMethods` appends to the declarations printer. -/
def methodsDeclOps (pkgname : String) (cpy : Struct) : List Op :=
  [Op.printf "/* methods for %s.%s */\n\n" [.str cpy.Package.Name, .str cpy.GoName]] ++
  cpy.meths.flatMap (methodDeclOps pkgname cpy)

/-- The typedefs `genStruct` writes itself to the declarations printer. -/
def structHeadDeclOps (cpy : Struct) : List Op :=
  [Op.printf "/* --- decls for struct %s.%v --- */\n" [.str cpy.Package.Name, .str cpy.GoName],
   Op.printf "typedef void* GoPy_%s;\n\n" [.str cpy.ID],
   Op.printf "/* type for struct %s.%v\n" [.str cpy.Package.Name, .str cpy.GoName],
   Op.printf " */\ntypedef struct \x7b\n" [],
   Op.indent,
   Op.printf "PyObject_HEAD\n" [],
   Op.printf "GoPy_%[1]s cgopy; /* unsafe.Pointer to %[1]s */\n" [.str cpy.ID],
   Op.outdent,
   Op.printf "\x7d _gopy_%s;\n" [.str cpy.ID],
   Op.printf "\n\n" []]

/-- The type record `_gopy_<ID>Type` that `genStruct` writes itself. -/
def typeRecordOps (cpy : Struct) : List Op :=
  [Op.printf "static PyTypeObject _gopy_%sType = \x7b\n" [.str cpy.ID],
   Op.indent,
   Op.printf "PyObject_HEAD_INIT(NULL)\n" [],
   Op.printf "0,\t/*ob_size*/\n" [],
   Op.printf "\x22%s.%s\x22,\t/*tp_name*/\n" [.str cpy.Package.Name, .str cpy.GoName],
   Op.printf "sizeof(_gopy_%s),\t/*tp_basicsize*/\n" [.str cpy.ID],
   Op.printf "0,\t/*tp_itemsize*/\n" [],
   Op.printf "(destructor)_gopy_%s_dealloc,\t/*tp_dealloc*/\n" [.str cpy.ID],
   Op.printf "0,\t/*tp_print*/\n" [],
   Op.printf "0,\t/*tp_getattr*/\n" [],
   Op.printf "0,\t/*tp_setattr*/\n" [],
   Op.printf "0,\t/*tp_compare*/\n" [],
   Op.printf "0,\t/*tp_repr*/\n" [],
   Op.printf "0,\t/*tp_as_number*/\n" [],
   Op.printf "0,\t/*tp_as_sequence*/\n" [],
   Op.printf "0,\t/*tp_as_mapping*/\n" [],
   Op.printf "0,\t/*tp_hash */\n" [],
   Op.printf "0,\t/*tp_call*/\n" [],
   Op.printf "_gopy_%s_tp_str,\t/*tp_str*/\n" [.str cpy.ID],
   Op.printf "0,\t/*tp_getattro*/\n" [],
   Op.printf "0,\t/*tp_setattro*/\n" [],
   Op.printf "0,\t/*tp_as_buffer*/\n" [],
   Op.printf "Py_TPFLAGS_DEFAULT,\t/*tp_flags*/\n" [],
   Op.printf "%q,\t/* tp_doc */\n" [.str cpy.Doc],
   Op.printf "0,\t/* tp_traverse */\n" [],
   Op.printf "0,\t/* tp_clear */\n" [],
   Op.printf "0,\t/* tp_richcompare */\n" [],
   Op.printf "0,\t/* tp_weaklistoffset */\n" [],
   Op.printf "0,\t/* tp_iter */\n" [],
   Op.printf "0,\t/* tp_iternext */\n" [],
   Op.printf "_gopy_%s_methods,             /* tp_methods */\n" [.str cpy.ID],
   Op.printf "0,\t/* tp_members */\n" [],
   Op.printf "_gopy_%s_getsets,\t/* tp_getset */\n" [.str cpy.ID],
   Op.printf "0,\t/* tp_base */\n" [],
   Op.printf "0,\t/* tp_dict */\n" [],
   Op.printf "0,\t/* tp_descr_get */\n" [],
   Op.printf "0,\t/* tp_descr_set */\n" [],
   Op.printf "0,\t/* tp_dictoffset */\n" [],
   Op.printf "(initproc)_gopy_%s_init,      /* tp_init */\n" [.str cpy.ID],
   Op.printf "0,                         /* tp_alloc */\n" [],
   Op.printf "_gopy_%s_new,\t/* tp_new */\n" [.str cpy.ID],
   Op.outdent,
   Op.printf "\x7d;\n\n" []]

/-- What `genStruct` appends to the declarations printer. -/
def structDeclOps (h : Helpers) (pkgname : String) (cpy : Struct) : List Op :=
  structHeadDeclOps cpy ++ newDeclOps cpy ++ deallocDeclOps cpy ++ initDeclOps cpy ++
    membersDeclOps h cpy ++ methodsDeclOps pkgname cpy ++ tpStrDeclOps cpy

/-- What `genStruct` appends to the implementation printer. -/
def structImplOps (h : Helpers) (ProtoStringer : Nat) (pkgname : String) (cpy : Struct) :
    List Op :=
  [Op.printf "/* --- impl for %s.%v */\n\n" [.str cpy.Package.Name, .str cpy.GoName]] ++
    newImplOps cpy ++ deallocImplOps cpy ++ initImplOps cpy ++ membersImplOps h cpy ++
    methodsImplOps h pkgname cpy ++ tpStrImplOps ProtoStringer cpy ++ typeRecordOps cpy

/-- What `genFunc` appends to the implementation printer. -/
def funcImplOps (h : Helpers) (pkgname : String) (o : Func) : List Op :=
  [Op.printf
     "\n/* pythonization of: %[1]s.%[2]s */\nstatic PyObject*\ngopy_%[3]s(PyObject *self, PyObject *args) \x7b\n"
     [.str pkgname, .str o.GoName, .str o.ID],
   Op.indent] ++ funcBodyOps h o ++ [Op.outdent, Op.printf "\x7d\n\n" []]

/-- The function table `cpy_<pkgname>_methods` written by `gen`. -/
def funcTableOps (p : Package) : List Op :=
  [Op.printf "static PyMethodDef cpy_%s_methods[] = \x7b\n" [.str p.pkg.Name], Op.indent] ++
  p.funcs.map (fun f =>
    Op.printf "\x7b%[1]q, %[2]s, METH_VARARGS, %[3]q\x7d,\n"
      [.str f.GoName, .str ("gopy_" ++ f.ID), .str f.Doc]) ++
  [Op.printf "\x7bNULL, NULL, 0, NULL\x7d        /* Sentinel */\n" [], Op.outdent,
   Op.printf "\x7d;\n\n" []]

/-- The module initializer `init<pkgname>` written by `gen`. -/
def moduleInitOps (p : Package) : List Op :=
  [Op.printf "PyMODINIT_FUNC\ninit%[1]s(void)\n\x7b\n" [.str p.pkg.Name], Op.indent,
   Op.printf "PyObject *module = NULL;\n\n" []] ++
  p.structs.map (fun s =>
    Op.printf "if (PyType_Ready(&_gopy_%sType) < 0) \x7b return; \x7d\n" [.str s.ID]) ++
  [Op.printf "module = Py_InitModule3(%[1]q, cpy_%[1]s_methods, %[2]q);\n\n"
     [.str p.pkg.Name, .str p.doc]] ++
  p.structs.flatMap (fun s =>
    [Op.printf "Py_INCREF(&_gopy_%sType);\n" [.str s.ID],
     Op.printf "PyModule_AddObject(module, %q, (PyObject*)&_gopy_%sType);\n\n"
       [.str s.GoName, .str s.ID]]) ++
  [Op.outdent, Op.printf "\x7d\n\n" []]

/-- What `gen` appends to the declarations printer. -/
def genDeclOps (h : Helpers) (p : Package) : List Op :=
  [Op.printf cPreamble [.str p.pkg.Name, .str p.pkg.Path, .str (filepath.Base p.pkg.Name)]] ++
  p.structs.flatMap (structDeclOps h p.pkg.Name)

/-- What `gen` appends to the implementation printer. -/
def genImplOps (h : Helpers) (ProtoStringer : Nat) (p : Package) : List Op :=
  p.structs.flatMap (structImplOps h ProtoStringer p.pkg.Name) ++
  p.funcs.flatMap (funcImplOps h p.pkg.Name) ++ funcTableOps p ++ moduleInitOps p

/-! ## The formats of the `Printf` calls -/

/-- The format of a `Printf` call. -/
def Op.format? : Op → Option String
  | .printf f _ => some f
  | _ => none

/-- The formats of the `Printf` calls of a sequence, in emission order. -/
def formats (ops : List Op) : List String := ops.filterMap Op.format?

/-- The formats `genFuncBody` prints with. -/
def funcBodyFormats : List String :=
  ["struct %[1]s_return c_gopy_ret;\n",
   "\n",
   "if (!PyArg_ParseTuple(args, ",
   "%q, %s)) \x7b\n",
   "return NULL;\n",
   "\x7d\n\n",
   "c_gopy_ret = ",
   "GoPy_%[1]s(%[2]s);\n",
   "Py_INCREF(Py_None);\nreturn Py_None;\n",
   "return Py_BuildValue(%q, %s);\n"]

/-- The formats `genFunc` prints with. -/
def funcImplFormats : List String :=
  ["\n/* pythonization of: %[1]s.%[2]s */\nstatic PyObject*\ngopy_%[3]s(PyObject *self, PyObject *args) \x7b\n",
   "\x7d\n\n",
   "struct %[1]s_return c_gopy_ret;\n",
   "\n",
   "if (!PyArg_ParseTuple(args, ",
   "%q, %s)) \x7b\n",
   "return NULL;\n",
   "c_gopy_ret = ",
   "GoPy_%[1]s(%[2]s);\n",
   "Py_INCREF(Py_None);\nreturn Py_None;\n",
   "return Py_BuildValue(%q, %s);\n"]

/-- The formats `genStruct` prints with to the implementation printer. -/
def structImplFormats : List String :=
  ["struct %[1]s_return c_gopy_ret;\n",
   "\n",
   "if (!PyArg_ParseTuple(args, ",
   "%q, %s)) \x7b\n",
   "return NULL;\n",
   "\x7d\n\n",
   "c_gopy_ret = ",
   "GoPy_%[1]s(%[2]s);\n",
   "Py_INCREF(Py_None);\nreturn Py_None;\n",
   "return Py_BuildValue(%q, %s);\n",
   "/* wrapper of %[1]s.%[2]s */\n",
   "static PyObject*\n",
   "gopy_%s(PyObject *self, PyObject *args) \x7b\n",
   "static PyMethodDef _gopy_%s_methods[] = \x7b\n",
   "\x7b%[1]q, (PyCFunction)gopy_%[2]s, %[3]s, %[4]q\x7d,\n",
   "\x7bNULL\x7d /* sentinel */\n",
   "\x7d;\n\n",
   "_gopy_%[1]s_getter_%[2]d(_gopy_%[1]s *self, void *closure) /* %[3]s */ \x7b\n",
   "PyObject *o = NULL;\n",
   "%[1]s cgopy_ret = GoPy_%[2]s_getter_%[3]d(self->cgopy);\n",
   "c_ret = (%[1]s)GoPy_%[2]s_getter_%[3]d(self->cgopy);\n",
   "cgopy_%[1]s = CGoPy_CString(c_%[1]s);\n",
   "o = Py_BuildValue(%q, %s);\n",
   "free((void*)cgopy_%[1]s);\n",
   "return o;\n",
   "static int\n",
   "_gopy_%[1]s_setter_%[2]d(_gopy_%[1]s *self, PyObject *value, void *closure) \x7b\n",
   "PyObject *tuple = NULL;\n\n",
   "if (value == NULL) \x7b\n",
   "PyErr_SetString(PyExc_TypeError, \x22Cannot delete \x27%[1]s\x27 attribute\x22);\n",
   "return -1;\n",
   "\x7d\n",
   "tuple = PyTuple_New(1);\n",
   "Py_INCREF(value);\n",
   "PyTuple_SET_ITEM(tuple, 0, value);\n\n",
   "\nif (!PyArg_ParseTuple(tuple, ",
   "Py_DECREF(tuple);\n",
   "Py_DECREF(tuple);\n\n",
   "c_%[1]s = CGoPy_GoString((char*)cgopy_%[1]s);\n",
   "%[1]s((%[2]s)(self->cgopy), c_%[3]s);\n",
   "return 0;\n",
   "/* tp_getset for %s.%v */\n",
   "static PyGetSetDef _gopy_%s_getsets[] = \x7b\n",
   "\x7b%q, ",
   "(getter)_gopy_%[1]s_getter_%[2]d, ",
   "(setter)_gopy_%[1]s_setter_%[2]d, ",
   "%q, NULL\x7d,\n",
   "\x7bNULL\x7d /* Sentinel */\n",
   "static PyObject*\n_gopy_%s_tp_str(PyObject *self) \x7b\n",
   "return PyObject_Repr(self);\n",
   "return gopy_%[1]s(self, 0);\n",
   "/* tp_dealloc for %s.%v */\n",
   "static void\n_gopy_%[1]s_dealloc(_gopy_%[1]s *self) \x7b\n",
   "self->ob_type->tp_free((PyObject*)self);\n",
   "/* tp_new */\n",
   "static PyObject*\n_gopy_%s_new(PyTypeObject *type, PyObject *args, PyObject *kwds) \x7b\n",
   "_gopy_%s *self;\n",
   "self = (_gopy_%s *)type->tp_alloc(type, 0);\n",
   "self->cgopy = GoPy_%s_new();\n",
   "return (PyObject*)self;\n",
   "/* tp_init */\n",
   "static int\n_gopy_%[1]s_init(_gopy_%[1]s *self, PyObject *args, PyObject *kwds) \x7b\n",
   "/* --- impl for %s.%v */\n\n",
   "static PyTypeObject _gopy_%sType = \x7b\n",
   "PyObject_HEAD_INIT(NULL)\n",
   "0,\t/*ob_size*/\n",
   "\x22%s.%s\x22,\t/*tp_name*/\n",
   "sizeof(_gopy_%s),\t/*tp_basicsize*/\n",
   "0,\t/*tp_itemsize*/\n",
   "(destructor)_gopy_%s_dealloc,\t/*tp_dealloc*/\n",
   "0,\t/*tp_print*/\n",
   "0,\t/*tp_getattr*/\n",
   "0,\t/*tp_setattr*/\n",
   "0,\t/*tp_compare*/\n",
   "0,\t/*tp_repr*/\n",
   "0,\t/*tp_as_number*/\n",
   "0,\t/*tp_as_sequence*/\n",
   "0,\t/*tp_as_mapping*/\n",
   "0,\t/*tp_hash */\n",
   "0,\t/*tp_call*/\n",
   "_gopy_%s_tp_str,\t/*tp_str*/\n",
   "0,\t/*tp_getattro*/\n",
   "0,\t/*tp_setattro*/\n",
   "0,\t/*tp_as_buffer*/\n",
   "Py_TPFLAGS_DEFAULT,\t/*tp_flags*/\n",
   "%q,\t/* tp_doc */\n",
   "0,\t/* tp_traverse */\n",
   "0,\t/* tp_clear */\n",
   "0,\t/* tp_richcompare */\n",
   "0,\t/* tp_weaklistoffset */\n",
   "0,\t/* tp_iter */\n",
   "0,\t/* tp_iternext */\n",
   "_gopy_%s_methods,             /* tp_methods */\n",
   "0,\t/* tp_members */\n",
   "_gopy_%s_getsets,\t/* tp_getset */\n",
   "0,\t/* tp_base */\n",
   "0,\t/* tp_dict */\n",
   "0,\t/* tp_descr_get */\n",
   "0,\t/* tp_descr_set */\n",
   "0,\t/* tp_dictoffset */\n",
   "(initproc)_gopy_%s_init,      /* tp_init */\n",
   "0,                         /* tp_alloc */\n",
   "_gopy_%s_new,\t/* tp_new */\n"]

/-- The formats `genStruct` prints with to the declarations printer. -/
def structDeclFormats : List String :=
  ["/* wrapper of %[1]s.%[2]s */\n",
   "static PyObject*\n",
   "gopy_%s(PyObject *self, PyObject *args);\n",
   "/* methods for %s.%s */\n\n",
   "_gopy_%[1]s_getter_%[2]d(_gopy_%[1]s *self, void *closure); /* %[3]s */\n",
   "static int\n",
   "_gopy_%[1]s_setter_%[2]d(_gopy_%[1]s *self, PyObject *value, void *closure);\n",
   "/* tp_getset for %s.%v */\n",
   "static PyObject*\n_gopy_%s_tp_str(PyObject *self);\n",
   "/* tp_dealloc for %s.%v */\n",
   "static void\n_gopy_%[1]s_dealloc(_gopy_%[1]s *self);\n",
   "/* tp_new for %s.%v */\n",
   "static PyObject*\n_gopy_%s_new(PyTypeObject *type, PyObject *args, PyObject *kwds);\n",
   "/* tp_init for %s.%v */\n",
   "static int\n_gopy_%[1]s_init(_gopy_%[1]s *self, PyObject *args, PyObject *kwds);\n",
   "/* --- decls for struct %s.%v --- */\n",
   "typedef void* GoPy_%s;\n\n",
   "/* type for struct %s.%v\n",
   " */\ntypedef struct \x7b\n",
   "PyObject_HEAD\n",
   "GoPy_%[1]s cgopy; /* unsafe.Pointer to %[1]s */\n",
   "\x7d _gopy_%s;\n",
   "\n\n"]

/-! ## Indentation -/

/-- The indentation level after a sequence of operations that starts at level `d`, counted
from the level on entry: `Indent` adds one, `Outdent` removes one and fails (`none`) at
level `0`, that is when the level would go below the level on entry.  `Printf` keeps the
level; so do, by assumption, the `Var` methods that receive the printer (they are defined
outside this file). -/
def depthAfter : Nat → List Op → Option Nat
  | d, [] => some d
  | d, Op.indent :: l => depthAfter (d + 1) l
  | 0, Op.outdent :: _ => none
  | d + 1, Op.outdent :: l => depthAfter d l
  | d, Op.printf _ _ :: l => depthAfter d l
  | d, Op.call _ _ :: l => depthAfter d l

/-- The generator `g2` comes from `g` by appending to both printers sequences that never
go below the indentation level on entry and end at that level. -/
def KeepsIndent (g g2 : cpyGen) : Prop :=
  ∃ D I, g2.decl.ops = g.decl.ops ++ D ∧ g2.impl.ops = g.impl.ops ++ I ∧
    depthAfter 0 D = some 0 ∧ depthAfter 0 I = some 0

/-! ## Defined symbols -/

/-- The C identifier that a defining `Printf` call of `genStruct` writes: the identifier
part of the format with the arguments substituted for the verbs (`%s`, `%[1]s`: the
string; `%[2]d`: the decimal numeral).  The calls are the two typedefs, the four hooks,
the accessors, the two tables and the type record. -/
def definedSymbol : Op → Option String
  | Op.printf f [Arg.str id] =>
    if f = "typedef void* GoPy_%s;\n\n" then some ("GoPy_" ++ id)
    else if f = "\x7d _gopy_%s;\n" then some ("_gopy_" ++ id)
    else if f =
        "static PyObject*\n_gopy_%s_new(PyTypeObject *type, PyObject *args, PyObject *kwds) \x7b\n"
      then some ("_gopy_" ++ id ++ "_new")
    else if f = "static void\n_gopy_%[1]s_dealloc(_gopy_%[1]s *self) \x7b\n"
      then some ("_gopy_" ++ id ++ "_dealloc")
    else if f =
        "static int\n_gopy_%[1]s_init(_gopy_%[1]s *self, PyObject *args, PyObject *kwds) \x7b\n"
      then some ("_gopy_" ++ id ++ "_init")
    else if f = "static PyObject*\n_gopy_%s_tp_str(PyObject *self) \x7b\n"
      then some ("_gopy_" ++ id ++ "_tp_str")
    else if f = "static PyMethodDef _gopy_%s_methods[] = \x7b\n"
      then some ("_gopy_" ++ id ++ "_methods")
    else if f = "static PyGetSetDef _gopy_%s_getsets[] = \x7b\n"
      then some ("_gopy_" ++ id ++ "_getsets")
    else if f = "static PyTypeObject _gopy_%sType = \x7b\n"
      then some ("_gopy_" ++ id ++ "Type")
    else none
  | Op.printf f [Arg.str id, Arg.int n] =>
    if f =
        "_gopy_%[1]s_setter_%[2]d(_gopy_%[1]s *self, PyObject *value, void *closure) \x7b\n"
      then some ("_gopy_" ++ id ++ "_setter_" ++ toString n)
    else none
  | Op.printf f [Arg.str id, Arg.int n, Arg.str _] =>
    if f = "_gopy_%[1]s_getter_%[2]d(_gopy_%[1]s *self, void *closure) /* %[3]s */ \x7b\n"
      then some ("_gopy_" ++ id ++ "_getter_" ++ toString n)
    else none
  | _ => none

/-- The formats of the defining `Printf` calls read by `definedSymbol`. -/
def symbolFormats : List String :=
  ["typedef void* GoPy_%s;\n\n",
   "\x7d _gopy_%s;\n",
   "static PyObject*\n_gopy_%s_new(PyTypeObject *type, PyObject *args, PyObject *kwds) \x7b\n",
   "static void\n_gopy_%[1]s_dealloc(_gopy_%[1]s *self) \x7b\n",
   "static int\n_gopy_%[1]s_init(_gopy_%[1]s *self, PyObject *args, PyObject *kwds) \x7b\n",
   "static PyObject*\n_gopy_%s_tp_str(PyObject *self) \x7b\n",
   "static PyMethodDef _gopy_%s_methods[] = \x7b\n",
   "static PyGetSetDef _gopy_%s_getsets[] = \x7b\n",
   "static PyTypeObject _gopy_%sType = \x7b\n",
   "_gopy_%[1]s_setter_%[2]d(_gopy_%[1]s *self, PyObject *value, void *closure) \x7b\n",
   "_gopy_%[1]s_getter_%[2]d(_gopy_%[1]s *self, void *closure) /* %[3]s */ \x7b\n"]

/-- The symbols defined by a sequence of operations. -/
def definedSymbols (ops : List Op) : List String := ops.filterMap definedSymbol

/-- The symbols `genStruct` defines for the struct `cpy` of package `p`: those of its
declarations followed by those of its implementation. -/
def structSymbols (h : Helpers) (ProtoStringer : Nat) (p : Package) (cpy : Struct) :
    List String :=
  definedSymbols (((cpyGen.fresh p).genStruct h ProtoStringer cpy).decl.ops ++
    ((cpyGen.fresh p).genStruct h ProtoStringer cpy).impl.ops)

/-- The suffixes that the defining `Printf` calls of `genStruct` put after `_gopy_<ID>`, in
the order of emission: the hooks `_new`, `_dealloc` and `_init`, the accessors
`_getter_<i+1>` and `_setter_<i+1>` of each exported field (of position `i`), the tables
`_getsets` and `_methods`, the hook `_tp_str` and the type record `Type`. -/
def symbolSuffixes (cpy : Struct) : List String :=
  ["_new", "_dealloc", "_init"] ++
  (cpy.Struct.fields.enum.filter (fun q => q.2.Exported)).flatMap (fun q =>
    ["_getter_" ++ toString (q.1 + 1), "_setter_" ++ toString (q.1 + 1)]) ++
  ["_getsets", "_methods", "_tp_str", "Type"]
/-! ## Sample inputs

Concrete metadata on which the generator is evaluated in the examples below. -/

/-- A sample choice of the helpers: integers use the token `i`, strings the token `s`. -/
def sampleHelpers : Helpers where
  getArgParse v :=
    (if v.typ.repr = "string" then "s" else "i",
     (if v.typ.repr = "string" then "&cgopy_" else "&c_") ++ v.name)
  getFuncArg v := "c_" ++ v.name
  isGoString v := decide (v.typ.repr = "string")
  CGoType v := "GoPy_" ++ v.objname
  cgoTypeName t := "Go" ++ t.repr
  needWrapType _ := false

/-- The sample package handle. -/
def samplePkg : PkgInfo := ⟨"pkg", "example.org/pkg"⟩

/-- The Go type `int`. -/
def tInt : Typ := ⟨"int"⟩

/-- A generator for the sample package that has not emitted anything yet. -/
def g0 : cpyGen := cpyGen.fresh ⟨samplePkg, "", [], []⟩

/-- The free function `func Add(a, b int) int`. -/
def addFunc : Func where
  ID := "pkg_Add"
  GoName := "Add"
  Doc := ""
  Signature := ⟨none, [newVar samplePkg tInt "a" "a" "", newVar samplePkg tInt "b" "b" ""],
    [newVar samplePkg tInt "" "" ""]⟩
  Return := some tInt

/-- The method `func (p *Point) Sum() int`. -/
def sumMethod : Func where
  ID := "pkg_Point_Sum"
  GoName := "Sum"
  Doc := ""
  Signature := ⟨some (newVar samplePkg ⟨"*Point"⟩ "p" "p" ""), [],
    [newVar samplePkg tInt "" "" ""]⟩
  Return := some tInt

/-- The method `func (p *Point) Reset()`, without parameters and without results. -/
def resetMethod : Func where
  ID := "pkg_Point_Reset"
  GoName := "Reset"
  Doc := ""
  Signature := ⟨some (newVar samplePkg ⟨"*Point"⟩ "p" "p" ""), [], []⟩
  Return := none

/-- The method `func (p *Point) Scale(k int)`, with one parameter and without results. -/
def scaleMethod : Func where
  ID := "pkg_Point_Scale"
  GoName := "Scale"
  Doc := ""
  Signature := ⟨some (newVar samplePkg ⟨"*Point"⟩ "p" "p" ""),
    [newVar samplePkg tInt "k" "k" ""], []⟩
  Return := none

/-- The free function `func Pair() (int, int)` with two unnamed results. -/
def pairFunc : Func where
  ID := "pkg_Pair"
  GoName := "Pair"
  Doc := ""
  Signature := ⟨none, [], [newVar samplePkg tInt "" "" "", newVar samplePkg tInt "" "" ""]⟩
  Return := some tInt

/-- The struct `type Point struct { X int; Y int }` with the method `Sum`. -/
def pointStruct : Struct where
  Package := samplePkg
  GoName := "Point"
  ID := "pkg_Point"
  Doc := ""
  GoType := ⟨"Point"⟩
  Struct := ⟨[⟨"X", true, tInt⟩, ⟨"Y", true, tInt⟩]⟩
  meths := [sumMethod]
  prots := 0

/-- The struct `type T struct { A int; b int; C int }`: an unexported field between two
exported ones. -/
def mixedStruct : Struct where
  Package := samplePkg
  GoName := "T"
  ID := "pkg_T"
  Doc := ""
  GoType := ⟨"T"⟩
  Struct := ⟨[⟨"A", true, tInt⟩, ⟨"b", false, tInt⟩, ⟨"C", true, tInt⟩]⟩
  meths := []
  prots := 0

/-- The struct `Point` with the single method `Scale`. -/
def scaledStruct : Struct where
  Package := samplePkg
  GoName := "Point"
  ID := "pkg_Point"
  Doc := ""
  GoType := ⟨"Point"⟩
  Struct := ⟨[⟨"X", true, tInt⟩, ⟨"Y", true, tInt⟩]⟩
  meths := [scaleMethod]
  prots := 0

/-- The method `func (p *Point) String() string`. -/
def stringMethod : Func where
  ID := "pkg_Point_String"
  GoName := "String"
  Doc := ""
  Signature := ⟨some (newVar samplePkg ⟨"*Point"⟩ "p" "p" ""), [],
    [newVar samplePkg ⟨"string"⟩ "" "" ""]⟩
  Return := some ⟨"string"⟩

/-- The struct `Point` with the methods `Sum` and `String` and the Stringer capability
(the capability bit being `1`). -/
def stringerStruct : Struct where
  Package := samplePkg
  GoName := "Point"
  ID := "pkg_Point"
  Doc := ""
  GoType := ⟨"Point"⟩
  Struct := ⟨[⟨"X", true, tInt⟩, ⟨"Y", true, tInt⟩]⟩
  meths := [sumMethod, stringMethod]
  prots := 1

/-- The struct `type Blob struct {}` with the Stringer bit in its capability set (the bit
being `1`) and no bound method. -/
def orphanStringer : Struct where
  Package := samplePkg
  GoName := "Blob"
  ID := "pkg_Blob"
  Doc := ""
  GoType := ⟨"Blob"⟩
  Struct := ⟨[]⟩
  meths := []
  prots := 1

/-- The struct `type Note struct { Text string }`. -/
def noteStruct : Struct where
  Package := samplePkg
  GoName := "Note"
  ID := "pkg_Note"
  Doc := ""
  GoType := ⟨"Note"⟩
  Struct := ⟨[⟨"Text", true, ⟨"string"⟩⟩]⟩
  meths := []
  prots := 0

/-- The struct `type T_getter_1 struct {}`, whose identifier is the one of `T` followed by
`_getter_1`. -/
def getterNamedStruct : Struct where
  Package := samplePkg
  GoName := "T_getter_1"
  ID := "pkg_T_getter_1"
  Doc := ""
  GoType := ⟨"T_getter_1"⟩
  Struct := ⟨[]⟩
  meths := []
  prots := 0

/-- The struct `Point3D`, whose identifier starts with the identifier of `Point`. -/
def point3DStruct : Struct where
  Package := samplePkg
  GoName := "Point3D"
  ID := "pkg_Point3D"
  Doc := ""
  GoType := ⟨"Point3D"⟩
  Struct := ⟨[⟨"X", true, tInt⟩, ⟨"Y", true, tInt⟩, ⟨"Z", true, tInt⟩]⟩
  meths := []
  prots := 0

/-- The sample package with the structs `Point` and `T` and the function `Add`. -/
def samplePackage : Package := ⟨samplePkg, "doc", [pointStruct, mixedStruct], [addFunc]⟩

/-! ## Frame lemmas: what each operation appends -/

@[simp] theorem impl_implPrintf (g : cpyGen) (F : String) (a : List Arg) :
    (g.implPrintf F a).impl.ops = g.impl.ops ++ [Op.printf F a] := rfl

@[simp] theorem decl_implPrintf (g : cpyGen) (F : String) (a : List Arg) :
    (g.implPrintf F a).decl = g.decl := rfl

@[simp] theorem pkg_implPrintf (g : cpyGen) (F : String) (a : List Arg) :
    (g.implPrintf F a).pkg = g.pkg := rfl

@[simp] theorem decl_declPrintf (g : cpyGen) (F : String) (a : List Arg) :
    (g.declPrintf F a).decl.ops = g.decl.ops ++ [Op.printf F a] := rfl

@[simp] theorem impl_declPrintf (g : cpyGen) (F : String) (a : List Arg) :
    (g.declPrintf F a).impl = g.impl := rfl

@[simp] theorem pkg_declPrintf (g : cpyGen) (F : String) (a : List Arg) :
    (g.declPrintf F a).pkg = g.pkg := rfl

@[simp] theorem impl_implIndent (g : cpyGen) :
    g.implIndent.impl.ops = g.impl.ops ++ [Op.indent] := rfl

@[simp] theorem decl_implIndent (g : cpyGen) : g.implIndent.decl = g.decl := rfl

@[simp] theorem pkg_implIndent (g : cpyGen) : g.implIndent.pkg = g.pkg := rfl

@[simp] theorem impl_implOutdent (g : cpyGen) :
    g.implOutdent.impl.ops = g.impl.ops ++ [Op.outdent] := rfl

@[simp] theorem decl_implOutdent (g : cpyGen) : g.implOutdent.decl = g.decl := rfl

@[simp] theorem pkg_implOutdent (g : cpyGen) : g.implOutdent.pkg = g.pkg := rfl

@[simp] theorem decl_onImpl (g : cpyGen) (m : printer → printer) :
    (g.onImpl m).decl = g.decl := rfl

@[simp] theorem pkg_onImpl (g : cpyGen) (m : printer → printer) :
    (g.onImpl m).pkg = g.pkg := rfl

@[simp] theorem impl_onImpl_genDecl (g : cpyGen) (v : Var) :
    (g.onImpl v.genDecl).impl.ops = g.impl.ops ++ [Op.call .genDecl v] := rfl

@[simp] theorem impl_onImpl_genRecvDecl (g : cpyGen) (v : Var) :
    (g.onImpl v.genRecvDecl).impl.ops = g.impl.ops ++ [Op.call .genRecvDecl v] := rfl

@[simp] theorem impl_onImpl_genRecvImpl (g : cpyGen) (v : Var) :
    (g.onImpl v.genRecvImpl).impl.ops = g.impl.ops ++ [Op.call .genRecvImpl v] := rfl

@[simp] theorem impl_onImpl_genRetDecl (g : cpyGen) (v : Var) :
    (g.onImpl v.genRetDecl).impl.ops = g.impl.ops ++ [Op.call .genRetDecl v] := rfl

@[simp] theorem impl_onImpl_genFuncPreamble (g : cpyGen) (v : Var) :
    (g.onImpl v.genFuncPreamble).impl.ops = g.impl.ops ++ [Op.call .genFuncPreamble v] := rfl

/-- A loop whose body appends `F a` to the implementation printer appends the
concatenation of the `F a`. -/
theorem impl_foldl {α : Type} (step : cpyGen → α → cpyGen) (F : α → List Op)
    (hstep : ∀ g a, (step g a).impl.ops = g.impl.ops ++ F a) (l : List α) (g : cpyGen) :
    (l.foldl step g).impl.ops = g.impl.ops ++ l.flatMap F := by
  induction l generalizing g with
  | nil => simp
  | cons a l ih => simp [ih, hstep, List.flatMap_cons]

/-- A loop whose body appends `F a` to the declarations printer appends the
concatenation of the `F a`. -/
theorem decl_foldl {α : Type} (step : cpyGen → α → cpyGen) (F : α → List Op)
    (hstep : ∀ g a, (step g a).decl.ops = g.decl.ops ++ F a) (l : List α) (g : cpyGen) :
    (l.foldl step g).decl.ops = g.decl.ops ++ l.flatMap F := by
  induction l generalizing g with
  | nil => simp
  | cons a l ih => simp [ih, hstep, List.flatMap_cons]

/-- A loop whose body leaves a component of the generator untouched leaves it untouched. -/
theorem proj_foldl {α β : Type} (proj : cpyGen → β) (step : cpyGen → α → cpyGen)
    (hstep : ∀ g a, proj (step g a) = proj g) (l : List α) (g : cpyGen) :
    proj (l.foldl step g) = proj g := by
  induction l generalizing g with
  | nil => simp
  | cons a l ih => simp [ih, hstep]

/-- The declaration loop of `genFuncBody`: what it appends and the arguments it collects. -/
theorem genDecl_loop (h : Helpers) (args : List Var) (g : cpyGen) (fa : List String) :
    (args.foldl (fun st arg => (cpyGen.onImpl st.1 arg.genDecl, st.2 ++ [h.getFuncArg arg]))
      (g, fa)) =
      (args.foldl (fun g arg => cpyGen.onImpl g arg.genDecl) g, fa ++ args.map h.getFuncArg) := by
  induction args generalizing g fa with
  | nil => simp
  | cons a l ih => simp [ih]

/-- The two accumulators built by mapping `getArgParse` over a list. -/
theorem argParse_loop (h : Helpers) (args : List Var) (f0 a0 : List String) :
    (args.foldl
      (fun st arg => (st.1 ++ [(h.getArgParse arg).1], st.2 ++ [(h.getArgParse arg).2]))
      (f0, a0)) =
      (f0 ++ args.map (fun a => (h.getArgParse a).1),
       a0 ++ args.map (fun a => (h.getArgParse a).2)) := by
  induction args generalizing f0 a0 with
  | nil => simp
  | cons a l ih => simp [ih]

/-- The two accumulators of the result loop of `genFuncBody`. -/
theorem result_loop (h : Helpers) (res : List Var) (f0 a0 : List String) :
    (res.foldl
      (fun st ret => (st.1 ++ [(h.getArgParse ret).1], st.2 ++ [h.getFuncArg ret]))
      (f0, a0)) =
      (f0 ++ res.map (fun r => (h.getArgParse r).1), a0 ++ res.map h.getFuncArg) := by
  induction res generalizing f0 a0 with
  | nil => simp
  | cons a l ih => simp [ih]

/-- The implementation printer after `genFuncBody` is the one before it followed by
`funcBodyOps`. -/
theorem impl_genFuncBody (h : Helpers) (g : cpyGen) (f : Func) :
    (g.genFuncBody h f).impl.ops = g.impl.ops ++ funcBodyOps h f := by
  obtain ⟨id, name, doc, ⟨recv, args, res⟩, ret⟩ := f
  have hd : ∀ (l : List Var) (g : cpyGen),
      (l.foldl (fun g arg => cpyGen.onImpl g arg.genDecl) g).impl.ops
        = g.impl.ops ++ l.map (Op.call .genDecl) := by
    intro l g
    rw [impl_foldl _ (fun a => [Op.call .genDecl a]) (fun g a => by simp), List.map_eq_flatMap]
  have hp : ∀ (l : List Var) (g : cpyGen),
      (l.foldl (fun g arg => cpyGen.onImpl g arg.genFuncPreamble) g).impl.ops
        = g.impl.ops ++ l.map (Op.call .genFuncPreamble) := by
    intro l g
    rw [impl_foldl _ (fun a => [Op.call .genFuncPreamble a]) (fun g a => by simp),
      List.map_eq_flatMap]
  cases recv <;> cases args <;> rcases res with _ | ⟨r1, _ | ⟨r2, rs⟩⟩ <;>
    simp [cpyGen.genFuncBody, funcBodyOps, fbDecls, fbRecvImpl, fbParse, fbPreamble, fbAssign,
      fbCall, fbReturn, fbValues, genDecl_loop, argParse_loop, result_loop, hd, hp]

/-- `genFuncBody` does not write to the declarations printer. -/
theorem decl_genFuncBody (h : Helpers) (g : cpyGen) (f : Func) :
    (g.genFuncBody h f).decl = g.decl := by
  obtain ⟨id, name, doc, ⟨recv, args, res⟩, ret⟩ := f
  have hd : ∀ (l : List Var) (g : cpyGen),
      (l.foldl (fun g arg => cpyGen.onImpl g arg.genDecl) g).decl = g.decl := by
    intro l g
    exact proj_foldl (fun g => g.decl) _ (fun g a => by simp) l g
  have hp : ∀ (l : List Var) (g : cpyGen),
      (l.foldl (fun g arg => cpyGen.onImpl g arg.genFuncPreamble) g).decl = g.decl := by
    intro l g
    exact proj_foldl (fun g => g.decl) _ (fun g a => by simp) l g
  cases recv <;> cases args <;> rcases res with _ | ⟨r1, _ | ⟨r2, rs⟩⟩ <;>
    simp [cpyGen.genFuncBody, genDecl_loop, argParse_loop, result_loop, hd, hp]

/-! ## Lemmas on `printfArgs` -/

@[simp] theorem printfArgs_nil (F : String) : printfArgs F [] = [] := rfl

@[simp] theorem printfArgs_append (F : String) (a b : List Op) :
    printfArgs F (a ++ b) = printfArgs F a ++ printfArgs F b := by
  simp [printfArgs]

@[simp] theorem printfArgs_cons_printf (F f : String) (a : List Arg) (l : List Op) :
    printfArgs F (Op.printf f a :: l) = (if f = F then [a] else []) ++ printfArgs F l := by
  by_cases hf : f = F <;> simp [printfArgs, Op.argsOf, List.filterMap_cons, hf]

@[simp] theorem printfArgs_cons_indent (F : String) (l : List Op) :
    printfArgs F (Op.indent :: l) = printfArgs F l := by
  simp [printfArgs, Op.argsOf, List.filterMap_cons]

@[simp] theorem printfArgs_cons_outdent (F : String) (l : List Op) :
    printfArgs F (Op.outdent :: l) = printfArgs F l := by
  simp [printfArgs, Op.argsOf, List.filterMap_cons]

@[simp] theorem printfArgs_cons_call (F : String) (m : VarMethod) (v : Var) (l : List Op) :
    printfArgs F (Op.call m v :: l) = printfArgs F l := by
  simp [printfArgs, Op.argsOf, List.filterMap_cons]

@[simp] theorem printfArgs_map_call (F : String) (m : VarMethod) (l : List Var) :
    printfArgs F (l.map (Op.call m)) = [] := by
  induction l with
  | nil => rfl
  | cons a l ih => simp [ih]

theorem printfArgs_flatMap {α : Type} (F : String) (l : List α) (G : α → List Op) :
    printfArgs F (l.flatMap G) = l.flatMap (fun a => printfArgs F (G a)) := by
  simp [printfArgs, List.filterMap_flatMap]

/-! ## Frame lemmas for the accessors -/

theorem impl_getter (h : Helpers) (g : cpyGen) (cpy : Struct) (i : Nat) (f : FieldObj) :
    (g.genStructMemberGetter h cpy i f).impl.ops = g.impl.ops ++ getterImplOps h cpy i f := by
  simp only [cpyGen.genStructMemberGetter, getterImplOps, cpyGen.fresh]
  split_ifs <;> simp

theorem decl_getter (h : Helpers) (g : cpyGen) (cpy : Struct) (i : Nat) (f : FieldObj) :
    (g.genStructMemberGetter h cpy i f).decl.ops = g.decl.ops ++ getterDeclOps h cpy i f := by
  simp only [cpyGen.genStructMemberGetter, getterDeclOps, cpyGen.fresh]
  split_ifs <;> simp

theorem impl_setter (h : Helpers) (g : cpyGen) (cpy : Struct) (i : Nat) (f : FieldObj) :
    (g.genStructMemberSetter h cpy i f).impl.ops = g.impl.ops ++ setterImplOps h cpy i f := by
  simp only [cpyGen.genStructMemberSetter, setterImplOps, cpyGen.fresh]
  split_ifs <;> simp

theorem decl_setter (h : Helpers) (g : cpyGen) (cpy : Struct) (i : Nat) (f : FieldObj) :
    (g.genStructMemberSetter h cpy i f).decl.ops = g.decl.ops ++ setterDeclOps h cpy i f := by
  simp only [cpyGen.genStructMemberSetter, setterDeclOps, cpyGen.fresh]
  split_ifs <;> simp

/-- A loop body guarded by a condition contributes for the elements that satisfy it. -/
theorem flatMap_guard {α β : Type} (c : α → Bool) (G : α → List β) (l : List α) :
    l.flatMap (fun a => if c a = true then G a else []) = (l.filter c).flatMap G := by
  induction l with
  | nil => rfl
  | cons a l ih =>
    cases hc : c a <;> simp [List.flatMap_cons, List.filter_cons, hc, ih]

/-- The implementation printer after `genStructMembers`: the accessors of the exported
fields, then the getset table. -/
theorem impl_genStructMembers (h : Helpers) (g : cpyGen) (cpy : Struct) :
    (g.genStructMembers h cpy).impl.ops = g.impl.ops ++ membersImplOps h cpy := by
  simp only [membersImplOps, getsetEntryOps, accessorImplOps, ← List.append_assoc]
  simp only [cpyGen.genStructMembers, exportedFields, ← flatMap_guard]
  simp only [impl_implPrintf, impl_implOutdent, impl_implIndent]
  rw [impl_foldl _
    (fun p => if p.2.Exported = true then
      [Op.printf "\x7b%q, " [.str p.2.Name],
       Op.printf "(getter)_gopy_%[1]s_getter_%[2]d, " [.str cpy.ID, .int (p.1 + 1)],
       Op.printf "(setter)_gopy_%[1]s_setter_%[2]d, " [.str cpy.ID, .int (p.1 + 1)],
       Op.printf "%q, NULL\x7d,\n" [.str ("doc for " ++ p.2.Name)]] else [])]
  · simp only [impl_implPrintf, impl_implOutdent, impl_implIndent]
    rw [impl_foldl _
      (fun p => if p.2.Exported = true then
        getterImplOps h cpy p.1 p.2 ++ setterImplOps h cpy p.1 p.2 else [])]
    · simp [accessorImplOps, getsetEntryOps]
    · intro g p
      cases hc : p.2.Exported <;> simp [hc, impl_getter, impl_setter]
  · intro g p
    cases hc : p.2.Exported <;> simp [hc]

/-- The declarations printer after `genStructMembers`: the comment line, then the accessor
prototypes of the exported fields. -/
theorem decl_genStructMembers (h : Helpers) (g : cpyGen) (cpy : Struct) :
    (g.genStructMembers h cpy).decl.ops = g.decl.ops ++ membersDeclOps h cpy := by
  simp only [membersDeclOps, accessorDeclOps, ← List.append_assoc]
  simp only [cpyGen.genStructMembers, exportedFields, ← flatMap_guard]
  simp only [decl_implPrintf, decl_implOutdent, decl_implIndent]
  rw [proj_foldl (fun g => g.decl)]
  · simp only [decl_implPrintf, decl_implOutdent, decl_implIndent]
    rw [decl_foldl _
      (fun p => if p.2.Exported = true then
        getterDeclOps h cpy p.1 p.2 ++ setterDeclOps h cpy p.1 p.2 else [])]
    · simp [accessorDeclOps]
    · intro g p
      cases hc : p.2.Exported <;> simp [hc, decl_getter, decl_setter]
  · intro g p
    cases hc : p.2.Exported <;> simp [hc]

/-! ## Frame lemmas for the methods -/

/-- `genFuncBody` leaves the package of the generator unchanged. -/
theorem pkg_genFuncBody (h : Helpers) (g : cpyGen) (f : Func) :
    (g.genFuncBody h f).pkg = g.pkg := by
  obtain ⟨id, name, doc, ⟨recv, args, res⟩, ret⟩ := f
  have hd : ∀ (l : List Var) (g : cpyGen),
      (l.foldl (fun g arg => cpyGen.onImpl g arg.genDecl) g).pkg = g.pkg := by
    intro l g
    exact proj_foldl (fun g => g.pkg) _ (fun g a => by simp) l g
  have hp : ∀ (l : List Var) (g : cpyGen),
      (l.foldl (fun g arg => cpyGen.onImpl g arg.genFuncPreamble) g).pkg = g.pkg := by
    intro l g
    exact proj_foldl (fun g => g.pkg) _ (fun g a => by simp) l g
  cases recv <;> cases args <;> rcases res with _ | ⟨r1, _ | ⟨r2, rs⟩⟩ <;>
    simp [cpyGen.genFuncBody, genDecl_loop, argParse_loop, result_loop, hd, hp]

theorem impl_genMethod (h : Helpers) (g : cpyGen) (cpy : Struct) (fct : Func) :
    (g.genMethod h cpy fct).impl.ops
      = g.impl.ops ++ methodImplOps h g.pkg.pkg.Name cpy fct := by
  simp [cpyGen.genMethod, cpyGen.genMethodBody, methodImplOps, impl_genFuncBody]

theorem pkg_genMethod (h : Helpers) (g : cpyGen) (cpy : Struct) (fct : Func) :
    (g.genMethod h cpy fct).pkg = g.pkg := by
  simp [cpyGen.genMethod, cpyGen.genMethodBody, pkg_genFuncBody]

theorem decl_genMethod (h : Helpers) (g : cpyGen) (cpy : Struct) (fct : Func) :
    (g.genMethod h cpy fct).decl.ops = g.decl.ops ++
      [Op.printf "/* wrapper of %[1]s.%[2]s */\n"
         [.str g.pkg.pkg.Name, .str (cpy.GoName ++ "." ++ fct.GoName)],
       Op.printf "static PyObject*\n" [],
       Op.printf "gopy_%s(PyObject *self, PyObject *args);\n" [.str fct.ID]] := by
  simp [cpyGen.genMethod, cpyGen.genMethodBody, decl_genFuncBody]

/-- A loop whose body keeps the package and appends `F g.pkg a` to the implementation
printer appends the concatenation of the `F g.pkg a`. -/
theorem impl_foldl_pkg {α : Type} (step : cpyGen → α → cpyGen) (F : Package → α → List Op)
    (hstep : ∀ g a, (step g a).impl.ops = g.impl.ops ++ F g.pkg a)
    (hpkg : ∀ g a, (step g a).pkg = g.pkg) (l : List α) (g : cpyGen) :
    (l.foldl step g).impl.ops = g.impl.ops ++ l.flatMap (F g.pkg) := by
  induction l generalizing g with
  | nil => simp
  | cons a l ih => simp [ih, hstep, hpkg, List.flatMap_cons]

/-- The implementation printer after `genStructMethods`: the trampolines of the bound
methods, then the method table. -/
theorem impl_genStructMethods (h : Helpers) (g : cpyGen) (cpy : Struct) :
    (g.genStructMethods h cpy).impl.ops
      = g.impl.ops ++ methodsImplOps h g.pkg.pkg.Name cpy := by
  simp only [methodsImplOps, ← List.append_assoc]
  simp only [cpyGen.genStructMethods]
  simp only [impl_implPrintf, impl_implOutdent, impl_implIndent]
  rw [impl_foldl _
    (fun m => [Op.printf "\x7b%[1]q, (PyCFunction)gopy_%[2]s, %[3]s, %[4]q\x7d,\n"
          [.str m.GoName, .str m.ID,
           .str (if m.Return = none then "METH_NOARGS" else "METH_VARARGS"), .str m.Doc]])]
  · simp only [impl_implPrintf, impl_implOutdent, impl_implIndent]
    rw [impl_foldl_pkg _ (fun p m => methodImplOps h p.pkg.Name cpy m)
      (fun g a => impl_genMethod h g cpy a) (fun g a => pkg_genMethod h g cpy a)]
    simp [List.map_eq_flatMap]
  · intro g m
    simp

/-! ## Reading accessor and table entries -/

theorem printfArgs_flatMap_single {α : Type} (F : String) (l : List α) (G : α → List Op)
    (x : α → List Arg) (hG : ∀ a, printfArgs F (G a) = [x a]) :
    printfArgs F (l.flatMap G) = l.map x := by
  rw [printfArgs_flatMap, List.map_eq_flatMap]
  simp [hG]

theorem printfArgs_flatMap_none {α : Type} (F : String) (l : List α) (G : α → List Op)
    (hG : ∀ a, printfArgs F (G a) = []) :
    printfArgs F (l.flatMap G) = [] := by
  rw [printfArgs_flatMap]
  simp [hG]

/-- Filtering the indexed fields and forgetting the indices is filtering the fields. -/
theorem exportedFields_snd (cpy : Struct) :
    (exportedFields cpy).map (fun p => p.2)
      = cpy.Struct.fields.filter (fun f => f.Exported) := by
  have e : (fun p : Nat × FieldObj => p.2.Exported)
      = (fun f : FieldObj => f.Exported) ∘ Prod.snd := rfl
  rw [exportedFields, e, ← List.filter_map, List.enum_map_snd]

theorem exportedFields_length (cpy : Struct) :
    (exportedFields cpy).length = (cpy.Struct.fields.filter (fun f => f.Exported)).length := by
  rw [← exportedFields_snd, List.length_map]

/-! ## Every operation appends to the two printers and changes nothing else -/

@[simp] theorem decl_emit (g : cpyGen) (D I : List Op) :
    (g.emit D I).decl.ops = g.decl.ops ++ D := rfl

@[simp] theorem impl_emit (g : cpyGen) (D I : List Op) :
    (g.emit D I).impl.ops = g.impl.ops ++ I := rfl

@[simp] theorem pkg_emit (g : cpyGen) (D I : List Op) : (g.emit D I).pkg = g.pkg := rfl

@[simp] theorem err_emit (g : cpyGen) (D I : List Op) : (g.emit D I).err = g.err := rfl

@[simp] theorem emit_emit (g : cpyGen) (D I D2 I2 : List Op) :
    (g.emit D I).emit D2 I2 = g.emit (D ++ D2) (I ++ I2) := by
  simp [cpyGen.emit]

theorem emit_nil (g : cpyGen) : g.emit [] [] = g := by
  obtain ⟨⟨d⟩, ⟨i⟩, p, e⟩ := g
  simp [cpyGen.emit]

/-- A generator that agrees with `g` up to what was appended is `g.emit`. -/
theorem eq_emit {g g2 : cpyGen} {D I : List Op} (hd : g2.decl.ops = g.decl.ops ++ D)
    (hi : g2.impl.ops = g.impl.ops ++ I) (hp : g2.pkg = g.pkg) (he : g2.err = g.err) :
    g2 = g.emit D I := by
  obtain ⟨⟨d⟩, ⟨i⟩, p, e⟩ := g
  obtain ⟨⟨d2⟩, ⟨i2⟩, p2, e2⟩ := g2
  simp only at hd hi hp he
  simp [cpyGen.emit, hd, hi, hp, he]

theorem declPrintf_eq (g : cpyGen) (F : String) (a : List Arg) :
    g.declPrintf F a = g.emit [Op.printf F a] [] := by
  obtain ⟨⟨d⟩, ⟨i⟩, p, e⟩ := g
  simp [cpyGen.declPrintf, cpyGen.emit, printer.Printf]

theorem implPrintf_eq (g : cpyGen) (F : String) (a : List Arg) :
    g.implPrintf F a = g.emit [] [Op.printf F a] := by
  obtain ⟨⟨d⟩, ⟨i⟩, p, e⟩ := g
  simp [cpyGen.implPrintf, cpyGen.emit, printer.Printf]

theorem declIndent_eq (g : cpyGen) : g.declIndent = g.emit [Op.indent] [] := by
  obtain ⟨⟨d⟩, ⟨i⟩, p, e⟩ := g
  simp [cpyGen.declIndent, cpyGen.emit, printer.Indent]

theorem declOutdent_eq (g : cpyGen) : g.declOutdent = g.emit [Op.outdent] [] := by
  obtain ⟨⟨d⟩, ⟨i⟩, p, e⟩ := g
  simp [cpyGen.declOutdent, cpyGen.emit, printer.Outdent]

theorem implIndent_eq (g : cpyGen) : g.implIndent = g.emit [] [Op.indent] := by
  obtain ⟨⟨d⟩, ⟨i⟩, p, e⟩ := g
  simp [cpyGen.implIndent, cpyGen.emit, printer.Indent]

theorem implOutdent_eq (g : cpyGen) : g.implOutdent = g.emit [] [Op.outdent] := by
  obtain ⟨⟨d⟩, ⟨i⟩, p, e⟩ := g
  simp [cpyGen.implOutdent, cpyGen.emit, printer.Outdent]

theorem onImpl_genDecl_eq (g : cpyGen) (v : Var) :
    g.onImpl v.genDecl = g.emit [] [Op.call .genDecl v] := by
  obtain ⟨⟨d⟩, ⟨i⟩, p, e⟩ := g
  simp [cpyGen.onImpl, cpyGen.emit, Var.genDecl]

/-- A loop whose body appends lists that depend on the package only appends their
concatenation. -/
theorem foldl_emit {α : Type} (step : cpyGen → α → cpyGen) (D I : Package → α → List Op)
    (hstep : ∀ g a, step g a = g.emit (D g.pkg a) (I g.pkg a)) (l : List α) (g : cpyGen) :
    l.foldl step g = g.emit (l.flatMap (D g.pkg)) (l.flatMap (I g.pkg)) := by
  induction l generalizing g with
  | nil => simp [emit_nil]
  | cons a l ih => simp [ih, hstep, List.flatMap_cons]

/-! ## The operations in appended form -/

theorem genStructNew_eq (g : cpyGen) (cpy : Struct) :
    g.genStructNew cpy = g.emit (newDeclOps cpy) (newImplOps cpy) := by
  simp [cpyGen.genStructNew, newDeclOps, newImplOps, cpyGen.fresh, declPrintf_eq,
    implPrintf_eq, implIndent_eq, implOutdent_eq]

theorem genStructDealloc_eq (g : cpyGen) (cpy : Struct) :
    g.genStructDealloc cpy = g.emit (deallocDeclOps cpy) (deallocImplOps cpy) := by
  simp [cpyGen.genStructDealloc, deallocDeclOps, deallocImplOps, cpyGen.fresh, declPrintf_eq,
    implPrintf_eq, implIndent_eq, implOutdent_eq]

theorem genStructInit_eq (g : cpyGen) (cpy : Struct) :
    g.genStructInit cpy = g.emit (initDeclOps cpy) (initImplOps cpy) := by
  simp [cpyGen.genStructInit, initDeclOps, initImplOps, cpyGen.fresh, declPrintf_eq,
    implPrintf_eq, implIndent_eq, implOutdent_eq]

theorem genStructTPStr_eq (P : Nat) (g : cpyGen) (cpy : Struct) :
    g.genStructTPStr P cpy = g.emit (tpStrDeclOps cpy) (tpStrImplOps P cpy) := by
  simp only [cpyGen.genStructTPStr, tpStrDeclOps, tpStrImplOps, cpyGen.fresh]
  split_ifs <;>
    simp [declPrintf_eq, implPrintf_eq, implIndent_eq, implOutdent_eq]

theorem genStructMemberGetter_eq (h : Helpers) (g : cpyGen) (cpy : Struct) (i : Nat)
    (f : FieldObj) :
    g.genStructMemberGetter h cpy i f
      = g.emit (getterDeclOps h cpy i f) (getterImplOps h cpy i f) := by
  simp only [cpyGen.genStructMemberGetter, getterDeclOps, getterImplOps, cpyGen.fresh]
  split_ifs <;>
    simp [declPrintf_eq, implPrintf_eq, implIndent_eq, implOutdent_eq, onImpl_genDecl_eq]

theorem genStructMemberSetter_eq (h : Helpers) (g : cpyGen) (cpy : Struct) (i : Nat)
    (f : FieldObj) :
    g.genStructMemberSetter h cpy i f
      = g.emit (setterDeclOps h cpy i f) (setterImplOps h cpy i f) := by
  simp only [cpyGen.genStructMemberSetter, setterDeclOps, setterImplOps, cpyGen.fresh]
  split_ifs <;>
    simp [declPrintf_eq, implPrintf_eq, implIndent_eq, implOutdent_eq, onImpl_genDecl_eq]


@[simp] theorem err_implPrintf (g : cpyGen) (F : String) (a : List Arg) :
    (g.implPrintf F a).err = g.err := rfl

@[simp] theorem err_implIndent (g : cpyGen) : g.implIndent.err = g.err := rfl

@[simp] theorem err_implOutdent (g : cpyGen) : g.implOutdent.err = g.err := rfl

@[simp] theorem err_onImpl (g : cpyGen) (m : printer → printer) :
    (g.onImpl m).err = g.err := rfl

/-- `genFuncBody` leaves the error list of the generator unchanged. -/
theorem err_genFuncBody (h : Helpers) (g : cpyGen) (f : Func) :
    (g.genFuncBody h f).err = g.err := by
  obtain ⟨id, name, doc, ⟨recv, args, res⟩, ret⟩ := f
  have hd : ∀ (l : List Var) (g : cpyGen),
      (l.foldl (fun g arg => cpyGen.onImpl g arg.genDecl) g).err = g.err := by
    intro l g
    exact proj_foldl (fun g => g.err) _ (fun g a => by simp) l g
  have hp : ∀ (l : List Var) (g : cpyGen),
      (l.foldl (fun g arg => cpyGen.onImpl g arg.genFuncPreamble) g).err = g.err := by
    intro l g
    exact proj_foldl (fun g => g.err) _ (fun g a => by simp) l g
  cases recv <;> cases args <;> rcases res with _ | ⟨r1, _ | ⟨r2, rs⟩⟩ <;>
    simp [cpyGen.genFuncBody, genDecl_loop, argParse_loop, result_loop, hd, hp]

theorem genFuncBody_eq (h : Helpers) (g : cpyGen) (f : Func) :
    g.genFuncBody h f = g.emit [] (funcBodyOps h f) :=
  eq_emit (by simp [decl_genFuncBody]) (impl_genFuncBody h g f) (pkg_genFuncBody h g f)
    (err_genFuncBody h g f)

theorem genMethod_eq (h : Helpers) (g : cpyGen) (cpy : Struct) (fct : Func) :
    g.genMethod h cpy fct
      = g.emit (methodDeclOps g.pkg.pkg.Name cpy fct) (methodImplOps h g.pkg.pkg.Name cpy fct) := by
  simp [cpyGen.genMethod, cpyGen.genMethodBody, methodDeclOps, methodImplOps, declPrintf_eq,
    implPrintf_eq, implIndent_eq, implOutdent_eq, genFuncBody_eq]

theorem genFunc_eq (h : Helpers) (g : cpyGen) (o : Func) :
    g.genFunc h o = g.emit [] (funcImplOps h g.pkg.pkg.Name o) := by
  simp [cpyGen.genFunc, funcImplOps, implPrintf_eq, implIndent_eq, implOutdent_eq,
    genFuncBody_eq]

theorem flatMap_nil_fun {α β : Type} (l : List α) :
    l.flatMap (fun _ => ([] : List β)) = [] := by
  induction l with
  | nil => rfl
  | cons a l ih => simp [List.flatMap_cons, ih]

theorem genStructMembers_eq (h : Helpers) (g : cpyGen) (cpy : Struct) :
    g.genStructMembers h cpy = g.emit (membersDeclOps h cpy) (membersImplOps h cpy) := by
  simp only [cpyGen.genStructMembers, declPrintf_eq, implPrintf_eq, implIndent_eq,
    implOutdent_eq]
  rw [foldl_emit _ (fun _ _ => [])
      (fun _ p => if p.2.Exported = true then getsetEntryOps cpy p else [])
      (fun g p => by
        cases hc : p.2.Exported <;>
          simp [hc, emit_nil, getsetEntryOps, implPrintf_eq])]
  rw [foldl_emit _
      (fun _ p => if p.2.Exported = true then accessorDeclOps h cpy p else [])
      (fun _ p => if p.2.Exported = true then accessorImplOps h cpy p else [])
      (fun g p => by
        cases hc : p.2.Exported <;>
          simp [hc, emit_nil, genStructMemberGetter_eq, genStructMemberSetter_eq,
            accessorDeclOps, accessorImplOps])]
  simp [membersDeclOps, membersImplOps, exportedFields, flatMap_guard, flatMap_nil_fun]

theorem genStructMethods_eq (h : Helpers) (g : cpyGen) (cpy : Struct) :
    g.genStructMethods h cpy
      = g.emit (methodsDeclOps g.pkg.pkg.Name cpy) (methodsImplOps h g.pkg.pkg.Name cpy) := by
  simp only [cpyGen.genStructMethods, declPrintf_eq, implPrintf_eq, implIndent_eq,
    implOutdent_eq]
  rw [foldl_emit _ (fun _ _ => [])
      (fun _ m => [Op.printf "\x7b%[1]q, (PyCFunction)gopy_%[2]s, %[3]s, %[4]q\x7d,\n"
          [.str m.GoName, .str m.ID,
           .str (if m.Return = none then "METH_NOARGS" else "METH_VARARGS"), .str m.Doc]])
      (fun g m => by simp [implPrintf_eq])]
  rw [foldl_emit _ (fun p m => methodDeclOps p.pkg.Name cpy m)
      (fun p m => methodImplOps h p.pkg.Name cpy m) (fun g m => genMethod_eq h g cpy m)]
  simp [methodsDeclOps, methodsImplOps, List.map_eq_flatMap, flatMap_nil_fun]

theorem genStruct_eq (h : Helpers) (P : Nat) (g : cpyGen) (cpy : Struct) :
    g.genStruct h P cpy
      = g.emit (structDeclOps h g.pkg.pkg.Name cpy) (structImplOps h P g.pkg.pkg.Name cpy) := by
  simp [cpyGen.genStruct, cpyGen.genStructProtocols, declPrintf_eq, implPrintf_eq,
    implIndent_eq, implOutdent_eq, declIndent_eq, declOutdent_eq, genStructNew_eq,
    genStructDealloc_eq, genStructInit_eq, genStructMembers_eq, genStructMethods_eq,
    genStructTPStr_eq, structDeclOps, structImplOps, structHeadDeclOps, typeRecordOps]

theorem genPreamble_eq (g : cpyGen) :
    g.genPreamble
      = g.emit [Op.printf cPreamble
          [.str g.pkg.pkg.Name, .str g.pkg.pkg.Path, .str (filepath.Base g.pkg.pkg.Name)]] [] := by
  simp [cpyGen.genPreamble, declPrintf_eq]


/-- `gen` appends `genDeclOps` and `genImplOps`, keeps the package and the error list, and
returns the error list when it is not empty. -/
theorem gen_eq (h : Helpers) (P : Nat) (g : cpyGen) :
    g.gen h P = (g.emit (genDeclOps h g.pkg) (genImplOps h P g.pkg),
      if g.err.length > 0 then some g.err else none) := by
  simp only [cpyGen.gen, genPreamble_eq, implPrintf_eq, implIndent_eq, implOutdent_eq]
  rw [foldl_emit _ (fun _ _ => [])
      (fun _ s =>
        [Op.printf "Py_INCREF(&_gopy_%sType);\n" [.str s.ID],
         Op.printf "PyModule_AddObject(module, %q, (PyObject*)&_gopy_%sType);\n\n"
           [.str s.GoName, .str s.ID]])
      (fun g s => by simp [implPrintf_eq])]
  rw [foldl_emit _ (fun _ _ => [])
      (fun _ s =>
        [Op.printf "if (PyType_Ready(&_gopy_%sType) < 0) \x7b return; \x7d\n" [.str s.ID]])
      (fun g s => by simp [implPrintf_eq])]
  rw [foldl_emit _ (fun _ _ => [])
      (fun _ f =>
        [Op.printf "\x7b%[1]q, %[2]s, METH_VARARGS, %[3]q\x7d,\n"
          [.str f.GoName, .str ("gopy_" ++ f.ID), .str f.Doc]])
      (fun g f => by simp [implPrintf_eq])]
  rw [foldl_emit _ (fun _ _ => []) (fun p f => funcImplOps h p.pkg.Name f)
      (fun g f => by simp [genFunc_eq])]
  rw [foldl_emit _ (fun p s => structDeclOps h p.pkg.Name s)
      (fun p s => structImplOps h P p.pkg.Name s) (fun g s => genStruct_eq h P g s)]
  by_cases he : g.err.length > 0 <;>
    simp [he, genDeclOps, genImplOps, funcTableOps, moduleInitOps, List.map_eq_flatMap,
      flatMap_nil_fun]

/-! ## Lemmas on `formats` -/

@[simp] theorem formats_nil : formats [] = [] := rfl

@[simp] theorem formats_append (a b : List Op) : formats (a ++ b) = formats a ++ formats b := by
  simp [formats]

@[simp] theorem formats_cons_printf (f : String) (a : List Arg) (l : List Op) :
    formats (Op.printf f a :: l) = f :: formats l := by
  simp [formats, Op.format?, List.filterMap_cons]

@[simp] theorem formats_cons_indent (l : List Op) : formats (Op.indent :: l) = formats l := by
  simp [formats, Op.format?, List.filterMap_cons]

@[simp] theorem formats_cons_outdent (l : List Op) : formats (Op.outdent :: l) = formats l := by
  simp [formats, Op.format?, List.filterMap_cons]

@[simp] theorem formats_cons_call (m : VarMethod) (v : Var) (l : List Op) :
    formats (Op.call m v :: l) = formats l := by
  simp [formats, Op.format?, List.filterMap_cons]

@[simp] theorem formats_map_call (m : VarMethod) (l : List Var) :
    formats (l.map (Op.call m)) = [] := by
  induction l with
  | nil => rfl
  | cons a l ih => simp [ih]

theorem mem_formats_flatMap {α : Type} (F : String) (l : List α) (G : α → List Op) :
    F ∈ formats (l.flatMap G) ↔ ∃ a ∈ l, F ∈ formats (G a) := by
  simp [formats, List.filterMap_flatMap, List.mem_flatMap]

/-- A format that does not occur in a sequence has no `Printf` call there. -/
theorem printfArgs_of_not_mem (F : String) (ops : List Op) (hF : F ∉ formats ops) :
    printfArgs F ops = [] := by
  induction ops with
  | nil => rfl
  | cons op ops ih =>
    cases op with
    | printf f a =>
      simp only [formats_cons_printf, List.mem_cons, not_or] at hF
      simp [ih hF.2, Ne.symm hF.1]
    | indent => simp only [formats_cons_indent] at hF; simp [ih hF]
    | outdent => simp only [formats_cons_outdent] at hF; simp [ih hF]
    | call m v => simp only [formats_cons_call] at hF; simp [ih hF]

/-- A format outside a list that covers the formats of a sequence has no `Printf` call
there. -/
theorem printfArgs_of_covered (F : String) (ops : List Op) (L : List String)
    (hL : ∀ x ∈ formats ops, x ∈ L) (hF : F ∉ L) : printfArgs F ops = [] :=
  printfArgs_of_not_mem F ops (fun hx => hF (hL F hx))

theorem formats_funcBodyOps (h : Helpers) (f : Func) :
    ∀ F ∈ formats (funcBodyOps h f), F ∈ funcBodyFormats := by
  intro F hF
  obtain ⟨id, name, doc, ⟨recv, args, res⟩, ret⟩ := f
  revert hF
  cases recv <;> cases args <;> rcases res with _ | ⟨r1, _ | ⟨r2, rs⟩⟩ <;>
    simp [funcBodyOps, fbDecls, fbRecvImpl, fbParse, fbPreamble, fbAssign, fbCall, fbReturn,
      funcBodyFormats] <;>
    tauto


theorem formats_newImplOps (cpy : Struct) :
    ∀ F ∈ formats (newImplOps cpy), F ∈ structImplFormats := by
  simp [newImplOps, cpyGen.genStructNew, cpyGen.fresh]
  decide

theorem formats_deallocImplOps (cpy : Struct) :
    ∀ F ∈ formats (deallocImplOps cpy), F ∈ structImplFormats := by
  simp [deallocImplOps, cpyGen.genStructDealloc, cpyGen.fresh]
  decide

theorem formats_initImplOps (cpy : Struct) :
    ∀ F ∈ formats (initImplOps cpy), F ∈ structImplFormats := by
  simp [initImplOps, cpyGen.genStructInit, cpyGen.fresh]
  decide

theorem formats_tpStrImplOps (P : Nat) (cpy : Struct) :
    ∀ F ∈ formats (tpStrImplOps P cpy), F ∈ structImplFormats := by
  simp only [tpStrImplOps, cpyGen.genStructTPStr, cpyGen.fresh]
  split_ifs <;> simp <;> decide

theorem formats_typeRecordOps (cpy : Struct) :
    ∀ F ∈ formats (typeRecordOps cpy), F ∈ structImplFormats := by
  simp [typeRecordOps]
  repeat' apply And.intro
  all_goals decide

theorem formats_accessorImplOps (h : Helpers) (cpy : Struct) (p : Nat × FieldObj) :
    ∀ F ∈ formats (accessorImplOps h cpy p), F ∈ structImplFormats := by
  simp only [accessorImplOps, getterImplOps, setterImplOps, cpyGen.genStructMemberGetter,
    cpyGen.genStructMemberSetter, cpyGen.fresh]
  split_ifs <;> simp <;> (repeat' apply And.intro) <;> decide

theorem formats_getsetEntryOps (cpy : Struct) (p : Nat × FieldObj) :
    ∀ F ∈ formats (getsetEntryOps cpy p), F ∈ structImplFormats := by
  simp [getsetEntryOps]
  decide

theorem funcBodyFormats_sub : ∀ F ∈ funcBodyFormats, F ∈ structImplFormats := by decide

/-- Membership in a list of formats, for the formats of a literal sequence. -/
theorem formats_covered_append (a b : List Op) (L : List String)
    (ha : ∀ F ∈ formats a, F ∈ L) (hb : ∀ F ∈ formats b, F ∈ L) :
    ∀ F ∈ formats (a ++ b), F ∈ L := by
  intro F hF
  rw [formats_append] at hF
  rcases List.mem_append.1 hF with hF | hF
  · exact ha F hF
  · exact hb F hF

theorem formats_covered_flatMap {α : Type} (l : List α) (G : α → List Op) (L : List String)
    (hG : ∀ a, ∀ F ∈ formats (G a), F ∈ L) :
    ∀ F ∈ formats (l.flatMap G), F ∈ L := by
  intro F hF
  obtain ⟨a, _, ha⟩ := (mem_formats_flatMap F l G).1 hF
  exact hG a F ha

theorem formats_methodImplOps (h : Helpers) (pkgname : String) (cpy : Struct) (m : Func) :
    ∀ F ∈ formats (methodImplOps h pkgname cpy m), F ∈ structImplFormats := by
  rw [methodImplOps]
  refine formats_covered_append _ _ _ (formats_covered_append _ _ _ ?_ ?_) ?_
  · simp
    decide
  · exact fun F hF => funcBodyFormats_sub F (formats_funcBodyOps h m F hF)
  · simp
    decide

theorem formats_membersImplOps (h : Helpers) (cpy : Struct) :
    ∀ F ∈ formats (membersImplOps h cpy), F ∈ structImplFormats := by
  rw [membersImplOps]
  refine formats_covered_append _ _ _ (formats_covered_append _ _ _
    (formats_covered_append _ _ _ ?_ ?_) ?_) ?_
  · exact formats_covered_flatMap _ _ _ (formats_accessorImplOps h cpy)
  · simp
    decide
  · exact formats_covered_flatMap _ _ _ (formats_getsetEntryOps cpy)
  · simp
    decide

theorem formats_methodsImplOps (h : Helpers) (pkgname : String) (cpy : Struct) :
    ∀ F ∈ formats (methodsImplOps h pkgname cpy), F ∈ structImplFormats := by
  rw [methodsImplOps, List.map_eq_flatMap]
  refine formats_covered_append _ _ _ (formats_covered_append _ _ _
    (formats_covered_append _ _ _ ?_ ?_) ?_) ?_
  · exact formats_covered_flatMap _ _ _ (formats_methodImplOps h pkgname cpy)
  · simp
    decide
  · refine formats_covered_flatMap _ _ _ (fun m => ?_)
    simp
    decide
  · simp
    decide

/-- Every format in the implementation of a struct is one of `structImplFormats`. -/
theorem formats_structImplOps (h : Helpers) (P : Nat) (pkgname : String) (cpy : Struct) :
    ∀ F ∈ formats (structImplOps h P pkgname cpy), F ∈ structImplFormats := by
  rw [structImplOps]
  refine formats_covered_append _ _ _ (formats_covered_append _ _ _
    (formats_covered_append _ _ _ (formats_covered_append _ _ _
      (formats_covered_append _ _ _ (formats_covered_append _ _ _
        (formats_covered_append _ _ _ ?_ (formats_newImplOps cpy))
        (formats_deallocImplOps cpy)) (formats_initImplOps cpy))
      (formats_membersImplOps h cpy)) (formats_methodsImplOps h pkgname cpy))
    (formats_tpStrImplOps P cpy)) (formats_typeRecordOps cpy)
  simp
  decide

theorem funcBodyFormats_sub_func : ∀ F ∈ funcBodyFormats, F ∈ funcImplFormats := by decide

/-- Every format in the implementation of a free function is one of `funcImplFormats`. -/
theorem formats_funcImplOps (h : Helpers) (pkgname : String) (o : Func) :
    ∀ F ∈ formats (funcImplOps h pkgname o), F ∈ funcImplFormats := by
  rw [funcImplOps]
  refine formats_covered_append _ _ _ (formats_covered_append _ _ _ ?_ ?_) ?_
  · simp
    decide
  · exact fun F hF => funcBodyFormats_sub_func F (formats_funcBodyOps h o F hF)
  · simp
    decide

/-! ## Field accessors and the getset table -/

/-- The accessor heads that one exported field contributes to the implementation. -/
theorem accessorImpl_heads (h : Helpers) (cpy : Struct) (i : Nat) (f : FieldObj) :
    printfArgs
        "_gopy_%[1]s_getter_%[2]d(_gopy_%[1]s *self, void *closure) /* %[3]s */ \x7b\n"
        (accessorImplOps h cpy (i, f))
      = [[.str cpy.ID, .int (i + 1), .str f.Name]] ∧
    printfArgs
        "_gopy_%[1]s_setter_%[2]d(_gopy_%[1]s *self, PyObject *value, void *closure) \x7b\n"
        (accessorImplOps h cpy (i, f))
      = [[.str cpy.ID, .int (i + 1)]] ∧
    printfArgs
        "PyErr_SetString(PyExc_TypeError, \x22Cannot delete \x27%[1]s\x27 attribute\x22);\n"
        (accessorImplOps h cpy (i, f))
      = [[.str f.Name]] := by
  simp only [accessorImplOps, getterImplOps, setterImplOps, cpyGen.genStructMemberGetter,
    cpyGen.genStructMemberSetter, cpyGen.fresh]
  split_ifs <;> simp

/-- The accessors contribute nothing that reads as a getset table entry or sentinel. -/
theorem accessorImpl_no_table (h : Helpers) (cpy : Struct) (i : Nat) (f : FieldObj) :
    printfArgs "\x7b%q, " (accessorImplOps h cpy (i, f)) = [] ∧
    printfArgs "(getter)_gopy_%[1]s_getter_%[2]d, "
      (accessorImplOps h cpy (i, f)) = [] ∧
    printfArgs "(setter)_gopy_%[1]s_setter_%[2]d, "
      (accessorImplOps h cpy (i, f)) = [] ∧
    printfArgs "%q, NULL\x7d,\n" (accessorImplOps h cpy (i, f)) = [] ∧
    printfArgs "\x7bNULL\x7d /* Sentinel */\n"
      (accessorImplOps h cpy (i, f)) = [] := by
  simp only [accessorImplOps, getterImplOps, setterImplOps, cpyGen.genStructMemberGetter,
    cpyGen.genStructMemberSetter, cpyGen.fresh]
  split_ifs <;> simp

/-- The accessor prototypes that one exported field contributes to the declarations. -/
theorem accessorDecl_heads (h : Helpers) (cpy : Struct) (i : Nat) (f : FieldObj) :
    printfArgs
        "_gopy_%[1]s_getter_%[2]d(_gopy_%[1]s *self, void *closure); /* %[3]s */\n"
        (accessorDeclOps h cpy (i, f))
      = [[.str cpy.ID, .int (i + 1), .str f.Name]] ∧
    printfArgs
        "_gopy_%[1]s_setter_%[2]d(_gopy_%[1]s *self, PyObject *value, void *closure);\n"
        (accessorDeclOps h cpy (i, f))
      = [[.str cpy.ID, .int (i + 1)]] := by
  simp only [accessorDeclOps, getterDeclOps, setterDeclOps, cpyGen.genStructMemberGetter,
    cpyGen.genStructMemberSetter, cpyGen.fresh]
  split_ifs <;> simp

/-- What the getset table entry of one field reads as. -/
theorem getsetEntry_reads (cpy : Struct) (p : Nat × FieldObj) :
    printfArgs "\x7b%q, " (getsetEntryOps cpy p) = [[.str p.2.Name]] ∧
    printfArgs "(getter)_gopy_%[1]s_getter_%[2]d, " (getsetEntryOps cpy p)
      = [[.str cpy.ID, .int (p.1 + 1)]] ∧
    printfArgs "(setter)_gopy_%[1]s_setter_%[2]d, " (getsetEntryOps cpy p)
      = [[.str cpy.ID, .int (p.1 + 1)]] ∧
    printfArgs "%q, NULL\x7d,\n" (getsetEntryOps cpy p) = [[.str ("doc for " ++ p.2.Name)]] ∧
    printfArgs "\x7bNULL\x7d /* Sentinel */\n" (getsetEntryOps cpy p) = [] ∧
    printfArgs
      "_gopy_%[1]s_getter_%[2]d(_gopy_%[1]s *self, void *closure) /* %[3]s */ \x7b\n"
      (getsetEntryOps cpy p) = [] ∧
    printfArgs
      "_gopy_%[1]s_setter_%[2]d(_gopy_%[1]s *self, PyObject *value, void *closure) \x7b\n"
      (getsetEntryOps cpy p) = [] := by
  simp [getsetEntryOps]

/-- The getter prototypes among the declarations of `genStructMembers`. -/
theorem members_getterDecl (h : Helpers) (cpy : Struct) :
    printfArgs
        "_gopy_%[1]s_getter_%[2]d(_gopy_%[1]s *self, void *closure); /* %[3]s */\n"
        (membersDeclOps h cpy)
      = (exportedFields cpy).map (fun p => [.str cpy.ID, .int (p.1 + 1), .str p.2.Name]) := by
  rw [membersDeclOps, printfArgs_append,
    printfArgs_flatMap_single _ (exportedFields cpy) (accessorDeclOps h cpy)
      (fun p => [.str cpy.ID, .int (p.1 + 1), .str p.2.Name])
      (fun p => (accessorDecl_heads h cpy p.1 p.2).1)]
  simp

/-- The setter prototypes among the declarations of `genStructMembers`. -/
theorem members_setterDecl (h : Helpers) (cpy : Struct) :
    printfArgs
        "_gopy_%[1]s_setter_%[2]d(_gopy_%[1]s *self, PyObject *value, void *closure);\n"
        (membersDeclOps h cpy)
      = (exportedFields cpy).map (fun p => [.str cpy.ID, .int (p.1 + 1)]) := by
  rw [membersDeclOps, printfArgs_append,
    printfArgs_flatMap_single _ (exportedFields cpy) (accessorDeclOps h cpy)
      (fun p => [.str cpy.ID, .int (p.1 + 1)])
      (fun p => (accessorDecl_heads h cpy p.1 p.2).2)]
  simp

/-- The getter definitions in the implementation of `genStructMembers`. -/
theorem members_getterImpl (h : Helpers) (cpy : Struct) :
    printfArgs
        "_gopy_%[1]s_getter_%[2]d(_gopy_%[1]s *self, void *closure) /* %[3]s */ \x7b\n"
        (membersImplOps h cpy)
      = (exportedFields cpy).map (fun p => [.str cpy.ID, .int (p.1 + 1), .str p.2.Name]) := by
  rw [membersImplOps]
  simp only [printfArgs_append]
  rw [printfArgs_flatMap_single _ (exportedFields cpy) (accessorImplOps h cpy)
      (fun p => [.str cpy.ID, .int (p.1 + 1), .str p.2.Name])
      (fun p => (accessorImpl_heads h cpy p.1 p.2).1),
    printfArgs_flatMap_none _ (exportedFields cpy) (getsetEntryOps cpy)
      (fun p => (getsetEntry_reads cpy p).2.2.2.2.2.1)]
  simp

/-- The setter definitions in the implementation of `genStructMembers`. -/
theorem members_setterImpl (h : Helpers) (cpy : Struct) :
    printfArgs
        "_gopy_%[1]s_setter_%[2]d(_gopy_%[1]s *self, PyObject *value, void *closure) \x7b\n"
        (membersImplOps h cpy)
      = (exportedFields cpy).map (fun p => [.str cpy.ID, .int (p.1 + 1)]) := by
  rw [membersImplOps]
  simp only [printfArgs_append]
  rw [printfArgs_flatMap_single _ (exportedFields cpy) (accessorImplOps h cpy)
      (fun p => [.str cpy.ID, .int (p.1 + 1)])
      (fun p => (accessorImpl_heads h cpy p.1 p.2).2.1),
    printfArgs_flatMap_none _ (exportedFields cpy) (getsetEntryOps cpy)
      (fun p => (getsetEntry_reads cpy p).2.2.2.2.2.2)]
  simp

/-- The getset table entries in the implementation of `genStructMembers`, and its only
sentinel. -/
theorem members_table (h : Helpers) (cpy : Struct) :
    printfArgs "\x7b%q, " (membersImplOps h cpy)
      = (exportedFields cpy).map (fun p => [.str p.2.Name]) ∧
    printfArgs "(getter)_gopy_%[1]s_getter_%[2]d, " (membersImplOps h cpy)
      = (exportedFields cpy).map (fun p => [.str cpy.ID, .int (p.1 + 1)]) ∧
    printfArgs "(setter)_gopy_%[1]s_setter_%[2]d, " (membersImplOps h cpy)
      = (exportedFields cpy).map (fun p => [.str cpy.ID, .int (p.1 + 1)]) ∧
    printfArgs "%q, NULL\x7d,\n" (membersImplOps h cpy)
      = (exportedFields cpy).map (fun p => [.str ("doc for " ++ p.2.Name)]) ∧
    printfArgs "\x7bNULL\x7d /* Sentinel */\n" (membersImplOps h cpy) = [[]] := by
  refine ⟨?_, ?_, ?_, ?_, ?_⟩
  · rw [membersImplOps]
    simp only [printfArgs_append]
    rw [printfArgs_flatMap_none _ (exportedFields cpy) (accessorImplOps h cpy)
        (fun p => (accessorImpl_no_table h cpy p.1 p.2).1),
      printfArgs_flatMap_single _ (exportedFields cpy) (getsetEntryOps cpy)
        (fun p => [.str p.2.Name]) (fun p => (getsetEntry_reads cpy p).1)]
    simp
  · rw [membersImplOps]
    simp only [printfArgs_append]
    rw [printfArgs_flatMap_none _ (exportedFields cpy) (accessorImplOps h cpy)
        (fun p => (accessorImpl_no_table h cpy p.1 p.2).2.1),
      printfArgs_flatMap_single _ (exportedFields cpy) (getsetEntryOps cpy)
        (fun p => [.str cpy.ID, .int (p.1 + 1)]) (fun p => (getsetEntry_reads cpy p).2.1)]
    simp
  · rw [membersImplOps]
    simp only [printfArgs_append]
    rw [printfArgs_flatMap_none _ (exportedFields cpy) (accessorImplOps h cpy)
        (fun p => (accessorImpl_no_table h cpy p.1 p.2).2.2.1),
      printfArgs_flatMap_single _ (exportedFields cpy) (getsetEntryOps cpy)
        (fun p => [.str cpy.ID, .int (p.1 + 1)]) (fun p => (getsetEntry_reads cpy p).2.2.1)]
    simp
  · rw [membersImplOps]
    simp only [printfArgs_append]
    rw [printfArgs_flatMap_none _ (exportedFields cpy) (accessorImplOps h cpy)
        (fun p => (accessorImpl_no_table h cpy p.1 p.2).2.2.2.1),
      printfArgs_flatMap_single _ (exportedFields cpy) (getsetEntryOps cpy)
        (fun p => [.str ("doc for " ++ p.2.Name)]) (fun p => (getsetEntry_reads cpy p).2.2.2.1)]
    simp
  · rw [membersImplOps]
    simp only [printfArgs_append]
    rw [printfArgs_flatMap_none _ (exportedFields cpy) (accessorImplOps h cpy)
        (fun p => (accessorImpl_no_table h cpy p.1 p.2).2.2.2.2),
      printfArgs_flatMap_none _ (exportedFields cpy) (getsetEntryOps cpy)
        (fun p => (getsetEntry_reads cpy p).2.2.2.2.1)]
    simp

/-- A pair is among the exported fields with their positions exactly when its field is the
one at that position of the struct and is exported. -/
theorem mem_exportedFields (cpy : Struct) (i : Nat) (f : FieldObj) :
    (i, f) ∈ cpy.Struct.fields.enum.filter (fun p => p.2.Exported) ↔
      cpy.Struct.fields[i]? = some f ∧ f.Exported = true := by
  rw [List.mem_filter, List.mk_mem_enum_iff_getElem?]

theorem exportedFields_nodup (cpy : Struct) :
    (cpy.Struct.fields.enum.filter (fun p => p.2.Exported)).Nodup :=
  List.Nodup.filter _ (List.Nodup.of_map Prod.fst (List.nodup_enum_map_fst _))

theorem countP_eq_of_nodup {α : Type} [DecidableEq α] (L : List α) (hL : L.Nodup) (x : α) :
    L.countP (fun p => decide (p = x)) = if x ∈ L then 1 else 0 := by
  induction L with
  | nil => simp
  | cons a L ih =>
    rw [List.nodup_cons] at hL
    rw [List.countP_cons, ih hL.2]
    by_cases hax : a = x
    · subst hax
      simp [hL.1]
    · have hxa : ¬ x = a := fun hx => hax hx.symm
      simp [hax, hxa]

/-- How often the arguments of the field at position `i` occur among the arguments printed
for the exported fields: once when the field is exported, never otherwise. -/
theorem count_exportedFields_map {β : Type} [DecidableEq β] (cpy : Struct)
    (F : Nat × FieldObj → β) (hF : ∀ p q : Nat × FieldObj, F p = F q → p.1 = q.1)
    (i : Nat) (f : FieldObj) (hi : cpy.Struct.fields[i]? = some f) :
    ((cpy.Struct.fields.enum.filter (fun p => p.2.Exported)).map F).countP
        (fun b => decide (b = F (i, f)))
      = if f.Exported = true then 1 else 0 := by
  have hkey : ∀ p ∈ cpy.Struct.fields.enum.filter (fun p => p.2.Exported),
      (F p = F (i, f) ↔ p = (i, f)) := by
    intro p hp
    have hp2 : cpy.Struct.fields[p.1]? = some p.2 :=
      ((mem_exportedFields cpy p.1 p.2).1 hp).1
    constructor
    · intro hFe
      have h1 : p.1 = i := hF p (i, f) hFe
      rw [h1, hi] at hp2
      exact Prod.ext h1 (Option.some.inj hp2).symm
    · intro hpe
      rw [hpe]
  have hc := countP_eq_of_nodup _ (exportedFields_nodup cpy) (i, f)
  simp only [mem_exportedFields, hi, true_and] at hc
  rw [← hc, List.countP_map]
  apply List.countP_congr
  intro p hp
  simp [hkey p hp]


/-- C1, as the code has it: the index in the names of the getter and the setter emitted
for an exported field is the 1-based position of that field among all the fields of the
struct, exported or not: the accessors are emitted for the pairs `(i, f)` of a position
`i` and the exported field `f` at that position, in field order, and each of them carries
`i + 1`, in the prototypes, in the definitions and in the entries of the getset table
alike. -/
theorem genStructMembers_accessor_index (h : Helpers) (g : cpyGen) (cpy : Struct) :
    ∃ D I,
      (g.genStructMembers h cpy).decl.ops = g.decl.ops ++ D ∧
      (g.genStructMembers h cpy).impl.ops = g.impl.ops ++ I ∧
      (∀ i f, (i, f) ∈ cpy.Struct.fields.enum.filter (fun p => p.2.Exported) ↔
        cpy.Struct.fields[i]? = some f ∧ f.Exported = true) ∧
      printfArgs
          "_gopy_%[1]s_getter_%[2]d(_gopy_%[1]s *self, void *closure); /* %[3]s */\n" D
        = (cpy.Struct.fields.enum.filter (fun p => p.2.Exported)).map
            (fun p => [.str cpy.ID, .int (p.1 + 1), .str p.2.Name]) ∧
      printfArgs
          "_gopy_%[1]s_setter_%[2]d(_gopy_%[1]s *self, PyObject *value, void *closure);\n" D
        = (cpy.Struct.fields.enum.filter (fun p => p.2.Exported)).map
            (fun p => [.str cpy.ID, .int (p.1 + 1)]) ∧
      printfArgs
          "_gopy_%[1]s_getter_%[2]d(_gopy_%[1]s *self, void *closure) /* %[3]s */ \x7b\n" I
        = (cpy.Struct.fields.enum.filter (fun p => p.2.Exported)).map
            (fun p => [.str cpy.ID, .int (p.1 + 1), .str p.2.Name]) ∧
      printfArgs
          "_gopy_%[1]s_setter_%[2]d(_gopy_%[1]s *self, PyObject *value, void *closure) \x7b\n"
          I
        = (cpy.Struct.fields.enum.filter (fun p => p.2.Exported)).map
            (fun p => [.str cpy.ID, .int (p.1 + 1)]) ∧
      printfArgs "\x7b%q, " I
        = (cpy.Struct.fields.enum.filter (fun p => p.2.Exported)).map
            (fun p => [.str p.2.Name]) ∧
      printfArgs "(getter)_gopy_%[1]s_getter_%[2]d, " I
        = (cpy.Struct.fields.enum.filter (fun p => p.2.Exported)).map
            (fun p => [.str cpy.ID, .int (p.1 + 1)]) ∧
      printfArgs "(setter)_gopy_%[1]s_setter_%[2]d, " I
        = (cpy.Struct.fields.enum.filter (fun p => p.2.Exported)).map
            (fun p => [.str cpy.ID, .int (p.1 + 1)]) := by
  exact ⟨membersDeclOps h cpy, membersImplOps h cpy, decl_genStructMembers h g cpy,
    impl_genStructMembers h g cpy, mem_exportedFields cpy, members_getterDecl h cpy,
    members_setterDecl h cpy, members_getterImpl h cpy, members_setterImpl h cpy,
    (members_table h cpy).1, (members_table h cpy).2.1, (members_table h cpy).2.2.1⟩

/-- C1 fails as stated: for `type T struct { A int; b int; C int }` the accessors and
the entries of the getset table are numbered 1 and 3, not 1 and 2 as counting among the
exported fields only would give. -/
theorem genStructMembers_index_counterexample :
    printfArgs
        "_gopy_%[1]s_getter_%[2]d(_gopy_%[1]s *self, void *closure) /* %[3]s */ \x7b\n"
        (g0.genStructMembers sampleHelpers mixedStruct).impl.ops
      = [[.str "pkg_T", .int 1, .str "A"], [.str "pkg_T", .int 3, .str "C"]] ∧
    printfArgs
        "_gopy_%[1]s_setter_%[2]d(_gopy_%[1]s *self, PyObject *value, void *closure) \x7b\n"
        (g0.genStructMembers sampleHelpers mixedStruct).impl.ops
      = [[.str "pkg_T", .int 1], [.str "pkg_T", .int 3]] ∧
    printfArgs "(getter)_gopy_%[1]s_getter_%[2]d, "
        (g0.genStructMembers sampleHelpers mixedStruct).impl.ops
      = [[.str "pkg_T", .int 1], [.str "pkg_T", .int 3]] ∧
    printfArgs "(setter)_gopy_%[1]s_setter_%[2]d, "
        (g0.genStructMembers sampleHelpers mixedStruct).impl.ops
      = [[.str "pkg_T", .int 1], [.str "pkg_T", .int 3]] ∧
    printfArgs
        "_gopy_%[1]s_getter_%[2]d(_gopy_%[1]s *self, void *closure) /* %[3]s */ \x7b\n"
        (g0.genStructMembers sampleHelpers mixedStruct).impl.ops
      ≠ ((mixedStruct.Struct.fields.filter (fun f => f.Exported)).enumFrom 1).map
          (fun p => [.str mixedStruct.ID, .int p.1, .str p.2.Name]) := by
  decide

/-- C2: `genStructMembers` emits exactly one getter and exactly one setter per exported
field and none for the other fields, as a prototype in the declarations and as a definition
in the implementation: for the field at position `i`, the getter numbered `i + 1` (which
names the field) and the setter numbered `i + 1` are emitted once when the field is
exported and never when it is not, and so are the two references to them in the getset
table; every emitted prototype, definition and table reference is the one of an exported
field at its position; each of the counts is the number of exported fields of the struct,
and so is the number of entries of the getset table (each of the four `Printf` calls that
write an entry runs that many times). -/
theorem genStructMembers_accessor_count (h : Helpers) (g : cpyGen) (cpy : Struct) :
    ∃ D I,
      (g.genStructMembers h cpy).decl.ops = g.decl.ops ++ D ∧
      (g.genStructMembers h cpy).impl.ops = g.impl.ops ++ I ∧
      (∀ i f, cpy.Struct.fields[i]? = some f →
        (printfArgs
            "_gopy_%[1]s_getter_%[2]d(_gopy_%[1]s *self, void *closure); /* %[3]s */\n" D).countP
          (fun a => decide (a = [.str cpy.ID, .int (i + 1), .str f.Name]))
            = (if f.Exported = true then 1 else 0) ∧
        (printfArgs
            "_gopy_%[1]s_setter_%[2]d(_gopy_%[1]s *self, PyObject *value, void *closure);\n"
            D).countP
          (fun a => decide (a = [.str cpy.ID, .int (i + 1)]))
            = (if f.Exported = true then 1 else 0) ∧
        (printfArgs
            "_gopy_%[1]s_getter_%[2]d(_gopy_%[1]s *self, void *closure) /* %[3]s */ \x7b\n"
            I).countP
          (fun a => decide (a = [.str cpy.ID, .int (i + 1), .str f.Name]))
            = (if f.Exported = true then 1 else 0) ∧
        (printfArgs
            "_gopy_%[1]s_setter_%[2]d(_gopy_%[1]s *self, PyObject *value, void *closure) \x7b\n"
            I).countP
          (fun a => decide (a = [.str cpy.ID, .int (i + 1)]))
            = (if f.Exported = true then 1 else 0) ∧
        (printfArgs
            "(getter)_gopy_%[1]s_getter_%[2]d, " I).countP
          (fun a => decide (a = [.str cpy.ID, .int (i + 1)]))
            = (if f.Exported = true then 1 else 0) ∧
        (printfArgs
            "(setter)_gopy_%[1]s_setter_%[2]d, " I).countP
          (fun a => decide (a = [.str cpy.ID, .int (i + 1)]))
            = (if f.Exported = true then 1 else 0)) ∧
      (∀ a ∈ printfArgs
            "_gopy_%[1]s_getter_%[2]d(_gopy_%[1]s *self, void *closure); /* %[3]s */\n" D,
          ∃ i f, cpy.Struct.fields[i]? = some f ∧ f.Exported = true ∧
            a = [.str cpy.ID, .int (i + 1), .str f.Name]) ∧
      (∀ a ∈ printfArgs
            "_gopy_%[1]s_setter_%[2]d(_gopy_%[1]s *self, PyObject *value, void *closure);\n" D,
          ∃ i f, cpy.Struct.fields[i]? = some f ∧ f.Exported = true ∧
            a = [.str cpy.ID, .int (i + 1)]) ∧
      (∀ a ∈ printfArgs
            "_gopy_%[1]s_getter_%[2]d(_gopy_%[1]s *self, void *closure) /* %[3]s */ \x7b\n" I,
          ∃ i f, cpy.Struct.fields[i]? = some f ∧ f.Exported = true ∧
            a = [.str cpy.ID, .int (i + 1), .str f.Name]) ∧
      (∀ a ∈ printfArgs
            "_gopy_%[1]s_setter_%[2]d(_gopy_%[1]s *self, PyObject *value, void *closure) \x7b\n" I,
          ∃ i f, cpy.Struct.fields[i]? = some f ∧ f.Exported = true ∧
            a = [.str cpy.ID, .int (i + 1)]) ∧
      (∀ a ∈ printfArgs
            "(getter)_gopy_%[1]s_getter_%[2]d, " I,
          ∃ i f, cpy.Struct.fields[i]? = some f ∧ f.Exported = true ∧
            a = [.str cpy.ID, .int (i + 1)]) ∧
      (∀ a ∈ printfArgs
            "(setter)_gopy_%[1]s_setter_%[2]d, " I,
          ∃ i f, cpy.Struct.fields[i]? = some f ∧ f.Exported = true ∧
            a = [.str cpy.ID, .int (i + 1)]) ∧
      (printfArgs
          "_gopy_%[1]s_getter_%[2]d(_gopy_%[1]s *self, void *closure); /* %[3]s */\n" D).length
        = (cpy.Struct.fields.filter (fun f => f.Exported)).length ∧
      (printfArgs
          "_gopy_%[1]s_setter_%[2]d(_gopy_%[1]s *self, PyObject *value, void *closure);\n" D).length
        = (cpy.Struct.fields.filter (fun f => f.Exported)).length ∧
      (printfArgs
          "_gopy_%[1]s_getter_%[2]d(_gopy_%[1]s *self, void *closure) /* %[3]s */ \x7b\n" I).length
        = (cpy.Struct.fields.filter (fun f => f.Exported)).length ∧
      (printfArgs
          "_gopy_%[1]s_setter_%[2]d(_gopy_%[1]s *self, PyObject *value, void *closure) \x7b\n"
          I).length
        = (cpy.Struct.fields.filter (fun f => f.Exported)).length ∧
      (printfArgs
          "\x7b%q, " I).length
        = (cpy.Struct.fields.filter (fun f => f.Exported)).length ∧
      (printfArgs
          "(getter)_gopy_%[1]s_getter_%[2]d, " I).length
        = (cpy.Struct.fields.filter (fun f => f.Exported)).length ∧
      (printfArgs
          "(setter)_gopy_%[1]s_setter_%[2]d, " I).length
        = (cpy.Struct.fields.filter (fun f => f.Exported)).length ∧
      (printfArgs
          "%q, NULL\x7d,\n" I).length
        = (cpy.Struct.fields.filter (fun f => f.Exported)).length := by
  have hm3 : ∀ a ∈ (cpy.Struct.fields.enum.filter (fun p => p.2.Exported)).map
      (fun p => [Arg.str cpy.ID, Arg.int (p.1 + 1), Arg.str p.2.Name]),
      ∃ i f, cpy.Struct.fields[i]? = some f ∧ f.Exported = true ∧
        a = [.str cpy.ID, .int (i + 1), .str f.Name] := by
    intro a ha
    obtain ⟨p, hp, rfl⟩ := List.mem_map.1 ha
    exact ⟨p.1, p.2, ((mem_exportedFields cpy p.1 p.2).1 hp).1,
      ((mem_exportedFields cpy p.1 p.2).1 hp).2, rfl⟩
  have hm2 : ∀ a ∈ (cpy.Struct.fields.enum.filter (fun p => p.2.Exported)).map
      (fun p => [Arg.str cpy.ID, Arg.int (p.1 + 1)]),
      ∃ i f, cpy.Struct.fields[i]? = some f ∧ f.Exported = true ∧
        a = [.str cpy.ID, .int (i + 1)] := by
    intro a ha
    obtain ⟨p, hp, rfl⟩ := List.mem_map.1 ha
    exact ⟨p.1, p.2, ((mem_exportedFields cpy p.1 p.2).1 hp).1,
      ((mem_exportedFields cpy p.1 p.2).1 hp).2, rfl⟩
  have hc3 : ∀ i f, cpy.Struct.fields[i]? = some f →
      ((cpy.Struct.fields.enum.filter (fun p => p.2.Exported)).map
        (fun p => [Arg.str cpy.ID, Arg.int (p.1 + 1), Arg.str p.2.Name])).countP
        (fun a => decide (a = [.str cpy.ID, .int (i + 1), .str f.Name]))
          = (if f.Exported = true then 1 else 0) :=
    fun i f hi => count_exportedFields_map cpy
      (fun p => [Arg.str cpy.ID, Arg.int (p.1 + 1), Arg.str p.2.Name])
      (fun p q hpq => by simp at hpq; omega) i f hi
  have hc2 : ∀ i f, cpy.Struct.fields[i]? = some f →
      ((cpy.Struct.fields.enum.filter (fun p => p.2.Exported)).map
        (fun p => [Arg.str cpy.ID, Arg.int (p.1 + 1)])).countP
        (fun a => decide (a = [.str cpy.ID, .int (i + 1)]))
          = (if f.Exported = true then 1 else 0) :=
    fun i f hi => count_exportedFields_map cpy
      (fun p => [Arg.str cpy.ID, Arg.int (p.1 + 1)])
      (fun p q hpq => by simp at hpq; omega) i f hi
  refine ⟨membersDeclOps h cpy, membersImplOps h cpy, decl_genStructMembers h g cpy,
    impl_genStructMembers h g cpy, ?_, ?_, ?_, ?_, ?_, ?_, ?_, ?_, ?_, ?_, ?_, ?_, ?_, ?_, ?_⟩
  · intro i f hi
    rw [members_getterDecl, members_setterDecl, members_getterImpl, members_setterImpl,
      (members_table h cpy).2.1, (members_table h cpy).2.2.1]
    exact ⟨hc3 i f hi, hc2 i f hi, hc3 i f hi, hc2 i f hi, hc2 i f hi, hc2 i f hi⟩
  · rw [members_getterDecl]; exact hm3
  · rw [members_setterDecl]; exact hm2
  · rw [members_getterImpl]; exact hm3
  · rw [members_setterImpl]; exact hm2
  · rw [(members_table h cpy).2.1]; exact hm2
  · rw [(members_table h cpy).2.2.1]; exact hm2
  · rw [members_getterDecl, List.length_map, exportedFields_length]
  · rw [members_setterDecl, List.length_map, exportedFields_length]
  · rw [members_getterImpl, List.length_map, exportedFields_length]
  · rw [members_setterImpl, List.length_map, exportedFields_length]
  · rw [(members_table h cpy).1, List.length_map, exportedFields_length]
  · rw [(members_table h cpy).2.1, List.length_map, exportedFields_length]
  · rw [(members_table h cpy).2.2.1, List.length_map, exportedFields_length]
  · rw [(members_table h cpy).2.2.2.1, List.length_map, exportedFields_length]

/-- C3: after the accessor definitions, `genStructMembers` emits the table
`_gopy_<ID>_getsets`: one entry per exported field, in field declaration order, naming the
field and pairing the getter and the setter of the same index; that index and that order
are the ones of the accessor definitions emitted before the table (the `k`-th getter is
defined for the same field under the same index, the `k`-th setter under the same index
with the error message naming the same field); the table ends with its only `NULL`
sentinel, the last entry before the closing brace. -/
theorem genStructMembers_getset_table (h : Helpers) (g : cpyGen) (cpy : Struct) :
    ∃ pre,
      (g.genStructMembers h cpy).impl.ops = g.impl.ops ++ pre ++
        [Op.printf "/* tp_getset for %s.%v */\n" [.str cpy.Package.Name, .str cpy.GoName],
         Op.printf "static PyGetSetDef _gopy_%s_getsets[] = \x7b\n" [.str cpy.ID],
         Op.indent] ++
        (cpy.Struct.fields.enum.filter (fun p => p.2.Exported)).flatMap
          (fun p =>
            [Op.printf "\x7b%q, " [.str p.2.Name],
             Op.printf "(getter)_gopy_%[1]s_getter_%[2]d, " [.str cpy.ID, .int (p.1 + 1)],
             Op.printf "(setter)_gopy_%[1]s_setter_%[2]d, " [.str cpy.ID, .int (p.1 + 1)],
             Op.printf "%q, NULL\x7d,\n" [.str ("doc for " ++ p.2.Name)]]) ++
        [Op.printf "\x7bNULL\x7d /* Sentinel */\n" [], Op.outdent, Op.printf "\x7d;\n\n" []] ∧
      (cpy.Struct.fields.enum.filter (fun p => p.2.Exported)).map (fun p => p.2)
        = cpy.Struct.fields.filter (fun f => f.Exported) ∧
      printfArgs
          "_gopy_%[1]s_getter_%[2]d(_gopy_%[1]s *self, void *closure) /* %[3]s */ \x7b\n" pre
        = (cpy.Struct.fields.enum.filter (fun p => p.2.Exported)).map
            (fun p => [.str cpy.ID, .int (p.1 + 1), .str p.2.Name]) ∧
      printfArgs
          "_gopy_%[1]s_setter_%[2]d(_gopy_%[1]s *self, PyObject *value, void *closure) \x7b\n"
          pre
        = (cpy.Struct.fields.enum.filter (fun p => p.2.Exported)).map
            (fun p => [.str cpy.ID, .int (p.1 + 1)]) ∧
      printfArgs
          "PyErr_SetString(PyExc_TypeError, \x22Cannot delete \x27%[1]s\x27 attribute\x22);\n"
          pre
        = (cpy.Struct.fields.enum.filter (fun p => p.2.Exported)).map
            (fun p => [.str p.2.Name]) ∧
      printfArgs "\x7bNULL\x7d /* Sentinel */\n" pre = [] ∧
      printfArgs "\x7bNULL\x7d /* Sentinel */\n"
        ((cpy.Struct.fields.enum.filter (fun p => p.2.Exported)).flatMap
          (fun p =>
            [Op.printf "\x7b%q, " [.str p.2.Name],
             Op.printf "(getter)_gopy_%[1]s_getter_%[2]d, " [.str cpy.ID, .int (p.1 + 1)],
             Op.printf "(setter)_gopy_%[1]s_setter_%[2]d, " [.str cpy.ID, .int (p.1 + 1)],
             Op.printf "%q, NULL\x7d,\n" [.str ("doc for " ++ p.2.Name)]])) = [] := by
  refine ⟨(exportedFields cpy).flatMap (accessorImplOps h cpy), ?_, exportedFields_snd cpy,
    ?_, ?_, ?_, ?_, ?_⟩
  · rw [impl_genStructMembers, membersImplOps]
    simp only [List.append_assoc]
    rfl
  · exact printfArgs_flatMap_single _ (exportedFields cpy) (accessorImplOps h cpy)
      (fun p => [.str cpy.ID, .int (p.1 + 1), .str p.2.Name])
      (fun p => (accessorImpl_heads h cpy p.1 p.2).1)
  · exact printfArgs_flatMap_single _ (exportedFields cpy) (accessorImplOps h cpy)
      (fun p => [.str cpy.ID, .int (p.1 + 1)])
      (fun p => (accessorImpl_heads h cpy p.1 p.2).2.1)
  · exact printfArgs_flatMap_single _ (exportedFields cpy) (accessorImplOps h cpy)
      (fun p => [.str p.2.Name])
      (fun p => (accessorImpl_heads h cpy p.1 p.2).2.2)
  · exact printfArgs_flatMap_none _ (exportedFields cpy) (accessorImplOps h cpy)
      (fun p => (accessorImpl_no_table h cpy p.1 p.2).2.2.2.2)
  · exact printfArgs_flatMap_none _ (exportedFields cpy) (getsetEntryOps cpy)
      (fun p => (getsetEntry_reads cpy p).2.2.2.2.1)

/-! ## Trampolines: argument parsing, the wrapped call and the return value -/

/-- C4: `genFuncBody` emits no `PyArg_ParseTuple` call for a function without parameters;
for a function with `n ≥ 1` parameters it emits exactly one, and the arguments of that call
are the concatenation of the `n` per-parameter `getArgParse` tokens in parameter order (the
format string, one token per declared parameter) and the `n` per-parameter addresses, in the
same order, joined by `", "`. -/
theorem genFuncBody_parseTuple (h : Helpers) (g : cpyGen) (f : Func) :
    ∃ E, (g.genFuncBody h f).impl.ops = g.impl.ops ++ E ∧
      ((f.Signature.Params = [] ∧
          printfArgs "if (!PyArg_ParseTuple(args, " E = [] ∧
          printfArgs "%q, %s)) \x7b\n" E = []) ∨
       (f.Signature.Params ≠ [] ∧
          printfArgs "if (!PyArg_ParseTuple(args, " E = [[]] ∧
          ∃ pre post,
            E = pre ++
              [Op.printf "if (!PyArg_ParseTuple(args, " [],
               Op.printf "%q, %s)) \x7b\n"
                 [.str (strings.Join (f.Signature.Params.map fun a => (h.getArgParse a).1) ""),
                  .str (strings.Join (f.Signature.Params.map fun a => (h.getArgParse a).2)
                    ", ")]] ++ post ∧
            printfArgs "%q, %s)) \x7b\n" pre = [] ∧
            printfArgs "%q, %s)) \x7b\n" post = [] ∧
            (f.Signature.Params.map fun a => (h.getArgParse a).1).length
              = f.Signature.Params.length ∧
            (f.Signature.Params.map fun a => (h.getArgParse a).2).length
              = f.Signature.Params.length)) := by
  refine ⟨funcBodyOps h f, impl_genFuncBody h g f, ?_⟩
  by_cases hP : f.Signature.Params = []
  · left
    obtain ⟨id, name, doc, ⟨recv, args, res⟩, ret⟩ := f
    simp only at hP
    subst hP
    cases recv <;> rcases res with _ | ⟨r1, _ | ⟨r2, rs⟩⟩ <;>
      simp [funcBodyOps, fbDecls, fbRecvImpl, fbParse, fbPreamble, fbAssign, fbCall, fbReturn]
  · right
    refine ⟨hP, ?_, fbDecls f ++ fbRecvImpl f,
      [Op.indent, Op.printf "return NULL;\n" [], Op.outdent, Op.printf "\x7d\n\n" []]
        ++ fbPreamble f ++ fbAssign f ++ [fbCall h f] ++ [Op.printf "\n" []] ++ [fbReturn h f],
      ?_, ?_, ?_, List.length_map _ _, List.length_map _ _⟩ <;>
    · obtain ⟨id, name, doc, ⟨recv, args, res⟩, ret⟩ := f
      simp only at hP
      cases recv <;> rcases res with _ | ⟨r1, _ | ⟨r2, rs⟩⟩ <;>
        simp [funcBodyOps, fbDecls, fbRecvImpl, fbParse, fbPreamble, fbAssign, fbCall, fbReturn,
          hP]

/-- C5: for a function with at least one parameter, the argument-parse check and its
failure branch `return NULL;` are emitted before the call of the wrapped implementation
`GoPy_<id>(...)`; that call is emitted exactly once, after the closing brace of the failure
branch, so none stands before or inside the branch. -/
theorem genFuncBody_parse_before_call (h : Helpers) (g : cpyGen) (f : Func)
    (hP : f.Signature.Params ≠ []) :
    ∃ pre mid post,
      (g.genFuncBody h f).impl.ops = g.impl.ops ++ pre ++
        [Op.printf "if (!PyArg_ParseTuple(args, " [],
         Op.printf "%q, %s)) \x7b\n"
           [.str (strings.Join (f.Signature.Params.map fun a => (h.getArgParse a).1) ""),
            .str (strings.Join (f.Signature.Params.map fun a => (h.getArgParse a).2) ", ")],
         Op.indent, Op.printf "return NULL;\n" [], Op.outdent, Op.printf "\x7d\n\n" []]
        ++ mid ++
        [Op.printf "GoPy_%[1]s(%[2]s);\n"
          [.str f.ID,
           .str (strings.Join
             ((f.Signature.Recv.toList ++ f.Signature.Params).map h.getFuncArg) ", ")]]
        ++ post ∧
      printfArgs "GoPy_%[1]s(%[2]s);\n" pre = [] ∧
      printfArgs "GoPy_%[1]s(%[2]s);\n" mid = [] ∧
      printfArgs "GoPy_%[1]s(%[2]s);\n" post = [] := by
  refine ⟨fbDecls f ++ fbRecvImpl f, fbPreamble f ++ fbAssign f,
    [Op.printf "\n" [], fbReturn h f], ?_, ?_, ?_, ?_⟩
  · rw [impl_genFuncBody]
    simp [funcBodyOps, fbParse, fbCall, hP]
  all_goals
    obtain ⟨id, name, doc, ⟨recv, args, res⟩, ret⟩ := f
    simp only at hP
    cases recv <;> rcases res with _ | ⟨r1, _ | ⟨r2, rs⟩⟩ <;>
      simp [fbDecls, fbRecvImpl, fbPreamble, fbAssign, fbReturn, hP]

/-- C5 on `func Add(a, b int) int`: the parse check `"ii", &c_a, &c_b` with its
`return NULL;` branch precedes the only call `GoPy_pkg_Add(c_a, c_b)`. -/
theorem genFuncBody_parse_before_call_witness :
    addFunc.Signature.Params ≠ [] ∧
    ∃ pre mid post,
      (g0.genFuncBody sampleHelpers addFunc).impl.ops = g0.impl.ops ++ pre ++
        [Op.printf "if (!PyArg_ParseTuple(args, " [],
         Op.printf "%q, %s)) \x7b\n" [.str "ii", .str "&c_a, &c_b"],
         Op.indent, Op.printf "return NULL;\n" [], Op.outdent, Op.printf "\x7d\n\n" []]
        ++ mid ++
        [Op.printf "GoPy_%[1]s(%[2]s);\n" [.str "pkg_Add", .str "c_a, c_b"]]
        ++ post ∧
      printfArgs "GoPy_%[1]s(%[2]s);\n" pre = [] ∧
      printfArgs "GoPy_%[1]s(%[2]s);\n" mid = [] ∧
      printfArgs "GoPy_%[1]s(%[2]s);\n" post = [] :=
  ⟨by decide, genFuncBody_parse_before_call sampleHelpers g0 addFunc (by decide)⟩

/-- C6: for a function without results, `genFuncBody` emits no `Py_BuildValue` call and no
assignment `c_gopy_ret = `; what it emits ends with the bare call of the wrapped
implementation, a blank line, and `Py_INCREF(Py_None);` followed by `return Py_None;`. -/
theorem genFuncBody_no_result (h : Helpers) (g : cpyGen) (f : Func)
    (hR : f.Signature.Results = []) :
    ∃ pre,
      (g.genFuncBody h f).impl.ops = g.impl.ops ++ pre ++
        [Op.printf "GoPy_%[1]s(%[2]s);\n"
          [.str f.ID,
           .str (strings.Join
             ((f.Signature.Recv.toList ++ f.Signature.Params).map h.getFuncArg) ", ")],
         Op.printf "\n" [],
         Op.printf "Py_INCREF(Py_None);\nreturn Py_None;\n" []] ∧
      printfArgs "return Py_BuildValue(%q, %s);\n" pre = [] ∧
      printfArgs "c_gopy_ret = " pre = [] ∧
      (g.genFuncBody h f).impl.ops.getLast? =
        some (Op.printf "Py_INCREF(Py_None);\nreturn Py_None;\n" []) := by
  refine ⟨fbDecls f ++ fbRecvImpl f ++ fbParse h f ++ fbPreamble f, ?_, ?_, ?_, ?_⟩
  · rw [impl_genFuncBody]
    simp [funcBodyOps, fbAssign, fbCall, fbReturn, hR]
  · obtain ⟨id, name, doc, ⟨recv, args, res⟩, ret⟩ := f
    simp only at hR
    subst hR
    cases recv <;> cases args <;> simp [fbDecls, fbRecvImpl, fbParse, fbPreamble]
  · obtain ⟨id, name, doc, ⟨recv, args, res⟩, ret⟩ := f
    simp only at hR
    subst hR
    cases recv <;> cases args <;> simp [fbDecls, fbRecvImpl, fbParse, fbPreamble]
  · rw [impl_genFuncBody, funcBodyOps, ← List.append_assoc, List.getLast?_concat]
    simp [fbReturn, hR]

/-- C6 on `func (p *Point) Scale(k int)`: no packing call, no assignment, and the
trampoline ends by returning `Py_None`. -/
theorem genFuncBody_no_result_witness :
    scaleMethod.Signature.Results = [] ∧
    ∃ pre,
      (g0.genFuncBody sampleHelpers scaleMethod).impl.ops = g0.impl.ops ++ pre ++
        [Op.printf "GoPy_%[1]s(%[2]s);\n" [.str "pkg_Point_Scale", .str "c_p, c_k"],
         Op.printf "\n" [],
         Op.printf "Py_INCREF(Py_None);\nreturn Py_None;\n" []] ∧
      printfArgs "return Py_BuildValue(%q, %s);\n" pre = [] ∧
      printfArgs "c_gopy_ret = " pre = [] ∧
      (g0.genFuncBody sampleHelpers scaleMethod).impl.ops.getLast? =
        some (Op.printf "Py_INCREF(Py_None);\nreturn Py_None;\n" []) :=
  ⟨by decide, genFuncBody_no_result sampleHelpers g0 scaleMethod (by decide)⟩

/-- C7, the code at `func Pair() (int, int)`: the carrier `struct pkg_Pair_return
c_gopy_ret;` is declared and assigned, but the two value arguments of the packing call are
`getFuncArg` of the two results, which is one and the same expression twice, whatever
`getFuncArg` computes; they are not two fields of the carrier. -/
theorem genFuncBody_pair_values (h : Helpers) (g : cpyGen) :
    ∃ E, (g.genFuncBody h pairFunc).impl.ops = g.impl.ops ++ E ∧
      printfArgs "struct %[1]s_return c_gopy_ret;\n" E = [[.str "pkg_Pair"]] ∧
      printfArgs "c_gopy_ret = " E = [[]] ∧
      printfArgs "return Py_BuildValue(%q, %s);\n" E =
        [[.str (strings.Join
            [(h.getArgParse (newVar samplePkg tInt "" "" "")).1,
             (h.getArgParse (newVar samplePkg tInt "" "" "")).1] ""),
          .str (strings.Join
            [h.getFuncArg (newVar samplePkg tInt "" "" ""),
             h.getFuncArg (newVar samplePkg tInt "" "" "")] ", ")]] := by
  refine ⟨funcBodyOps h pairFunc, impl_genFuncBody h g pairFunc, ?_⟩
  simp [funcBodyOps, fbDecls, fbRecvImpl, fbParse, fbPreamble, fbAssign, fbCall, fbReturn,
    fbValues, pairFunc]

/-- C8: for a function with `k ≥ 1` results, the wrapped call is assigned to `c_gopy_ret`
and the last thing `genFuncBody` emits is its only `Py_BuildValue` call; the format string
of that call is the concatenation of the `k` per-result `getArgParse` tokens in result
order, and its value arguments are `k` expressions joined by `", "`: the local
`c_gopy_ret` when `k = 1`, `getFuncArg` of each result in result order otherwise. -/
theorem genFuncBody_buildValue (h : Helpers) (g : cpyGen) (f : Func)
    (hR : f.Signature.Results ≠ []) :
    ∃ pre,
      (g.genFuncBody h f).impl.ops = g.impl.ops ++ pre ++
        [Op.printf "c_gopy_ret = " [],
         Op.printf "GoPy_%[1]s(%[2]s);\n"
           [.str f.ID,
            .str (strings.Join
              ((f.Signature.Recv.toList ++ f.Signature.Params).map h.getFuncArg) ", ")],
         Op.printf "\n" [],
         Op.printf "return Py_BuildValue(%q, %s);\n"
           [.str (strings.Join (f.Signature.Results.map fun r => (h.getArgParse r).1) ""),
            .str (strings.Join
              (if f.Signature.Results.length = 1 then ["c_gopy_ret"]
               else f.Signature.Results.map h.getFuncArg) ", ")]] ∧
      printfArgs "return Py_BuildValue(%q, %s);\n" pre = [] ∧
      (if f.Signature.Results.length = 1 then ["c_gopy_ret"]
       else f.Signature.Results.map h.getFuncArg).length = f.Signature.Results.length := by
  refine ⟨fbDecls f ++ fbRecvImpl f ++ fbParse h f ++ fbPreamble f, ?_, ?_, ?_⟩
  · rw [impl_genFuncBody]
    simp [funcBodyOps, fbAssign, fbCall, fbReturn, fbValues, hR]
  · obtain ⟨id, name, doc, ⟨recv, args, res⟩, ret⟩ := f
    cases recv <;> cases args <;> rcases res with _ | ⟨r1, _ | ⟨r2, rs⟩⟩ <;>
      simp [fbDecls, fbRecvImpl, fbParse, fbPreamble]
  · split_ifs with h1
    · simpa using h1.symm
    · simp

/-- C8 on `func Add(a, b int) int`: the trampoline ends with
`c_gopy_ret = GoPy_pkg_Add(c_a, c_b);` and `return Py_BuildValue("i", c_gopy_ret);`. -/
theorem genFuncBody_buildValue_witness :
    addFunc.Signature.Results ≠ [] ∧
    ∃ pre,
      (g0.genFuncBody sampleHelpers addFunc).impl.ops = g0.impl.ops ++ pre ++
        [Op.printf "c_gopy_ret = " [],
         Op.printf "GoPy_%[1]s(%[2]s);\n" [.str "pkg_Add", .str "c_a, c_b"],
         Op.printf "\n" [],
         Op.printf "return Py_BuildValue(%q, %s);\n" [.str "i", .str "c_gopy_ret"]] ∧
      printfArgs "return Py_BuildValue(%q, %s);\n" pre = [] ∧
      (if addFunc.Signature.Results.length = 1 then ["c_gopy_ret"]
       else addFunc.Signature.Results.map sampleHelpers.getFuncArg).length
        = addFunc.Signature.Results.length :=
  ⟨by decide, genFuncBody_buildValue sampleHelpers g0 addFunc (by decide)⟩

/-- C9: the wrapped call `GoPy_<id>(...)` is emitted once; its argument list is, joined by
`", "`, `getFuncArg` of the receiver (present exactly when the signature has one) followed
by `getFuncArg` of each parameter in declaration order, hence one argument per parameter
plus one for a receiver; and the receiver unwrapping `genRecvImpl` is emitted before
anything of the argument-parse call. -/
theorem genFuncBody_call_args (h : Helpers) (g : cpyGen) (f : Func) :
    ∃ pre post,
      (g.genFuncBody h f).impl.ops =
        g.impl.ops ++ pre ++ f.Signature.Recv.toList.map (Op.call .genRecvImpl) ++ post ∧
      printfArgs "if (!PyArg_ParseTuple(args, " pre = [] ∧
      printfArgs "%q, %s)) \x7b\n" pre = [] ∧
      printfArgs "if (!PyArg_ParseTuple(args, " post
        = (if f.Signature.Params = [] then [] else [[]]) ∧
      printfArgs "GoPy_%[1]s(%[2]s);\n" (pre ++ post) =
        [[.str f.ID,
          .str (strings.Join
            ((f.Signature.Recv.toList ++ f.Signature.Params).map h.getFuncArg) ", ")]] ∧
      ((f.Signature.Recv.toList ++ f.Signature.Params).map h.getFuncArg).length =
        f.Signature.Params.length + (if f.Signature.Recv.isSome then 1 else 0) := by
  refine ⟨fbDecls f,
    fbParse h f ++ fbPreamble f ++ fbAssign f ++ [fbCall h f] ++ [Op.printf "\n" []]
      ++ [fbReturn h f], ?_, ?_, ?_, ?_, ?_, ?_⟩
  · rw [impl_genFuncBody]
    simp [funcBodyOps, fbRecvImpl]
  all_goals
    obtain ⟨id, name, doc, ⟨recv, args, res⟩, ret⟩ := f
    cases recv <;> cases args <;> rcases res with _ | ⟨r1, _ | ⟨r2, rs⟩⟩ <;>
      simp [fbDecls, fbParse, fbPreamble, fbAssign, fbCall, fbReturn, Nat.add_comm]

/-! ## The method table -/

/-- C10, the code at `func (p *Point) Sum() int`: the method declares no parameter, and
the entry `genStructMethods` emits for it in `_gopy_pkg_Point_methods` carries
`METH_VARARGS`, not `METH_NOARGS`: the convention follows `Return()`, not the parameter
count. -/
theorem genStructMethods_sum_convention (h : Helpers) (g : cpyGen) :
    sumMethod.Signature.Params = [] ∧
    ∃ E, (g.genStructMethods h pointStruct).impl.ops = g.impl.ops ++ E ∧
      printfArgs "\x7b%[1]q, (PyCFunction)gopy_%[2]s, %[3]s, %[4]q\x7d,\n" E
        = [[.str "Sum", .str "pkg_Point_Sum", .str "METH_VARARGS", .str ""]] := by
  refine ⟨rfl, methodsImplOps h g.pkg.pkg.Name pointStruct, impl_genStructMethods h g _, ?_⟩
  simp [methodsImplOps, methodImplOps, funcBodyOps, fbDecls, fbRecvImpl, fbParse, fbPreamble,
    fbAssign, fbCall, fbReturn, pointStruct, sumMethod, tInt]

/-- The sibling case: `func (p *Point) Scale(k int)` declares one parameter and no result;
its trampoline parses the argument tuple, yet its entry in the method table carries
`METH_NOARGS`. -/
theorem genStructMethods_scale_convention (h : Helpers) (g : cpyGen) :
    scaleMethod.Signature.Params ≠ [] ∧
    ∃ E, (g.genStructMethods h scaledStruct).impl.ops = g.impl.ops ++ E ∧
      printfArgs "if (!PyArg_ParseTuple(args, " E = [[]] ∧
      printfArgs "\x7b%[1]q, (PyCFunction)gopy_%[2]s, %[3]s, %[4]q\x7d,\n" E
        = [[.str "Scale", .str "pkg_Point_Scale", .str "METH_NOARGS", .str ""]] := by
  refine ⟨by decide, methodsImplOps h g.pkg.pkg.Name scaledStruct,
    impl_genStructMethods h g _, ?_, ?_⟩ <;>
  simp [methodsImplOps, methodImplOps, funcBodyOps, fbDecls, fbRecvImpl, fbParse, fbPreamble,
    fbAssign, fbCall, fbReturn, scaledStruct, scaleMethod, tInt, newVar]

/-! ## The method table, the function table and the module initializer -/

/-- The trampoline head that one bound method contributes, and nothing that reads as a
method table entry or sentinel. -/
theorem methodImpl_reads (h : Helpers) (pkgname : String) (cpy : Struct) (m : Func) :
    printfArgs "gopy_%s(PyObject *self, PyObject *args) \x7b\n" (methodImplOps h pkgname cpy m)
      = [[.str m.ID]] ∧
    printfArgs "\x7b%[1]q, (PyCFunction)gopy_%[2]s, %[3]s, %[4]q\x7d,\n"
      (methodImplOps h pkgname cpy m) = [] ∧
    printfArgs "\x7bNULL\x7d /* sentinel */\n" (methodImplOps h pkgname cpy m) = [] ∧
    printfArgs "static PyMethodDef _gopy_%s_methods[] = \x7b\n"
      (methodImplOps h pkgname cpy m) = [] := by
  refine ⟨?_, ?_, ?_, ?_⟩ <;>
    simp [methodImplOps,
      printfArgs_of_covered _ _ _ (formats_funcBodyOps h m)
        (by decide : "gopy_%s(PyObject *self, PyObject *args) \x7b\n" ∉ funcBodyFormats),
      printfArgs_of_covered _ _ _ (formats_funcBodyOps h m)
        (by decide :
          "\x7b%[1]q, (PyCFunction)gopy_%[2]s, %[3]s, %[4]q\x7d,\n" ∉ funcBodyFormats),
      printfArgs_of_covered _ _ _ (formats_funcBodyOps h m)
        (by decide : "\x7bNULL\x7d /* sentinel */\n" ∉ funcBodyFormats),
      printfArgs_of_covered _ _ _ (formats_funcBodyOps h m)
        (by decide : "static PyMethodDef _gopy_%s_methods[] = \x7b\n" ∉ funcBodyFormats)]

/-- C11: after the trampolines of the bound methods, `genStructMethods` emits the table
`_gopy_<ID>_methods`: one entry per bound method, in method order, naming the method's
`GoName()`, the trampoline `gopy_<method ID>` (defined before the table, in the same
order) and the method's doc; an entry carries `METH_NOARGS` exactly when `Return()` of
the method is `nil`, and `METH_VARARGS` otherwise; the table ends with its only `NULL`
sentinel, the last entry before the closing brace. -/
theorem genStructMethods_method_table (h : Helpers) (g : cpyGen) (cpy : Struct) :
    ∃ pre,
      (g.genStructMethods h cpy).impl.ops = g.impl.ops ++ pre ++
        [Op.printf "static PyMethodDef _gopy_%s_methods[] = \x7b\n" [.str cpy.ID],
         Op.indent] ++
        cpy.meths.map (fun m =>
          Op.printf "\x7b%[1]q, (PyCFunction)gopy_%[2]s, %[3]s, %[4]q\x7d,\n"
            [.str m.GoName, .str m.ID,
             .str (if m.Return = none then "METH_NOARGS" else "METH_VARARGS"), .str m.Doc]) ++
        [Op.printf "\x7bNULL\x7d /* sentinel */\n" [], Op.outdent, Op.printf "\x7d;\n\n" []] ∧
      printfArgs "gopy_%s(PyObject *self, PyObject *args) \x7b\n" pre
        = cpy.meths.map (fun m => [.str m.ID]) ∧
      printfArgs "\x7b%[1]q, (PyCFunction)gopy_%[2]s, %[3]s, %[4]q\x7d,\n" pre = [] ∧
      printfArgs "\x7bNULL\x7d /* sentinel */\n" pre = [] ∧
      printfArgs "static PyMethodDef _gopy_%s_methods[] = \x7b\n" pre = [] ∧
      printfArgs "\x7bNULL\x7d /* sentinel */\n"
        (cpy.meths.map (fun m =>
          Op.printf "\x7b%[1]q, (PyCFunction)gopy_%[2]s, %[3]s, %[4]q\x7d,\n"
            [.str m.GoName, .str m.ID,
             .str (if m.Return = none then "METH_NOARGS" else "METH_VARARGS"), .str m.Doc]))
        = [] := by
  refine ⟨cpy.meths.flatMap (methodImplOps h g.pkg.pkg.Name cpy), ?_, ?_, ?_, ?_, ?_, ?_⟩
  · rw [impl_genStructMethods, methodsImplOps]
    simp only [List.append_assoc]
  · exact printfArgs_flatMap_single _ _ _ _ (fun m => (methodImpl_reads h _ cpy m).1)
  · exact printfArgs_flatMap_none _ _ _ (fun m => (methodImpl_reads h _ cpy m).2.1)
  · exact printfArgs_flatMap_none _ _ _ (fun m => (methodImpl_reads h _ cpy m).2.2.1)
  · exact printfArgs_flatMap_none _ _ _ (fun m => (methodImpl_reads h _ cpy m).2.2.2)
  · rw [List.map_eq_flatMap]
    exact printfArgs_flatMap_none _ _ _ (fun m => by simp)


/-- The formats of the struct and function parts of the implementation. -/
theorem formats_structs_funcs (h : Helpers) (P : Nat) (p : Package) :
    ∀ F ∈ formats (p.structs.flatMap (structImplOps h P p.pkg.Name) ++
        p.funcs.flatMap (funcImplOps h p.pkg.Name)),
      F ∈ structImplFormats ++ funcImplFormats := by
  refine formats_covered_append _ _ _ ?_ ?_
  · exact formats_covered_flatMap _ _ _
      (fun s F hF => List.mem_append_left _ (formats_structImplOps h P _ s F hF))
  · exact formats_covered_flatMap _ _ _
      (fun f F hF => List.mem_append_right _ (formats_funcImplOps h _ f F hF))

/-- The trampoline head that one free function contributes. -/
theorem funcImpl_head (h : Helpers) (pkgname : String) (o : Func) :
    printfArgs
      "\n/* pythonization of: %[1]s.%[2]s */\nstatic PyObject*\ngopy_%[3]s(PyObject *self, PyObject *args) \x7b\n"
      (funcImplOps h pkgname o) = [[.str pkgname, .str o.GoName, .str o.ID]] := by
  simp [funcImplOps, printfArgs_of_covered _ _ _ (formats_funcBodyOps h o)
    (by decide :
      "\n/* pythonization of: %[1]s.%[2]s */\nstatic PyObject*\ngopy_%[3]s(PyObject *self, PyObject *args) \x7b\n"
        ∉ funcBodyFormats)]

/-- C12: after the struct code and the trampolines of the free functions, `gen` emits the
one table `cpy_<pkgname>_methods`: exactly one entry per free function, in the order of
the package's functions, each `{GoName, gopy_<ID>, METH_VARARGS, Doc}`, the trampolines
`gopy_<ID>` having been emitted by `genFunc` before the table in the same order; the
table holds nothing else, and it ends with its only `{NULL, NULL, 0, NULL}` sentinel, the
last entry before the closing brace, whether or not the package has a free function. -/
theorem gen_function_table (h : Helpers) (ProtoStringer : Nat) (g : cpyGen) :
    ∃ pre post,
      (g.gen h ProtoStringer).1.impl.ops = g.impl.ops ++ pre ++
        [Op.printf "static PyMethodDef cpy_%s_methods[] = \x7b\n" [.str g.pkg.pkg.Name],
         Op.indent] ++
        g.pkg.funcs.map (fun f =>
          Op.printf "\x7b%[1]q, %[2]s, METH_VARARGS, %[3]q\x7d,\n"
            [.str f.GoName, .str ("gopy_" ++ f.ID), .str f.Doc]) ++
        [Op.printf "\x7bNULL, NULL, 0, NULL\x7d        /* Sentinel */\n" [], Op.outdent,
         Op.printf "\x7d;\n\n" []] ++ post ∧
      printfArgs
          "\n/* pythonization of: %[1]s.%[2]s */\nstatic PyObject*\ngopy_%[3]s(PyObject *self, PyObject *args) \x7b\n"
          pre
        = g.pkg.funcs.map (fun f => [.str g.pkg.pkg.Name, .str f.GoName, .str f.ID]) ∧
      printfArgs "static PyMethodDef cpy_%s_methods[] = \x7b\n" (pre ++ post) = [] ∧
      printfArgs "\x7b%[1]q, %[2]s, METH_VARARGS, %[3]q\x7d,\n" (pre ++ post) = [] ∧
      printfArgs "\x7bNULL, NULL, 0, NULL\x7d        /* Sentinel */\n" (pre ++ post) = [] := by
  have hpre := formats_structs_funcs h ProtoStringer g.pkg
  refine ⟨g.pkg.structs.flatMap (structImplOps h ProtoStringer g.pkg.pkg.Name) ++
      g.pkg.funcs.flatMap (funcImplOps h g.pkg.pkg.Name), moduleInitOps g.pkg, ?_, ?_, ?_, ?_,
    ?_⟩
  · rw [gen_eq]
    simp [genImplOps, funcTableOps]
  · rw [printfArgs_append,
      printfArgs_of_covered _ _ _
        (formats_covered_flatMap _ _ _ (formats_structImplOps h ProtoStringer g.pkg.pkg.Name))
        (by decide),
      printfArgs_flatMap_single _ _ _ _ (funcImpl_head h g.pkg.pkg.Name)]
    rfl
  · rw [printfArgs_append, printfArgs_of_covered _ _ _ hpre (by decide)]
    simp [moduleInitOps, List.map_eq_flatMap, printfArgs_flatMap]
  · rw [printfArgs_append, printfArgs_of_covered _ _ _ hpre (by decide)]
    simp [moduleInitOps, List.map_eq_flatMap, printfArgs_flatMap]
  · rw [printfArgs_append, printfArgs_of_covered _ _ _ hpre (by decide)]
    simp [moduleInitOps, List.map_eq_flatMap, printfArgs_flatMap]

/-- C13: the last thing `gen` emits is the initializer `init<pkgname>`: one guarded
`PyType_Ready` call per struct in struct order, then the only `Py_InitModule3` call, bound
to the package name, the function table and the package doc, then per struct in struct
order `Py_INCREF(&_gopy_<ID>Type)` followed by `PyModule_AddObject` under the struct's
`GoName()`; none of these calls is emitted anywhere before the initializer. -/
theorem gen_module_init (h : Helpers) (ProtoStringer : Nat) (g : cpyGen) :
    ∃ pre,
      (g.gen h ProtoStringer).1.impl.ops = g.impl.ops ++ pre ++
        [Op.printf "PyMODINIT_FUNC\ninit%[1]s(void)\n\x7b\n" [.str g.pkg.pkg.Name], Op.indent,
         Op.printf "PyObject *module = NULL;\n\n" []] ++
        g.pkg.structs.map (fun s =>
          Op.printf "if (PyType_Ready(&_gopy_%sType) < 0) \x7b return; \x7d\n" [.str s.ID]) ++
        [Op.printf "module = Py_InitModule3(%[1]q, cpy_%[1]s_methods, %[2]q);\n\n"
           [.str g.pkg.pkg.Name, .str g.pkg.doc]] ++
        g.pkg.structs.flatMap (fun s =>
          [Op.printf "Py_INCREF(&_gopy_%sType);\n" [.str s.ID],
           Op.printf "PyModule_AddObject(module, %q, (PyObject*)&_gopy_%sType);\n\n"
             [.str s.GoName, .str s.ID]]) ++
        [Op.outdent, Op.printf "\x7d\n\n" []] ∧
      printfArgs "PyMODINIT_FUNC\ninit%[1]s(void)\n\x7b\n" pre = [] ∧
      printfArgs "if (PyType_Ready(&_gopy_%sType) < 0) \x7b return; \x7d\n" pre = [] ∧
      printfArgs "module = Py_InitModule3(%[1]q, cpy_%[1]s_methods, %[2]q);\n\n" pre = [] ∧
      printfArgs "Py_INCREF(&_gopy_%sType);\n" pre = [] ∧
      printfArgs "PyModule_AddObject(module, %q, (PyObject*)&_gopy_%sType);\n\n" pre = [] := by
  have hpre := formats_structs_funcs h ProtoStringer g.pkg
  refine ⟨(g.pkg.structs.flatMap (structImplOps h ProtoStringer g.pkg.pkg.Name) ++
      g.pkg.funcs.flatMap (funcImplOps h g.pkg.pkg.Name)) ++ funcTableOps g.pkg, ?_, ?_, ?_, ?_,
    ?_, ?_⟩
  · rw [gen_eq]
    simp [genImplOps, moduleInitOps]
  all_goals
    rw [printfArgs_append, printfArgs_of_covered _ _ _ hpre (by decide)]
    simp [funcTableOps, List.map_eq_flatMap, printfArgs_flatMap]

/-! ## The textual-representation hook and the type record -/

/-- The search loop of `genStructTPStr` finds the first method named `String`, and keeps the
zero value when there is none. -/
theorem firstStringMethod_eq (z : Func) (l : List Func) :
    firstStringMethod z l = (l.find? (fun f => decide (f.GoName = "String"))).getD z := by
  induction l with
  | nil => rfl
  | cons f fs ih =>
    by_cases hf : f.GoName = "String" <;> simp [firstStringMethod, List.find?_cons, hf, ih]

/-- C14, the code at a struct with the Stringer bit and no bound method: the body of
`_gopy_pkg_Blob_tp_str` calls `gopy_` followed by the identifier of the zero `Func`, the
empty string; `genStruct` defines no trampoline at all for this struct, and it records no
error. -/
theorem genStruct_orphan_stringer (h : Helpers) (g : cpyGen) :
    (orphanStringer.prots &&& 1) ≠ 0 ∧
    orphanStringer.meths.find? (fun f => decide (f.GoName = "String")) = none ∧
    (g.genStruct h 1 orphanStringer).err = g.err ∧
    ∃ I, (g.genStruct h 1 orphanStringer).impl.ops = g.impl.ops ++ I ∧
      printfArgs "_gopy_%s_tp_str,\t/*tp_str*/\n" I = [[.str "pkg_Blob"]] ∧
      printfArgs "return gopy_%[1]s(self, 0);\n" I = [[.str ""]] ∧
      printfArgs "return PyObject_Repr(self);\n" I = [] ∧
      printfArgs "gopy_%s(PyObject *self, PyObject *args) \x7b\n" I = [] := by
  refine ⟨by decide, rfl, by rw [genStruct_eq]; rfl,
    structImplOps h 1 g.pkg.pkg.Name orphanStringer, by rw [genStruct_eq]; rfl, ?_, ?_, ?_, ?_⟩
  all_goals
    simp [structImplOps, newImplOps, deallocImplOps, initImplOps, methodsImplOps, tpStrImplOps,
      membersImplOps, exportedFields, typeRecordOps, cpyGen.genStructNew,
      cpyGen.genStructDealloc, cpyGen.genStructInit, cpyGen.genStructTPStr, cpyGen.fresh,
      orphanStringer, firstStringMethod, Func.zero]


/-- C15 fails as stated: `Blob` has the Stringer bit, so the body of `_gopy_pkg_Blob_tp_str`
is `return gopy_(self, 0);`, but there is no bound method named `String` whose identifier
it would carry. -/
theorem genStructTPStr_orphan_counterexample :
    (orphanStringer.prots &&& 1) ≠ 0 ∧
    (g0.genStructTPStr 1 orphanStringer).impl.ops =
      [Op.printf "static PyObject*\n_gopy_%s_tp_str(PyObject *self) \x7b\n" [.str "pkg_Blob"],
       Op.indent, Op.printf "return gopy_%[1]s(self, 0);\n" [.str ""], Op.outdent,
       Op.printf "\x7d\n\n" []] ∧
    ¬ ∃ m ∈ orphanStringer.meths, m.GoName = "String" ∧
        (g0.genStructTPStr 1 orphanStringer).impl.ops =
          [Op.printf "static PyObject*\n_gopy_%s_tp_str(PyObject *self) \x7b\n"
             [.str "pkg_Blob"],
           Op.indent, Op.printf "return gopy_%[1]s(self, 0);\n" [.str m.ID], Op.outdent,
           Op.printf "\x7d\n\n" []] := by
  decide

/-- C15, as amended: `genStructTPStr` writes one prototype of `_gopy_<ID>_tp_str` to the
declarations and one definition to the implementation; for a struct without the Stringer
bit the body is exactly `return PyObject_Repr(self);`; for a struct with the Stringer bit
that has a bound method named `String` the body is `return gopy_<m.ID>(self, 0);`, `m`
being the first such method. -/
theorem genStructTPStr_body (ProtoStringer : Nat) (g : cpyGen) (cpy : Struct)
    (hS : (cpy.prots &&& ProtoStringer) ≠ 0 → ∃ m ∈ cpy.meths, m.GoName = "String") :
    (g.genStructTPStr ProtoStringer cpy).decl.ops = g.decl.ops ++
      [Op.printf "static PyObject*\n_gopy_%s_tp_str(PyObject *self);\n" [.str cpy.ID]] ∧
    ∃ body,
      (g.genStructTPStr ProtoStringer cpy).impl.ops = g.impl.ops ++
        [Op.printf "static PyObject*\n_gopy_%s_tp_str(PyObject *self) \x7b\n" [.str cpy.ID],
         Op.indent, body, Op.outdent, Op.printf "\x7d\n\n" []] ∧
      (((cpy.prots &&& ProtoStringer) = 0 ∧
          body = Op.printf "return PyObject_Repr(self);\n" []) ∨
       ((cpy.prots &&& ProtoStringer) ≠ 0 ∧
          ∃ m, cpy.meths.find? (fun f => decide (f.GoName = "String")) = some m ∧
            body = Op.printf "return gopy_%[1]s(self, 0);\n" [.str m.ID])) := by
  refine ⟨by rw [genStructTPStr_eq]; rfl, ?_⟩
  by_cases hb : (cpy.prots &&& ProtoStringer) = 0
  · refine ⟨Op.printf "return PyObject_Repr(self);\n" [], ?_, Or.inl ⟨hb, rfl⟩⟩
    simp [cpyGen.genStructTPStr, hb]
  · obtain ⟨m0, hm0, hn0⟩ := hS hb
    have hfind : ∃ m, cpy.meths.find? (fun f => decide (f.GoName = "String")) = some m := by
      cases hf : cpy.meths.find? (fun f => decide (f.GoName = "String")) with
      | none =>
        rw [List.find?_eq_none] at hf
        exact absurd hn0 (by simpa using hf m0 hm0)
      | some m => exact ⟨m, rfl⟩
    obtain ⟨m, hm⟩ := hfind
    refine ⟨Op.printf "return gopy_%[1]s(self, 0);\n" [.str m.ID], ?_, Or.inr ⟨hb, m, hm, rfl⟩⟩
    simp [cpyGen.genStructTPStr, hb, firstStringMethod_eq, hm]

/-- C15 on the struct `Point` with the methods `Sum` and `String` and the Stringer bit: the
body of `_gopy_pkg_Point_tp_str` is `return gopy_pkg_Point_String(self, 0);`. -/
theorem genStructTPStr_body_witness :
    ((stringerStruct.prots &&& 1) ≠ 0 → ∃ m ∈ stringerStruct.meths, m.GoName = "String") ∧
    ((g0.genStructTPStr 1 stringerStruct).decl.ops = g0.decl.ops ++
      [Op.printf "static PyObject*\n_gopy_%s_tp_str(PyObject *self);\n" [.str "pkg_Point"]] ∧
    ∃ body,
      (g0.genStructTPStr 1 stringerStruct).impl.ops = g0.impl.ops ++
        [Op.printf "static PyObject*\n_gopy_%s_tp_str(PyObject *self) \x7b\n"
           [.str "pkg_Point"],
         Op.indent, body, Op.outdent, Op.printf "\x7d\n\n" []] ∧
      (((stringerStruct.prots &&& 1) = 0 ∧
          body = Op.printf "return PyObject_Repr(self);\n" []) ∨
       ((stringerStruct.prots &&& 1) ≠ 0 ∧
          ∃ m, stringerStruct.meths.find? (fun f => decide (f.GoName = "String")) = some m ∧
            body = Op.printf "return gopy_%[1]s(self, 0);\n" [.str m.ID]))) :=
  ⟨fun _ => ⟨stringMethod, by decide, rfl⟩,
   genStructTPStr_body 1 g0 stringerStruct (fun _ => ⟨stringMethod, by decide, rfl⟩)⟩

/-! ## The bodies of the accessors -/

/-- Joining a single element gives that element. -/
theorem strings_Join_singleton (x sep : String) : strings.Join [x] sep = x := by
  simp [strings.Join, String.intercalate, String.intercalate.go]

/-- C16: the setter of a field first tests `value == NULL` and, in that branch, sets
`PyExc_TypeError` with the message naming the field and returns `-1`; only then come the
tuple construction, the `PyArg_ParseTuple` call and, once, the call of the mutation entry
point `GoPy_<ID>_setter_<i+1>`; the format token of the parse call is `getArgParse` of
the field's `Var`, the token the getter of the same field passes to `Py_BuildValue`. -/
theorem genStructMemberSetter_null_check (h : Helpers) (g : cpyGen) (cpy : Struct) (i : Nat)
    (f : FieldObj) :
    (∃ pre mid post,
      (g.genStructMemberSetter h cpy i f).impl.ops = g.impl.ops ++ pre ++
        [Op.printf "if (value == NULL) \x7b\n" [],
         Op.indent,
         Op.printf
           "PyErr_SetString(PyExc_TypeError, \x22Cannot delete \x27%[1]s\x27 attribute\x22);\n"
           [.str f.Name],
         Op.printf "return -1;\n" [],
         Op.outdent,
         Op.printf "\x7d\n" [],
         Op.printf "tuple = PyTuple_New(1);\n" [],
         Op.printf "Py_INCREF(value);\n" [],
         Op.printf "PyTuple_SET_ITEM(tuple, 0, value);\n\n" [],
         Op.printf "\nif (!PyArg_ParseTuple(tuple, " [],
         Op.printf "%q, %s)) \x7b\n"
           [.str (h.getArgParse (newVar cpy.Package f.typ f.Name "ret" "")).1,
            .str (h.getArgParse (newVar cpy.Package f.typ f.Name "ret" "")).2],
         Op.indent,
         Op.printf "Py_DECREF(tuple);\n" [],
         Op.printf "return -1;\n" [],
         Op.outdent,
         Op.printf "\x7d\n" [],
         Op.printf "Py_DECREF(tuple);\n\n" []] ++ mid ++
        [Op.printf "%[1]s((%[2]s)(self->cgopy), c_%[3]s);\n"
          [.str ("GoPy_" ++ cpy.ID ++ "_setter_" ++ toString (i + 1)),
           .str (h.CGoType (newVar cpy.Package cpy.GoType cpy.GoName "self" "")),
           .str "ret"]] ++ post ∧
      printfArgs "if (value == NULL) \x7b\n" pre = [] ∧
      printfArgs "tuple = PyTuple_New(1);\n" pre = [] ∧
      printfArgs "\nif (!PyArg_ParseTuple(tuple, " pre = [] ∧
      printfArgs "%[1]s((%[2]s)(self->cgopy), c_%[3]s);\n" (pre ++ mid ++ post) = []) ∧
    (∃ G, (g.genStructMemberGetter h cpy i f).impl.ops = g.impl.ops ++ G ∧
      printfArgs "o = Py_BuildValue(%q, %s);\n" G =
        [[.str (h.getArgParse (newVar cpy.Package f.typ f.Name "ret" "")).1,
          .str "cgopy_ret"]]) := by
  constructor
  · refine ⟨[Op.printf "static int\n" [],
        Op.printf
          "_gopy_%[1]s_setter_%[2]d(_gopy_%[1]s *self, PyObject *value, void *closure) \x7b\n"
          [.str cpy.ID, .int (i + 1)],
        Op.indent, Op.call .genDecl (newVar cpy.Package f.typ f.Name "ret" ""),
        Op.printf "PyObject *tuple = NULL;\n\n" []],
      if h.isGoString (newVar cpy.Package f.typ f.Name "ret" "") = true then
        [Op.printf "c_%[1]s = CGoPy_GoString((char*)cgopy_%[1]s);\n" [.str "ret"]] else [],
      [Op.printf "return 0;\n" [], Op.outdent, Op.printf "\x7d\n\n" []], ?_, ?_, ?_, ?_, ?_⟩
    · simp only [cpyGen.genStructMemberSetter]
      split_ifs <;> simp [Var.Name, newVar]
    · simp
    · simp
    · simp
    · split_ifs <;> simp
  · refine ⟨getterImplOps h cpy i f, impl_getter h g cpy i f, ?_⟩
    simp only [getterImplOps, cpyGen.genStructMemberGetter, cpyGen.fresh]
    split_ifs <;> simp [strings_Join_singleton]


/-- C17: the getter of a field calls the retrieval entry point
`GoPy_<ID>_getter_<i+1>(self->cgopy)` once, then packs with one `Py_BuildValue` call, and
emits `free(...)` exactly when the field is a Go string; the `free` then stands right
after the `Py_BuildValue` call and right before `return o;`, and it releases `cgopy_ret`,
the variable passed to `Py_BuildValue`, which was assigned the duplicate made by
`CGoPy_CString`.  The hypothesis states that a type is not in the wrapped category and
the textual category at once. -/
theorem genStructMemberGetter_free (h : Helpers) (g : cpyGen) (cpy : Struct) (i : Nat)
    (f : FieldObj)
    (hcat : h.needWrapType f.typ = true →
      h.isGoString (newVar cpy.Package f.typ f.Name "ret" "") = false) :
    ∃ pre,
      (g.genStructMemberGetter h cpy i f).impl.ops = g.impl.ops ++ pre ++
        (if h.isGoString (newVar cpy.Package f.typ f.Name "ret" "") = true then
          [Op.call .genDecl (newVar cpy.Package f.typ f.Name "ret" ""),
           Op.printf "c_ret = (%[1]s)GoPy_%[2]s_getter_%[3]d(self->cgopy);\n"
             [.str (h.cgoTypeName f.typ), .str cpy.ID, .int (i + 1)],
           Op.printf "cgopy_%[1]s = CGoPy_CString(c_%[1]s);\n" [.str "ret"]]
         else
          [Op.printf "%[1]s cgopy_ret = GoPy_%[2]s_getter_%[3]d(self->cgopy);\n"
             [.str (if h.needWrapType f.typ = true
                then "GoPy_" ++ cpy.GoName ++ "_field_" ++ toString (i + 1)
                else h.cgoTypeName f.typ),
              .str cpy.ID, .int (i + 1)]]) ++
        [Op.printf "o = Py_BuildValue(%q, %s);\n"
          [.str (h.getArgParse (newVar cpy.Package f.typ f.Name "ret" "")).1,
           .str "cgopy_ret"]] ++
        (if h.isGoString (newVar cpy.Package f.typ f.Name "ret" "") = true then
          [Op.printf "free((void*)cgopy_%[1]s);\n" [.str "ret"]] else []) ++
        [Op.printf "return o;\n" [], Op.outdent, Op.printf "\x7d\n\n" []] ∧
      printfArgs "%[1]s cgopy_ret = GoPy_%[2]s_getter_%[3]d(self->cgopy);\n" pre = [] ∧
      printfArgs "c_ret = (%[1]s)GoPy_%[2]s_getter_%[3]d(self->cgopy);\n" pre = [] ∧
      printfArgs "o = Py_BuildValue(%q, %s);\n" pre = [] ∧
      printfArgs "free((void*)cgopy_%[1]s);\n" pre = [] ∧
      "cgopy_" ++ (newVar cpy.Package f.typ f.Name "ret" "").Name = "cgopy_ret" := by
  refine ⟨[Op.printf "static PyObject*\n" [],
      Op.printf
        "_gopy_%[1]s_getter_%[2]d(_gopy_%[1]s *self, void *closure) /* %[3]s */ \x7b\n"
        [.str cpy.ID, .int (i + 1), .str f.Name],
      Op.indent, Op.printf "PyObject *o = NULL;\n" []], ?_, by simp, by simp, by simp, by simp,
    rfl⟩
  have hn : (newVar cpy.Package f.typ f.Name "ret" "").Name = "ret" := rfl
  simp only [cpyGen.genStructMemberGetter]
  by_cases hw : h.needWrapType f.typ = true
  · have hs := hcat hw
    simp [hw, hs, strings_Join_singleton]
  · by_cases hs : h.isGoString (newVar cpy.Package f.typ f.Name "ret" "") = true <;>
      simp [hw, hs, strings_Join_singleton, hn]

/-- C17 on the field `Text string` of `Note`: the getter fetches once, duplicates into
`cgopy_ret`, packs it, frees it and returns. -/
theorem genStructMemberGetter_free_witness :
    (sampleHelpers.needWrapType (⟨"Text", true, ⟨"string"⟩⟩ : FieldObj).typ = true →
      sampleHelpers.isGoString (newVar noteStruct.Package ⟨"string"⟩ "Text" "ret" "") = false) ∧
    ∃ pre,
      (g0.genStructMemberGetter sampleHelpers noteStruct 0 ⟨"Text", true, ⟨"string"⟩⟩).impl.ops
        = g0.impl.ops ++ pre ++
        (if sampleHelpers.isGoString (newVar noteStruct.Package ⟨"string"⟩ "Text" "ret" "")
            = true then
          [Op.call .genDecl (newVar noteStruct.Package ⟨"string"⟩ "Text" "ret" ""),
           Op.printf "c_ret = (%[1]s)GoPy_%[2]s_getter_%[3]d(self->cgopy);\n"
             [.str "Gostring", .str "pkg_Note", .int 1],
           Op.printf "cgopy_%[1]s = CGoPy_CString(c_%[1]s);\n" [.str "ret"]]
         else
          [Op.printf "%[1]s cgopy_ret = GoPy_%[2]s_getter_%[3]d(self->cgopy);\n"
             [.str (if sampleHelpers.needWrapType ⟨"string"⟩ = true
                then "GoPy_" ++ noteStruct.GoName ++ "_field_" ++ toString (0 + 1)
                else sampleHelpers.cgoTypeName ⟨"string"⟩),
              .str "pkg_Note", .int 1]]) ++
        [Op.printf "o = Py_BuildValue(%q, %s);\n" [.str "s", .str "cgopy_ret"]] ++
        (if sampleHelpers.isGoString (newVar noteStruct.Package ⟨"string"⟩ "Text" "ret" "")
            = true then
          [Op.printf "free((void*)cgopy_%[1]s);\n" [.str "ret"]] else []) ++
        [Op.printf "return o;\n" [], Op.outdent, Op.printf "\x7d\n\n" []] ∧
      printfArgs "%[1]s cgopy_ret = GoPy_%[2]s_getter_%[3]d(self->cgopy);\n" pre = [] ∧
      printfArgs "c_ret = (%[1]s)GoPy_%[2]s_getter_%[3]d(self->cgopy);\n" pre = [] ∧
      printfArgs "o = Py_BuildValue(%q, %s);\n" pre = [] ∧
      printfArgs "free((void*)cgopy_%[1]s);\n" pre = [] ∧
      "cgopy_" ++ (newVar noteStruct.Package ⟨"string"⟩ "Text" "ret" "").Name = "cgopy_ret" :=
  ⟨by decide,
   genStructMemberGetter_free sampleHelpers g0 noteStruct 0 ⟨"Text", true, ⟨"string"⟩⟩
     (by decide)⟩

/-! ## The error list -/

/-- C18: `gen` returns a non-nil error exactly when the error list of the generator is not
empty when generation completes (the list is then the returned error, and it is the list
the generator started with); whatever the list, both printers receive the same text: the
preamble and every struct in the declarations, every struct, every free function, the
function table and the module initializer in the implementation. -/
theorem gen_error_policy (h : Helpers) (ProtoStringer : Nat) (g : cpyGen) (e : List String) :
    (((cpyGen.gen h ProtoStringer { g with err := e }).2 = none ↔
        (cpyGen.gen h ProtoStringer { g with err := e }).1.err = []) ∧
      (cpyGen.gen h ProtoStringer { g with err := e }).2 = (if e = [] then none else some e) ∧
      (cpyGen.gen h ProtoStringer { g with err := e }).1.err = e) ∧
    (cpyGen.gen h ProtoStringer { g with err := e }).1.decl.ops = g.decl.ops ++
      [Op.printf cPreamble
        [.str g.pkg.pkg.Name, .str g.pkg.pkg.Path, .str (filepath.Base g.pkg.pkg.Name)]] ++
      g.pkg.structs.flatMap
        (fun s => ((cpyGen.fresh g.pkg).genStruct h ProtoStringer s).decl.ops) ∧
    (cpyGen.gen h ProtoStringer { g with err := e }).1.impl.ops = g.impl.ops ++
      g.pkg.structs.flatMap
        (fun s => ((cpyGen.fresh g.pkg).genStruct h ProtoStringer s).impl.ops) ++
      g.pkg.funcs.flatMap (fun f => ((cpyGen.fresh g.pkg).genFunc h f).impl.ops) ++
      funcTableOps g.pkg ++ moduleInitOps g.pkg := by
  rw [gen_eq]
  refine ⟨⟨?_, ?_, rfl⟩, ?_, ?_⟩
  · cases e <;> simp
  · cases e <;> simp
  · simp [genDeclOps, genStruct_eq, cpyGen.fresh]
  · simp [genImplOps, genStruct_eq, genFunc_eq, cpyGen.fresh]

/-! ## Indentation is kept -/

@[simp] theorem depthAfter_nil (d : Nat) : depthAfter d [] = some d := by
  cases d <;> rfl

@[simp] theorem depthAfter_indent (d : Nat) (l : List Op) :
    depthAfter d (Op.indent :: l) = depthAfter (d + 1) l := by
  cases d <;> rfl

@[simp] theorem depthAfter_outdent (d : Nat) (l : List Op) :
    depthAfter (d + 1) (Op.outdent :: l) = depthAfter d l := rfl

@[simp] theorem depthAfter_printf (d : Nat) (f : String) (a : List Arg) (l : List Op) :
    depthAfter d (Op.printf f a :: l) = depthAfter d l := by
  cases d <;> rfl

@[simp] theorem depthAfter_call (d : Nat) (m : VarMethod) (v : Var) (l : List Op) :
    depthAfter d (Op.call m v :: l) = depthAfter d l := by
  cases d <;> rfl

/-- Walking a concatenation is walking its parts in turn. -/
theorem depthAfter_append (d : Nat) (a b : List Op) :
    depthAfter d (a ++ b) = (depthAfter d a).bind (fun d2 => depthAfter d2 b) := by
  induction a generalizing d with
  | nil => simp
  | cons op a ih =>
    cases op with
    | printf f x => simp [ih]
    | indent => simp [ih]
    | outdent =>
      cases d with
      | zero => simp [depthAfter]
      | succ d => simp [ih]
    | call m v => simp [ih]

/-- A sequence that keeps every level, followed by another one. -/
theorem depthAfter_append_of_keeps (a b : List Op) (ha : ∀ d, depthAfter d a = some d)
    (d : Nat) : depthAfter d (a ++ b) = depthAfter d b := by
  rw [depthAfter_append, ha]
  rfl

theorem depthAfter_map_call (m : VarMethod) (l : List Var) (d : Nat) :
    depthAfter d (l.map (Op.call m)) = some d := by
  induction l with
  | nil => simp
  | cons a l ih => simp [ih]

theorem depthAfter_flatMap {α : Type} (l : List α) (G : α → List Op)
    (hG : ∀ a d, depthAfter d (G a) = some d) (d : Nat) :
    depthAfter d (l.flatMap G) = some d := by
  induction l with
  | nil => simp
  | cons a l ih =>
    rw [List.flatMap_cons, depthAfter_append_of_keeps _ _ (hG a), ih]

theorem depthAfter_funcBodyOps (h : Helpers) (f : Func) (d : Nat) :
    depthAfter d (funcBodyOps h f) = some d := by
  obtain ⟨id, name, doc, ⟨recv, args, res⟩, ret⟩ := f
  cases recv <;> cases args <;> rcases res with _ | ⟨r1, _ | ⟨r2, rs⟩⟩ <;>
    simp [funcBodyOps, fbDecls, fbRecvImpl, fbParse, fbPreamble, fbAssign, fbCall, fbReturn,
      depthAfter_append, depthAfter_map_call]


theorem depthAfter_funcImplOps (h : Helpers) (pkgname : String) (o : Func) (d : Nat) :
    depthAfter d (funcImplOps h pkgname o) = some d := by
  simp [funcImplOps, depthAfter_append, depthAfter_funcBodyOps]

theorem depthAfter_methodImplOps (h : Helpers) (pkgname : String) (cpy : Struct) (m : Func)
    (d : Nat) : depthAfter d (methodImplOps h pkgname cpy m) = some d := by
  simp [methodImplOps, depthAfter_append, depthAfter_funcBodyOps]

theorem depthAfter_methodDeclOps (pkgname : String) (cpy : Struct) (m : Func) (d : Nat) :
    depthAfter d (methodDeclOps pkgname cpy m) = some d := by
  simp [methodDeclOps]

theorem depthAfter_methodsImplOps (h : Helpers) (pkgname : String) (cpy : Struct) (d : Nat) :
    depthAfter d (methodsImplOps h pkgname cpy) = some d := by
  simp [methodsImplOps, depthAfter_append, List.map_eq_flatMap,
    depthAfter_flatMap _ _ (depthAfter_methodImplOps h pkgname cpy),
    depthAfter_flatMap _ (fun m : Func =>
      [Op.printf "\x7b%[1]q, (PyCFunction)gopy_%[2]s, %[3]s, %[4]q\x7d,\n"
        [.str m.GoName, .str m.ID,
         .str (if m.Return = none then "METH_NOARGS" else "METH_VARARGS"), .str m.Doc]])
      (fun m d => by simp)]

theorem depthAfter_methodsDeclOps (pkgname : String) (cpy : Struct) (d : Nat) :
    depthAfter d (methodsDeclOps pkgname cpy) = some d := by
  simp [methodsDeclOps, depthAfter_flatMap _ _ (depthAfter_methodDeclOps pkgname cpy)]

theorem depthAfter_hooks (cpy : Struct) (d : Nat) :
    depthAfter d (newDeclOps cpy) = some d ∧ depthAfter d (newImplOps cpy) = some d ∧
    depthAfter d (deallocDeclOps cpy) = some d ∧ depthAfter d (deallocImplOps cpy) = some d ∧
    depthAfter d (initDeclOps cpy) = some d ∧ depthAfter d (initImplOps cpy) = some d ∧
    depthAfter d (tpStrDeclOps cpy) = some d ∧ depthAfter d (structHeadDeclOps cpy) = some d ∧
    depthAfter d (typeRecordOps cpy) = some d := by
  simp [newDeclOps, newImplOps, deallocDeclOps, deallocImplOps, initDeclOps, initImplOps,
    tpStrDeclOps, structHeadDeclOps, typeRecordOps, cpyGen.genStructNew,
    cpyGen.genStructDealloc, cpyGen.genStructInit, cpyGen.fresh]

theorem depthAfter_tpStrImplOps (P : Nat) (cpy : Struct) (d : Nat) :
    depthAfter d (tpStrImplOps P cpy) = some d := by
  simp only [tpStrImplOps, cpyGen.genStructTPStr, cpyGen.fresh]
  split_ifs <;> simp

theorem depthAfter_accessors (h : Helpers) (cpy : Struct) (i : Nat) (f : FieldObj) (d : Nat) :
    depthAfter d (getterDeclOps h cpy i f) = some d ∧
    depthAfter d (getterImplOps h cpy i f) = some d ∧
    depthAfter d (setterDeclOps h cpy i f) = some d ∧
    depthAfter d (setterImplOps h cpy i f) = some d := by
  simp only [getterDeclOps, getterImplOps, setterDeclOps, setterImplOps,
    cpyGen.genStructMemberGetter, cpyGen.genStructMemberSetter, cpyGen.fresh]
  split_ifs <;> simp

theorem depthAfter_membersImplOps (h : Helpers) (cpy : Struct) (d : Nat) :
    depthAfter d (membersImplOps h cpy) = some d := by
  have ha : ∀ p d, depthAfter d (accessorImplOps h cpy p) = some d := fun p d => by
    rw [accessorImplOps, depthAfter_append_of_keeps _ _
      (fun d => (depthAfter_accessors h cpy p.1 p.2 d).2.1)]
    exact (depthAfter_accessors h cpy p.1 p.2 d).2.2.2
  have he : ∀ p d, depthAfter d (getsetEntryOps cpy p) = some d := fun p d => by
    simp [getsetEntryOps]
  simp [membersImplOps, depthAfter_append, depthAfter_flatMap _ _ ha,
    depthAfter_flatMap _ _ he]

theorem depthAfter_membersDeclOps (h : Helpers) (cpy : Struct) (d : Nat) :
    depthAfter d (membersDeclOps h cpy) = some d := by
  have ha : ∀ p d, depthAfter d (accessorDeclOps h cpy p) = some d := fun p d => by
    rw [accessorDeclOps, depthAfter_append_of_keeps _ _
      (fun d => (depthAfter_accessors h cpy p.1 p.2 d).1)]
    exact (depthAfter_accessors h cpy p.1 p.2 d).2.2.1
  simp [membersDeclOps, depthAfter_flatMap _ _ ha]

theorem depthAfter_structImplOps (h : Helpers) (P : Nat) (pkgname : String) (cpy : Struct)
    (d : Nat) : depthAfter d (structImplOps h P pkgname cpy) = some d := by
  simp [structImplOps, depthAfter_append, depthAfter_hooks, depthAfter_membersImplOps,
    depthAfter_methodsImplOps, depthAfter_tpStrImplOps]

theorem depthAfter_structDeclOps (h : Helpers) (pkgname : String) (cpy : Struct) (d : Nat) :
    depthAfter d (structDeclOps h pkgname cpy) = some d := by
  simp [structDeclOps, depthAfter_append, depthAfter_hooks, depthAfter_membersDeclOps,
    depthAfter_methodsDeclOps]

theorem depthAfter_genImplOps (h : Helpers) (P : Nat) (p : Package) (d : Nat) :
    depthAfter d (genImplOps h P p) = some d := by
  simp [genImplOps, funcTableOps, moduleInitOps, depthAfter_append, List.map_eq_flatMap,
    depthAfter_flatMap _ _ (depthAfter_structImplOps h P p.pkg.Name),
    depthAfter_flatMap _ _ (depthAfter_funcImplOps h p.pkg.Name),
    depthAfter_flatMap _ (fun f : Func =>
      [Op.printf "\x7b%[1]q, %[2]s, METH_VARARGS, %[3]q\x7d,\n"
        [.str f.GoName, .str ("gopy_" ++ f.ID), .str f.Doc]]) (fun f d => by simp),
    depthAfter_flatMap _ (fun s : Struct =>
      [Op.printf "if (PyType_Ready(&_gopy_%sType) < 0) \x7b return; \x7d\n" [.str s.ID]])
      (fun s d => by simp),
    depthAfter_flatMap _ (fun s : Struct =>
      [Op.printf "Py_INCREF(&_gopy_%sType);\n" [.str s.ID],
       Op.printf "PyModule_AddObject(module, %q, (PyObject*)&_gopy_%sType);\n\n"
         [.str s.GoName, .str s.ID]]) (fun s d => by simp)]

theorem depthAfter_genDeclOps (h : Helpers) (p : Package) (d : Nat) :
    depthAfter d (genDeclOps h p) = some d := by
  simp [genDeclOps, depthAfter_flatMap _ _ (depthAfter_structDeclOps h p.pkg.Name)]

/-- Appending sequences that keep the level keeps the indentation. -/
theorem keepsIndent_emit (g : cpyGen) (D I : List Op) (hD : depthAfter 0 D = some 0)
    (hI : depthAfter 0 I = some 0) : KeepsIndent g (g.emit D I) :=
  ⟨D, I, rfl, rfl, hD, hI⟩

/-- C19: every operation of the generator appends to both printers sequences in which
every `Outdent` closes an earlier `Indent` of the same sequence and no `Indent` stays
open: the level never goes below the level on entry and is back at it on return (also on
the early return of `genFuncBody` for a function without results and on both branches of
`genStructTPStr`); starting from printers that have not been written to, `gen` leaves
both at level zero. -/
theorem generator_keeps_indentation (h : Helpers) (ProtoStringer : Nat) (g : cpyGen) :
    KeepsIndent g (g.gen h ProtoStringer).1 ∧
    (∀ f, KeepsIndent g (g.genFunc h f)) ∧
    (∀ f, KeepsIndent g (g.genFuncBody h f)) ∧
    (∀ cpy, KeepsIndent g (g.genStruct h ProtoStringer cpy)) ∧
    (∀ cpy, KeepsIndent g (g.genStructNew cpy)) ∧
    (∀ cpy, KeepsIndent g (g.genStructDealloc cpy)) ∧
    (∀ cpy, KeepsIndent g (g.genStructInit cpy)) ∧
    (∀ cpy, KeepsIndent g (g.genStructMembers h cpy)) ∧
    (∀ cpy i f, KeepsIndent g (g.genStructMemberGetter h cpy i f)) ∧
    (∀ cpy i f, KeepsIndent g (g.genStructMemberSetter h cpy i f)) ∧
    (∀ cpy, KeepsIndent g (g.genStructMethods h cpy)) ∧
    (∀ cpy m, KeepsIndent g (g.genMethod h cpy m)) ∧
    (∀ cpy, KeepsIndent g (g.genStructTPStr ProtoStringer cpy)) ∧
    (∀ p, depthAfter 0 ((cpyGen.fresh p).gen h ProtoStringer).1.decl.ops = some 0 ∧
      depthAfter 0 ((cpyGen.fresh p).gen h ProtoStringer).1.impl.ops = some 0) := by
  refine ⟨?_, ?_, ?_, ?_, ?_, ?_, ?_, ?_, ?_, ?_, ?_, ?_, ?_, ?_⟩
  · rw [gen_eq]
    exact keepsIndent_emit _ _ _ (depthAfter_genDeclOps h _ 0)
      (depthAfter_genImplOps h ProtoStringer _ 0)
  · intro f
    rw [genFunc_eq]
    exact keepsIndent_emit _ _ _ rfl (depthAfter_funcImplOps h _ f 0)
  · intro f
    rw [genFuncBody_eq]
    exact keepsIndent_emit _ _ _ rfl (depthAfter_funcBodyOps h f 0)
  · intro cpy
    rw [genStruct_eq]
    exact keepsIndent_emit _ _ _ (depthAfter_structDeclOps h _ cpy 0)
      (depthAfter_structImplOps h ProtoStringer _ cpy 0)
  · intro cpy
    rw [genStructNew_eq]
    exact keepsIndent_emit _ _ _ (depthAfter_hooks cpy 0).1 (depthAfter_hooks cpy 0).2.1
  · intro cpy
    rw [genStructDealloc_eq]
    exact keepsIndent_emit _ _ _ (depthAfter_hooks cpy 0).2.2.1 (depthAfter_hooks cpy 0).2.2.2.1
  · intro cpy
    rw [genStructInit_eq]
    exact keepsIndent_emit _ _ _ (depthAfter_hooks cpy 0).2.2.2.2.1
      (depthAfter_hooks cpy 0).2.2.2.2.2.1
  · intro cpy
    rw [genStructMembers_eq]
    exact keepsIndent_emit _ _ _ (depthAfter_membersDeclOps h cpy 0)
      (depthAfter_membersImplOps h cpy 0)
  · intro cpy i f
    rw [genStructMemberGetter_eq]
    exact keepsIndent_emit _ _ _ (depthAfter_accessors h cpy i f 0).1
      (depthAfter_accessors h cpy i f 0).2.1
  · intro cpy i f
    rw [genStructMemberSetter_eq]
    exact keepsIndent_emit _ _ _ (depthAfter_accessors h cpy i f 0).2.2.1
      (depthAfter_accessors h cpy i f 0).2.2.2
  · intro cpy
    rw [genStructMethods_eq]
    exact keepsIndent_emit _ _ _ (depthAfter_methodsDeclOps _ cpy 0)
      (depthAfter_methodsImplOps h _ cpy 0)
  · intro cpy m
    rw [genMethod_eq]
    exact keepsIndent_emit _ _ _ (depthAfter_methodDeclOps _ cpy m 0)
      (depthAfter_methodImplOps h _ cpy m 0)
  · intro cpy
    rw [genStructTPStr_eq]
    exact keepsIndent_emit _ _ _ (depthAfter_hooks cpy 0).2.2.2.2.2.2.1
      (depthAfter_tpStrImplOps ProtoStringer cpy 0)
  · intro p
    rw [gen_eq]
    simp [cpyGen.fresh, depthAfter_genDeclOps, depthAfter_genImplOps]

/-! ## Defined symbols -/

theorem string_append_left_cancel {p a b : String} (hx : p ++ a = p ++ b) : a = b := by
  have hd := congrArg String.data hx
  simp only [String.data_append] at hd
  exact String.ext (List.append_cancel_left hd)

theorem gopy_prefix_ne (a b : String) : "GoPy_" ++ a ≠ "_gopy_" ++ b := by
  intro hx
  have hd := congrArg String.data hx
  simp [String.data_append] at hd

@[simp] theorem definedSymbols_nil : definedSymbols [] = [] := rfl

@[simp] theorem definedSymbols_append (a b : List Op) :
    definedSymbols (a ++ b) = definedSymbols a ++ definedSymbols b := by
  simp [definedSymbols]

theorem definedSymbols_cons (op : Op) (l : List Op) :
    definedSymbols (op :: l) = (definedSymbol op).toList ++ definedSymbols l := by
  cases hs : definedSymbol op <;> simp [definedSymbols, List.filterMap_cons, hs]

theorem definedSymbols_flatMap {α : Type} (l : List α) (G : α → List Op) :
    definedSymbols (l.flatMap G) = l.flatMap (fun a => definedSymbols (G a)) := by
  simp [definedSymbols, List.filterMap_flatMap]

/-- Only the calls with a format of `symbolFormats` define a symbol. -/
theorem definedSymbol_format (op : Op) (x : String) (hx : definedSymbol op = some x) :
    ∃ f a, op = Op.printf f a ∧ f ∈ symbolFormats := by
  cases op with
  | printf f a =>
    refine ⟨f, a, rfl, ?_⟩
    rcases a with _ | ⟨a1, _ | ⟨a2, _ | ⟨a3, _ | ⟨a4, as⟩⟩⟩⟩
    · simp [definedSymbol] at hx
    · cases a1 with
      | str id =>
        simp only [definedSymbol] at hx
        simp only [symbolFormats, List.mem_cons]
        split_ifs at hx <;> simp_all
      | int n => simp [definedSymbol] at hx
    · cases a1 <;> cases a2 <;> simp only [definedSymbol] at hx
      all_goals first
        | (simp only [symbolFormats, List.mem_cons]; split_ifs at hx <;> simp_all)
        | simp at hx
    · cases a1 <;> cases a2 <;> cases a3 <;> simp only [definedSymbol] at hx
      all_goals first
        | (simp only [symbolFormats, List.mem_cons]; split_ifs at hx <;> simp_all)
        | simp at hx
    · cases a1 <;> cases a2 <;> cases a3 <;> simp [definedSymbol] at hx
  | indent => simp [definedSymbol] at hx
  | outdent => simp [definedSymbol] at hx
  | call m v => simp [definedSymbol] at hx

/-- A sequence whose formats avoid `symbolFormats` defines no symbol. -/
theorem definedSymbols_of_covered (ops : List Op) (L : List String)
    (hL : ∀ F ∈ formats ops, F ∈ L) (hdis : ∀ F ∈ L, F ∉ symbolFormats) :
    definedSymbols ops = [] := by
  rw [definedSymbols, List.filterMap_eq_nil_iff]
  intro op hop
  cases hs : definedSymbol op with
  | none => rfl
  | some x =>
    obtain ⟨f, a, rfl, hf⟩ := definedSymbol_format op x hs
    exact absurd hf (hdis f (hL f (by
      simp only [formats, List.mem_filterMap]
      exact ⟨_, hop, rfl⟩)))

theorem definedSymbols_funcBodyOps (h : Helpers) (f : Func) :
    definedSymbols (funcBodyOps h f) = [] :=
  definedSymbols_of_covered _ _ (formats_funcBodyOps h f) (by decide)

theorem definedSymbols_hooks (cpy : Struct) :
    definedSymbols (structHeadDeclOps cpy) = ["GoPy_" ++ cpy.ID, "_gopy_" ++ cpy.ID] ∧
    definedSymbols (newDeclOps cpy) = [] ∧
    definedSymbols (newImplOps cpy) = ["_gopy_" ++ cpy.ID ++ "_new"] ∧
    definedSymbols (deallocDeclOps cpy) = [] ∧
    definedSymbols (deallocImplOps cpy) = ["_gopy_" ++ cpy.ID ++ "_dealloc"] ∧
    definedSymbols (initDeclOps cpy) = [] ∧
    definedSymbols (initImplOps cpy) = ["_gopy_" ++ cpy.ID ++ "_init"] ∧
    definedSymbols (tpStrDeclOps cpy) = [] ∧
    definedSymbols (typeRecordOps cpy) = ["_gopy_" ++ cpy.ID ++ "Type"] := by
  simp [structHeadDeclOps, newDeclOps, newImplOps, deallocDeclOps, deallocImplOps, initDeclOps,
    initImplOps, tpStrDeclOps, typeRecordOps, cpyGen.genStructNew, cpyGen.genStructDealloc,
    cpyGen.genStructInit, cpyGen.fresh, definedSymbols_cons, definedSymbol]

theorem definedSymbols_tpStrImplOps (P : Nat) (cpy : Struct) :
    definedSymbols (tpStrImplOps P cpy) = ["_gopy_" ++ cpy.ID ++ "_tp_str"] := by
  simp only [tpStrImplOps, cpyGen.genStructTPStr, cpyGen.fresh]
  split_ifs <;> simp [definedSymbols_cons, definedSymbol]

theorem definedSymbols_accessors (h : Helpers) (cpy : Struct) (p : Nat × FieldObj) :
    definedSymbols (accessorDeclOps h cpy p) = [] ∧
    definedSymbols (accessorImplOps h cpy p) =
      ["_gopy_" ++ cpy.ID ++ "_getter_" ++ toString (p.1 + 1),
       "_gopy_" ++ cpy.ID ++ "_setter_" ++ toString (p.1 + 1)] := by
  simp only [accessorDeclOps, accessorImplOps, getterDeclOps, getterImplOps, setterDeclOps,
    setterImplOps, cpyGen.genStructMemberGetter, cpyGen.genStructMemberSetter, cpyGen.fresh]
  split_ifs <;> simp [definedSymbols_cons, definedSymbol]

theorem definedSymbols_members (h : Helpers) (cpy : Struct) :
    definedSymbols (membersDeclOps h cpy) = [] ∧
    definedSymbols (membersImplOps h cpy) =
      (exportedFields cpy).flatMap (fun p =>
        ["_gopy_" ++ cpy.ID ++ "_getter_" ++ toString (p.1 + 1),
         "_gopy_" ++ cpy.ID ++ "_setter_" ++ toString (p.1 + 1)]) ++
      ["_gopy_" ++ cpy.ID ++ "_getsets"] := by
  constructor
  · simp [membersDeclOps, definedSymbols_flatMap, definedSymbols_accessors, flatMap_nil_fun,
      definedSymbols_cons, definedSymbol]
  · simp [membersImplOps, definedSymbols_flatMap, definedSymbols_accessors, getsetEntryOps,
      flatMap_nil_fun, definedSymbols_cons, definedSymbol]

theorem definedSymbols_methods (h : Helpers) (pkgname : String) (cpy : Struct) :
    definedSymbols (methodsDeclOps pkgname cpy) = [] ∧
    definedSymbols (methodsImplOps h pkgname cpy) = ["_gopy_" ++ cpy.ID ++ "_methods"] := by
  constructor
  · simp [methodsDeclOps, methodDeclOps, definedSymbols_flatMap, flatMap_nil_fun,
      definedSymbols_cons, definedSymbol]
  · simp [methodsImplOps, methodImplOps, definedSymbols_flatMap, definedSymbols_funcBodyOps,
      List.map_eq_flatMap, flatMap_nil_fun, definedSymbols_cons, definedSymbol]

/-- The symbols `genStruct` defines for a struct, in emission order. -/
theorem structSymbols_eq (h : Helpers) (P : Nat) (p : Package) (cpy : Struct) :
    structSymbols h P p cpy =
      ["GoPy_" ++ cpy.ID, "_gopy_" ++ cpy.ID, "_gopy_" ++ cpy.ID ++ "_new",
       "_gopy_" ++ cpy.ID ++ "_dealloc", "_gopy_" ++ cpy.ID ++ "_init"] ++
      (cpy.Struct.fields.enum.filter (fun q => q.2.Exported)).flatMap (fun q =>
        ["_gopy_" ++ cpy.ID ++ "_getter_" ++ toString (q.1 + 1),
         "_gopy_" ++ cpy.ID ++ "_setter_" ++ toString (q.1 + 1)]) ++
      ["_gopy_" ++ cpy.ID ++ "_getsets", "_gopy_" ++ cpy.ID ++ "_methods",
       "_gopy_" ++ cpy.ID ++ "_tp_str", "_gopy_" ++ cpy.ID ++ "Type"] := by
  rw [structSymbols, genStruct_eq]
  simp [cpyGen.fresh, structDeclOps, structImplOps, definedSymbols_hooks,
    definedSymbols_members, (definedSymbols_methods h p.pkg.Name cpy).1,
    (definedSymbols_methods h p.pkg.Name cpy).2, definedSymbols_tpStrImplOps,
    definedSymbols_cons, definedSymbol, exportedFields]

theorem toDigitsCore_isDigit (fuel n : Nat) (ds : List Char)
    (hds : ∀ c ∈ ds, c.isDigit = true) :
    ∀ c ∈ Nat.toDigitsCore 10 fuel n ds, c.isDigit = true := by
  induction fuel generalizing n ds with
  | zero => simpa [Nat.toDigitsCore] using hds
  | succ k ih =>
    have hd : (Nat.digitChar (n % 10)).isDigit = true := by
      have hlt : n % 10 < 10 := Nat.mod_lt _ (by decide)
      interval_cases (n % 10) <;> decide
    have hcons : ∀ c ∈ Nat.digitChar (n % 10) :: ds, c.isDigit = true := by
      intro c hc
      rcases List.mem_cons.1 hc with rfl | hc
      · exact hd
      · exact hds c hc
    simp only [Nat.toDigitsCore]
    split_ifs
    · exact hcons
    · exact ih _ _ hcons

/-- The decimal numeral of a natural number consists of digits. -/
theorem toString_isDigit (n : Nat) : ∀ c ∈ (toString n).data, c.isDigit = true := by
  have h : (toString n).data = Nat.toDigits 10 n := rfl
  rw [h]
  exact toDigitsCore_isDigit _ _ _ (by simp)

/-- Digits in front of a string that does not start with a digit can be taken off on both
sides of an equation. -/
theorem digits_append_cancel (xs ys u v : List Char)
    (hx : ∀ c ∈ xs, c.isDigit = true) (hy : ∀ c ∈ ys, c.isDigit = true)
    (hu : ∀ c, u.head? = some c → c.isDigit = false)
    (hv : ∀ c, v.head? = some c → c.isDigit = false) (he : xs ++ u = ys ++ v) : u = v := by
  induction xs generalizing ys with
  | nil =>
    cases ys with
    | nil => simpa using he
    | cons y ys =>
      simp only [List.nil_append, List.cons_append] at he
      have h1 := hu y (by simp [he])
      have h2 := hy y (by simp)
      simp [h1] at h2
  | cons x xs ih =>
    cases ys with
    | nil =>
      simp only [List.nil_append, List.cons_append] at he
      have h1 := hv x (by simp [← he])
      have h2 := hx x (by simp)
      simp [h1] at h2
    | cons y ys =>
      simp only [List.cons_append, List.cons.injEq] at he
      exact ih ys (fun c hc => hx c (List.mem_cons_of_mem _ hc))
        (fun c hc => hy c (List.mem_cons_of_mem _ hc)) he.2

/-- The reversed fixed parts of the suffixes: none of them starts with a digit. -/
theorem suffix_lit_head (l : List Char)
    (hl : l ∈ ["_new".data.reverse, "_dealloc".data.reverse, "_init".data.reverse,
      "_getter_".data.reverse, "_setter_".data.reverse, "_getsets".data.reverse,
      "_methods".data.reverse, "_tp_str".data.reverse, "Type".data.reverse])
    (x : List Char) (c : Char) (hc : (l ++ x).head? = some c) : c.isDigit = false := by
  simp only [List.mem_cons, List.mem_singleton, List.not_mem_nil, or_false] at hl
  rcases hl with rfl | rfl | rfl | rfl | rfl | rfl | rfl | rfl | rfl <;>
    · simp at hc
      subst hc
      decide

/-- None of the fixed parts of the suffixes ends another one: what stands before two of
them in the same string is the same. -/
theorem suffix_lit_cancel (l1 l2 : List Char)
    (h1 : l1 ∈ ["_new".data.reverse, "_dealloc".data.reverse, "_init".data.reverse,
      "_getter_".data.reverse, "_setter_".data.reverse, "_getsets".data.reverse,
      "_methods".data.reverse, "_tp_str".data.reverse, "Type".data.reverse])
    (h2 : l2 ∈ ["_new".data.reverse, "_dealloc".data.reverse, "_init".data.reverse,
      "_getter_".data.reverse, "_setter_".data.reverse, "_getsets".data.reverse,
      "_methods".data.reverse, "_tp_str".data.reverse, "Type".data.reverse])
    (x y : List Char) (he : l1 ++ x = l2 ++ y) : x = y := by
  simp only [List.mem_cons, List.mem_singleton, List.not_mem_nil, or_false] at h1 h2
  rcases h1 with rfl | rfl | rfl | rfl | rfl | rfl | rfl | rfl | rfl <;>
    rcases h2 with rfl | rfl | rfl | rfl | rfl | rfl | rfl | rfl | rfl <;>
    simp at he <;> exact he

/-- Every suffix is one of the fixed parts followed by digits. -/
theorem symbolSuffixes_shape (cpy : Struct) (s : String) (hs : s ∈ symbolSuffixes cpy) :
    ∃ ds lit, s.data.reverse = ds ++ lit ∧ (∀ c ∈ ds, c.isDigit = true) ∧
      lit ∈ ["_new".data.reverse, "_dealloc".data.reverse, "_init".data.reverse,
        "_getter_".data.reverse, "_setter_".data.reverse, "_getsets".data.reverse,
        "_methods".data.reverse, "_tp_str".data.reverse, "Type".data.reverse] := by
  simp only [symbolSuffixes, List.mem_append, List.mem_cons, List.mem_singleton,
    List.not_mem_nil, or_false, List.mem_flatMap] at hs
  rcases hs with ((hs | hs | hs) | ⟨q, _, hs | hs⟩) | hs | hs | hs | hs
  · exact ⟨[], _, by rw [hs]; rfl, by simp, by simp⟩
  · exact ⟨[], _, by rw [hs]; rfl, by simp, by simp⟩
  · exact ⟨[], _, by rw [hs]; rfl, by simp, by simp⟩
  · refine ⟨(toString (q.1 + 1)).data.reverse, "_getter_".data.reverse, ?_, ?_, by simp⟩
    · rw [hs, String.data_append, List.reverse_append]
    · intro c hc
      exact toString_isDigit _ c (List.mem_reverse.1 hc)
  · refine ⟨(toString (q.1 + 1)).data.reverse, "_setter_".data.reverse, ?_, ?_, by simp⟩
    · rw [hs, String.data_append, List.reverse_append]
    · intro c hc
      exact toString_isDigit _ c (List.mem_reverse.1 hc)
  · exact ⟨[], _, by rw [hs]; rfl, by simp, by simp⟩
  · exact ⟨[], _, by rw [hs]; rfl, by simp, by simp⟩
  · exact ⟨[], _, by rw [hs]; rfl, by simp, by simp⟩
  · exact ⟨[], _, by rw [hs]; rfl, by simp, by simp⟩

/-- Two identifiers followed by suffixes of the generator give the same name only when the
identifiers are the same. -/
theorem symbolSuffixes_cancel (cpy1 cpy2 : Struct) (a b s t : String)
    (hs : s ∈ symbolSuffixes cpy1) (ht : t ∈ symbolSuffixes cpy2) (he : a ++ s = b ++ t) :
    a = b := by
  obtain ⟨ds1, l1, hs1, hd1, hl1⟩ := symbolSuffixes_shape cpy1 s hs
  obtain ⟨ds2, l2, hs2, hd2, hl2⟩ := symbolSuffixes_shape cpy2 t ht
  have hr := congrArg (fun x => x.data.reverse) he
  simp only [String.data_append, List.reverse_append] at hr
  rw [hs1, hs2, List.append_assoc, List.append_assoc] at hr
  have h1 := digits_append_cancel ds1 ds2 _ _ hd1 hd2
    (suffix_lit_head l1 hl1 _) (suffix_lit_head l2 hl2 _) hr
  have h2 := suffix_lit_cancel l1 l2 hl1 hl2 _ _ h1
  exact String.ext (List.reverse_injective h2)

/-- The symbols of a struct, by suffix. -/
theorem structSymbols_suffixes (h : Helpers) (P : Nat) (p : Package) (cpy : Struct) :
    structSymbols h P p cpy =
      ("GoPy_" ++ cpy.ID) :: ("_gopy_" ++ cpy.ID) ::
        (symbolSuffixes cpy).map (fun s => "_gopy_" ++ cpy.ID ++ s) := by
  rw [structSymbols_eq]
  simp [symbolSuffixes, List.map_flatMap, String.append_assoc]

theorem mem_structSymbols (h : Helpers) (P : Nat) (p : Package) (cpy : Struct) (x : String) :
    x ∈ structSymbols h P p cpy ↔
      x = "GoPy_" ++ cpy.ID ∨ x = "_gopy_" ++ cpy.ID ∨
        ∃ s ∈ symbolSuffixes cpy, x = "_gopy_" ++ (cpy.ID ++ s) := by
  rw [structSymbols_suffixes]
  simp only [List.mem_cons, List.mem_map, String.append_assoc]
  constructor
  · rintro (hx | hx | ⟨s, hs, hx⟩)
    · exact Or.inl hx
    · exact Or.inr (Or.inl hx)
    · exact Or.inr (Or.inr ⟨s, hs, hx.symm⟩)
  · rintro (hx | hx | ⟨s, hs, hx⟩)
    · exact Or.inl hx
    · exact Or.inr (Or.inl hx)
    · exact Or.inr (Or.inr ⟨s, hs, hx.symm⟩)

/-- C20 fails as stated: the structs `T` and `T_getter_1` have distinct identifiers, yet
the getter of the first field of `T` and the wrapper typedef of `T_getter_1` are both named
`_gopy_pkg_T_getter_1`. -/
theorem structSymbols_collision_counterexample :
    mixedStruct.ID ≠ getterNamedStruct.ID ∧
    "_gopy_pkg_T_getter_1" ∈ structSymbols sampleHelpers 1 samplePackage mixedStruct ∧
    "_gopy_pkg_T_getter_1" ∈ structSymbols sampleHelpers 1 samplePackage getterNamedStruct := by
  refine ⟨by decide, ?_, ?_⟩ <;> rw [structSymbols_eq] <;> decide

/-- C20, as amended: the symbols `genStruct` defines for a struct are the typedefs
`GoPy_<ID>` and `_gopy_<ID>` and the names `_gopy_<ID><suffix>` for the suffixes of the
struct (`_new`, `_dealloc`, `_init`, `_getter_<n>` and `_setter_<n>` of the exported fields,
`_getsets`, `_methods`, `_tp_str`, `Type`); for two structs with distinct identifiers, no
symbol of one is a symbol of the other exactly when neither identifier is the other
identifier followed by one of the suffixes of that other struct. -/
theorem structSymbols_disjoint (h : Helpers) (ProtoStringer : Nat) (p : Package)
    (cpy1 cpy2 : Struct) (hne : cpy1.ID ≠ cpy2.ID) :
    structSymbols h ProtoStringer p cpy1 =
      ("GoPy_" ++ cpy1.ID) :: ("_gopy_" ++ cpy1.ID) ::
        (symbolSuffixes cpy1).map (fun s => "_gopy_" ++ cpy1.ID ++ s) ∧
    structSymbols h ProtoStringer p cpy2 =
      ("GoPy_" ++ cpy2.ID) :: ("_gopy_" ++ cpy2.ID) ::
        (symbolSuffixes cpy2).map (fun s => "_gopy_" ++ cpy2.ID ++ s) ∧
    ((∀ x ∈ structSymbols h ProtoStringer p cpy1, x ∉ structSymbols h ProtoStringer p cpy2) ↔
      (∀ s ∈ symbolSuffixes cpy1, cpy2.ID ≠ cpy1.ID ++ s) ∧
      (∀ s ∈ symbolSuffixes cpy2, cpy1.ID ≠ cpy2.ID ++ s)) := by
  refine ⟨structSymbols_suffixes h ProtoStringer p cpy1,
    structSymbols_suffixes h ProtoStringer p cpy2, ?_, ?_⟩
  · intro hdis
    constructor
    · intro s hs hid
      refine hdis ("_gopy_" ++ cpy2.ID) ?_ ?_
      · exact (mem_structSymbols h ProtoStringer p cpy1 _).2
          (Or.inr (Or.inr ⟨s, hs, by rw [hid]⟩))
      · exact (mem_structSymbols h ProtoStringer p cpy2 _).2 (Or.inr (Or.inl rfl))
    · intro s hs hid
      refine hdis ("_gopy_" ++ cpy1.ID) ?_ ?_
      · exact (mem_structSymbols h ProtoStringer p cpy1 _).2 (Or.inr (Or.inl rfl))
      · exact (mem_structSymbols h ProtoStringer p cpy2 _).2
          (Or.inr (Or.inr ⟨s, hs, by rw [hid]⟩))
  · rintro ⟨h12, h21⟩ x hx1 hx2
    rcases (mem_structSymbols h ProtoStringer p cpy1 x).1 hx1 with h1 | h1 | ⟨s, hs, h1⟩ <;>
      rcases (mem_structSymbols h ProtoStringer p cpy2 x).1 hx2 with h2 | h2 | ⟨t, ht, h2⟩
    · exact hne (string_append_left_cancel (h1.symm.trans h2))
    · exact gopy_prefix_ne _ _ (h1.symm.trans h2)
    · exact gopy_prefix_ne _ _ (h1.symm.trans h2)
    · exact gopy_prefix_ne _ _ (h2.symm.trans h1)
    · exact hne (string_append_left_cancel (h1.symm.trans h2))
    · exact h21 t ht (string_append_left_cancel (h1.symm.trans h2))
    · exact gopy_prefix_ne _ _ (h2.symm.trans h1)
    · exact h12 s hs (string_append_left_cancel (h2.symm.trans h1))
    · exact hne (symbolSuffixes_cancel cpy1 cpy2 _ _ s t hs ht
        (string_append_left_cancel (h1.symm.trans h2)))

/-- C20 on the structs `Point` and `Point3D`: the identifier of the second starts with the
identifier of the first, but `3D` is none of the suffixes of `Point`, and no symbol of
`Point` is a symbol of `Point3D`. -/
theorem structSymbols_disjoint_witness :
    pointStruct.ID ≠ point3DStruct.ID ∧
    (∀ x ∈ structSymbols sampleHelpers 1 samplePackage pointStruct,
      x ∉ structSymbols sampleHelpers 1 samplePackage point3DStruct) :=
  ⟨by decide,
   (structSymbols_disjoint sampleHelpers 1 samplePackage pointStruct point3DStruct
     (by decide)).2.2.2 ⟨by decide, by decide⟩⟩
end Gencpy
